import Mathlib

/-!
# Weather-Forecast (`src/App.jsx`): a shallow embedding of the acquisition pipeline

JavaScript values are modelled by `JsVal`; a number is the rational it denotes.  The
temperature conversion is computed as the code computes it, in double precision: every
operation returns the double nearest to the exact result (`toDouble`), an infinity
when that is out of range; the sums and products of `generateMockDay` are taken
exactly.  Dates are time values in milliseconds since the epoch; the
clock and the time zone, like the other library functions whose code is not part of
the repository (`fetch`, `JSON.parse`, `encodeURIComponent`, `Math.random`,
`Math.sin`), are fields of an environment `Env`.  Asynchronous functions are run to
completion where they are called; sessions with overlapping searches are sequences of
the synchronous segments of `fetchWeather` (`Step`, `runSchedule`).
-/

namespace Weather

/-! ## JavaScript values -/

/-- JavaScript values as they come out of `JSON.parse`, plus `undefined`. -/
inductive JsVal where
  | undefined : JsVal
  | null : JsVal
  | bool (b : Bool) : JsVal
  | num (q : Rat) : JsVal
  | str (s : String) : JsVal
  | arr (xs : List JsVal) : JsVal
  | obj (kvs : List (String × JsVal)) : JsVal

instance : Inhabited JsVal := ⟨JsVal.undefined⟩

/-- Exceptions thrown by the modelled code and by the library functions. -/
inductive JsErr where
  | TypeError (msg : String) : JsErr
  | SyntaxError (msg : String) : JsErr
  | Error (msg : String) : JsErr
  deriving DecidableEq, Repr

/-- JavaScript truthiness (`ToBoolean`). -/
def isTruthy : JsVal → Bool
  | .undefined => false
  | .null => false
  | .bool b => b
  | .num q => decide (q ≠ 0)
  | .str s => decide (s ≠ "")
  | .arr _ => true
  | .obj _ => true

/-- First binding of a key in an object's property list. -/
def lookupKey (k : String) : List (String × JsVal) → JsVal
  | [] => .undefined
  | (k', v) :: rest => if k' = k then v else lookupKey k rest

/-- Property read `v.k` for the data keys that `App.jsx` reads (`error`, `current`,
`contents`, `location`, `daily`, ...; never `length` or a prototype member): a
`TypeError` on `null` and `undefined`, the own property of an object, and
`undefined` on every other value. -/
def getProp (v : JsVal) (k : String) : Except JsErr JsVal :=
  match v with
  | .undefined => .error (.TypeError "Cannot read properties of undefined")
  | .null => .error (.TypeError "Cannot read properties of null")
  | .obj kvs => .ok (lookupKey k kvs)
  | .arr _ => .ok .undefined
  | .str _ => .ok .undefined
  | .bool _ => .ok .undefined
  | .num _ => .ok .undefined

/-- Indexed read `v[i]`. -/
def getIndex (v : JsVal) (i : Nat) : Except JsErr JsVal :=
  match v with
  | .undefined => .error (.TypeError "Cannot read properties of undefined")
  | .null => .error (.TypeError "Cannot read properties of null")
  | .obj kvs => .ok (lookupKey (toString i) kvs)
  | .arr xs => .ok (xs.getD i .undefined)
  | .str s => .ok (match s.data.get? i with
      | some c => .str (String.singleton c)
      | none => .undefined)
  | .bool _ => .ok .undefined
  | .num _ => .ok .undefined

/-! ## Numbers -/

/-- The function `Math.round`: the nearest integer, a tie going to the larger one. -/
def Math_round (x : Rat) : Int :=
  if x - (Int.floor x : Rat) < 1 / 2 then Int.floor x else Int.floor x + 1

/-- The function `Math.floor`. -/
def Math_floor (x : Rat) : Int := Int.floor x

/-! ## Double-precision arithmetic -/

/-- A JavaScript number as an arithmetic operation returns it: a finite value, an
infinity (negative or positive) or NaN.  The sign of zero is not kept. -/
inductive JsNum where
  | fin (q : Rat) : JsNum
  | inf (negative : Bool) : JsNum
  | nan : JsNum
  deriving DecidableEq

/-- The nearest integer, a tie going to the even one. -/
def roundHalfEven (x : Rat) : Int :=
  if x - (Int.floor x : Rat) < 1 / 2 then Int.floor x
  else if 1 / 2 < x - (Int.floor x : Rat) then Int.floor x + 1
  else if Int.floor x % 2 = 0 then Int.floor x
  else Int.floor x + 1

/-- The exponent `e` for which the doubles around `q` are the multiples of `2 ^ e`:
53 significant bits, and `2 ^ (-1074)` as the least spacing. -/
def ulpExponent (q : Rat) : Int := max (Int.log 2 |q|) (-1022) - 52

/-- The double nearest to `q`, a tie going to the even significand, were the exponent
range unbounded above. -/
def nearestDouble (q : Rat) : Rat :=
  (roundHalfEven (q / 2 ^ ulpExponent q) : Rat) * 2 ^ ulpExponent q

/-- The constant `Number.MAX_VALUE`, the largest finite double. -/
def maxDouble : Rat := (2 ^ 53 - 1) * 2 ^ 971

/-- The double that an operation with exact result `q` returns: the nearest double,
or an infinity when that is beyond the largest finite double. -/
def toDouble (q : Rat) : JsNum :=
  if maxDouble < |nearestDouble q| then .inf (decide (q < 0)) else .fin (nearestDouble q)

/-- The product `x * c` of a number and a finite constant. -/
def JsNum.mul (x : JsNum) (c : Rat) : JsNum :=
  match x with
  | .fin q => toDouble (q * c)
  | .inf s => if c = 0 then .nan else .inf (if c < 0 then !s else s)
  | .nan => .nan

/-- The quotient `x / c` of a number by a finite constant. -/
def JsNum.div (x : JsNum) (c : Rat) : JsNum :=
  match x with
  | .fin q =>
    if c = 0 then (if q = 0 then .nan else .inf (decide (q < 0))) else toDouble (q / c)
  | .inf s => .inf (if c < 0 then !s else s)
  | .nan => .nan

/-- The sum `x + c` of a number and a finite constant. -/
def JsNum.add (x : JsNum) (c : Rat) : JsNum :=
  match x with
  | .fin q => toDouble (q + c)
  | .inf s => .inf s
  | .nan => .nan

/-- The function `Math.round` on a number: an infinity and NaN are returned as they
are. -/
def JsNum.round : JsNum → JsNum
  | .fin q => .fin (Math_round q)
  | x => x

/-! ## Strings -/

/-- The method `String.prototype.toLowerCase`, as it acts on the letters `A`–`Z`; every
other character is left as it is. -/
def toLowerCase (s : String) : String := String.mk (s.data.map Char.toLower)

/-- Whether `pat` is an initial segment of `text`. -/
def startsWithL : List Char → List Char → Bool
  | _, [] => true
  | [], _ :: _ => false
  | c :: text, p :: pat => c == p && startsWithL text pat

/-- Whether `pat` occurs in `text` as a contiguous block. -/
def includesL : List Char → List Char → Bool
  | [], pat => startsWithL [] pat
  | c :: text, pat => startsWithL (c :: text) pat || includesL text pat

/-- The method `String.prototype.includes`. -/
def includes (text pat : String) : Bool := includesL text.data pat.data

/-! ## Pure helpers of `App.jsx` -/

/-- The function `determineCondition` (App.jsx 53–60), on a string description. -/
def determineCondition (desc : String) : String :=
  let d := toLowerCase desc
  if includes d "rain" || includes d "drizzle" then "Rain"
  else if includes d "thunder" || includes d "storm" then "Storm"
  else if includes d "sun" || includes d "clear" then "Sunny"
  else if includes d "snow" || includes d "ice" || includes d "blizzard" then "Snow"
  else "Default"

/-- The method `Array.prototype.includes` of a list of number literals, at a value. -/
def numsInclude (xs : List Rat) : JsVal → Bool
  | .num q => decide (q ∈ xs)
  | _ => false

/-- The test `code === 0`. -/
def isZeroNum : JsVal → Bool
  | .num q => decide (q = 0)
  | _ => false

/-- The function `mapMeteoCode` (App.jsx 1089–1098). -/
def mapMeteoCode (code : JsVal) : String :=
  if isZeroNum code then "Sunny"
  else if numsInclude [1, 2, 3] code then "Partly Cloudy"
  else if numsInclude [45, 48] code then "Fog"
  else if numsInclude [51, 53, 55] code then "Drizzle"
  else if numsInclude [61, 63, 65, 80, 81, 82] code then "Rain"
  else if numsInclude [71, 73, 75, 77, 85, 86] code then "Snow"
  else if numsInclude [95, 96, 99] code then "Thunderstorm"
  else "Cloudy"

/-- The function `convertTemp` (App.jsx 44–47); `unit` is the component state it closes
over.  The expression `(temp * 9 / 5) + 32` is a product, a quotient and a sum, each
rounded to a double. -/
def convertTemp (unit : String) (temp : JsNum) : JsNum :=
  if unit = "F" then JsNum.round (((temp.mul 9).div 5).add 32) else temp

/-- The function `convert` of `CurrentWeather` (App.jsx 627). -/
def CurrentWeather.convert (unit : String) (t : JsNum) : JsNum :=
  if unit = "F" then JsNum.round (((t.mul 9).div 5).add 32) else t

/-- The function `convert` of `PastCard` (App.jsx 880). -/
def PastCard.convert (unit : String) (t : JsNum) : JsNum :=
  if unit = "F" then JsNum.round (((t.mul 9).div 5).add 32) else t

/-- The function `convert` of `WeekCard` (App.jsx 959). -/
def WeekCard.convert (unit : String) (t : JsNum) : JsNum :=
  if unit = "F" then JsNum.round (((t.mul 9).div 5).add 32) else t

/-- The number held by a value, if it is one. -/
def numOf : JsVal → Option Rat
  | .num q => some q
  | _ => none

/-- One entry of the list built by `generateHourly`; `emojiFor` is the description
handed to `getEmoji`. -/
structure HourEntry where
  time : String
  temp : JsNum
  emojiFor : String
  isNow : Bool

/-- The label `${h % 12 || 12}${h >= 12 ? 'PM' : 'AM'}` of `generateHourly`. -/
def hourLabel (h : Int) : String :=
  toString (if h % 12 = 0 then 12 else h % 12) ++ (if h ≥ 12 then "PM" else "AM")

/-- The function `generateHourly` (App.jsx 1056–1072).  `currentH` is `new Date().getHours()`
and `wave i` is the value of `Math.round(Math.sin(i / 2) * 5)`; the sum
`baseTemp + tempVar` is rounded to a double. -/
def generateHourly (currentH : Int) (wave : Int → Int) (baseTemp : Rat) (unit : String) :
    List HourEntry :=
  (List.range 13).map fun k : Nat =>
    let i : Int := (k : Int) - 4
    let h := (currentH + i + 24) % 24
    let tempVar := wave i
    let t := toDouble (baseTemp + tempVar)
    { time := hourLabel h
      temp := if unit = "F" then JsNum.round (((t.mul 9).div 5).add 32) else t
      emojiFor := if i % 3 = 0 then "Cloudy" else "Sunny"
      isNow := i == 0 }

/-- White space and line terminators removed by `String.prototype.trim`. -/
def isJsWhiteSpace (c : Char) : Bool :=
  c.val ∈ [0x09, 0x0A, 0x0B, 0x0C, 0x0D, 0x20, 0xA0, 0x1680, 0x2028, 0x2029, 0x202F,
    0x205F, 0x3000, 0xFEFF] || (0x2000 ≤ c.val && c.val ≤ 0x200A)

/-- The method `String.prototype.trim`. -/
def jsTrim (s : String) : String :=
  String.mk ((s.data.dropWhile isJsWhiteSpace).reverse.dropWhile isJsWhiteSpace).reverse

/-! ## Calendar dates -/

/-- Milliseconds in a day. -/
def msPerDay : Int := 86400000

/-- The civil date (year, month, day of the month) of the day with a given number in
the proleptic Gregorian calendar, day 0 being 1 January 1970.  Years are counted in
eras of 400 years that start on 1 March. -/
def civilFromDays (z : Int) : Int × Int × Int :=
  let z := z + 719468
  let era := z / 146097
  let doe := z % 146097
  let yoe := (doe - doe / 1460 + doe / 36524 - doe / 146096) / 365
  let doy := doe - (365 * yoe + yoe / 4 - yoe / 100)
  let mp := (5 * doy + 2) / 153
  let d := doy - (153 * mp + 2) / 5 + 1
  let m := if mp < 10 then mp + 3 else mp - 9
  (if m ≤ 2 then yoe + era * 400 + 1 else yoe + era * 400, m, d)

/-- The decimal digit of `n` at a place (1, 10, 100, ...). -/
def digitOf (n : Int) (place : Int) : Char := Nat.digitChar ((n / place) % 10).toNat

/-- The year of an ISO date: four digits from 0 to 9999, else a sign and six digits. -/
def isoYear (y : Int) : List Char :=
  if 0 ≤ y ∧ y ≤ 9999 then [digitOf y 1000, digitOf y 100, digitOf y 10, digitOf y 1]
  else (if y < 0 then '-' else '+') ::
    [digitOf |y| 100000, digitOf |y| 10000, digitOf |y| 1000, digitOf |y| 100,
      digitOf |y| 10, digitOf |y| 1]

/-- The ISO date `YYYY-MM-DD` of the day with a given number. -/
def isoDate (day : Int) : String :=
  match civilFromDays day with
  | (y, m, d) =>
    String.mk (isoYear y ++ ['-', digitOf m 10, digitOf m 1, '-', digitOf d 10, digitOf d 1])

/-- The string `d.toISOString().split('T')[0]` of a `Date` with time value `tv`
(milliseconds since the epoch, within the range of valid dates): the date in UTC. -/
def isoDateOf (tv : Int) : String := isoDate (tv / msPerDay)

/-! ## The environment: library and network -/

/-- The call site of a network request. -/
inductive Site where
  | direct : Site
  | proxy : Site
  | archive : Site
  | airQuality : Site
  deriving DecidableEq, Repr

/-- The result of `fetch`: a response whose body `json()` parses or rejects. -/
structure Response where
  json : Except JsErr JsVal

/-- What the code takes from outside the repository. -/
structure Env where
  /-- The call `fetch(url)` made at a call site: it throws, or resolves to a response.
  The four call sites address four different hosts, so the environment answers each
  site on its own. -/
  fetch : Site → String → Except JsErr Response
  /-- The function `JSON.parse`. -/
  JSON_parse : JsVal → Except JsErr JsVal
  /-- The function `encodeURIComponent`. -/
  encodeURIComponent : String → String
  /-- String conversion of a non-string value inside a template literal. -/
  templateOther : JsVal → Except JsErr String
  /-- The value of `Math.round` at a value that is not a number (after `ToNumber`). -/
  roundOther : JsVal → JsVal
  /-- The time value (milliseconds since the epoch) that the `n`-th `new Date()` of a
  call of `fetchHistoricalData` reads off the clock. -/
  clock : Nat → Int
  /-- The offset `LocalTZA(t, isUTC)` of the local time zone, in milliseconds: at the
  UTC time value `t` when `isUTC` is true, at the local time value `t` otherwise. -/
  localTZA : Int → Bool → Int
  /-- The successive results of `Math.random()`. -/
  random : Nat → Rat

/-- The time value of a `Date` with time value `tv` after `d.setDate(d.getDate() - k)`:
the local time `LocalTime(tv)` keeps its time within the day and moves `k` days back
(`MakeDate(MakeDay(year, month, date - k), TimeWithinDay)`), and `UTC` converts the
result back. -/
def setDateBack (env : Env) (tv : Int) (k : Int) : Int :=
  let t := tv + env.localTZA tv true
  let newDate := t - k * msPerDay
  newDate - env.localTZA newDate false

/-- The conversion `${v}` inside a template literal. -/
def template (env : Env) : JsVal → Except JsErr String
  | .str s => .ok s
  | v => env.templateOther v

/-- The value `Math.round(v)` of a JavaScript value. -/
def roundVal (env : Env) : JsVal → JsVal
  | .num q => .num (Math_round q)
  | v => env.roundOther v

/-! ## Component state -/

/-- The entry `hourly[0]` of a day record. -/
structure Hourly where
  weather_descriptions : List JsVal
  wind_speed : Rat

/-- The object stored under `historical[date]`. -/
structure HistDay where
  maxtemp : JsVal
  mintemp : JsVal
  avgtemp : JsVal
  hourly : List Hourly

/-- A day record of `pastWeather` / `weekWeather`.  `locationName` is
`location.name`; `historical` is the object with the single computed key `[date]`;
`isMock` is `none` when the property is absent. -/
structure DayRecord where
  date : JsVal
  locationName : String
  historical : List (String × HistDay)
  isMock : Option Bool

/-- The object `data.historical[Object.keys(data.historical)[0]]` of a day record. -/
def firstDay (r : DayRecord) : Option HistDay := r.historical.head?.map Prod.snd

/-- The two temperatures shown by `WeekCard` (App.jsx 979–980): `convert` of the
stored `maxtemp` and `mintemp`, when these are numbers. -/
def WeekCard.shown (unit : String) (r : DayRecord) : Option (JsNum × JsNum) := do
  let dayData ← firstDay r
  let a ← numOf dayData.maxtemp
  let b ← numOf dayData.mintemp
  pure (WeekCard.convert unit (.fin a), WeekCard.convert unit (.fin b))

/-- The temperature shown by `PastCard` (App.jsx 875–900): `convert` of the stored
`avgtemp`, when it is a number, and of 0 when the record has no day. -/
def PastCard.shown (unit : String) (r : DayRecord) : Option JsNum :=
  match firstDay r with
  | some hist => (numOf hist.avgtemp).map fun c => PastCard.convert unit (.fin c)
  | none => some (PastCard.convert unit (.fin 0))

/-- The `useState` cells of `App` that the fetch pipeline reads or writes. -/
structure AppState where
  unit : String
  query : String
  weather : JsVal
  pastWeather : List DayRecord
  weekWeather : List DayRecord
  aqi : JsVal
  loading : Bool
  error : Option String
  condition : String

/-- Observable actions, in the order they happen. -/
inductive Event where
  | fetchWeatherCalled (location : String) : Event
  | request (site : Site) (url : String) : Event
  | setError (e : Option String) : Event
  | shake : Event
  deriving DecidableEq, Repr

/-- Component state together with the actions performed so far. -/
structure Sys where
  st : AppState
  log : List Event

/-- Computations over `Sys` that may throw; the state reached is kept on a throw. -/
def M (α : Type) : Type := Sys → Except JsErr α × Sys

/-- Normal completion. -/
def M.pure {α : Type} (a : α) : M α := fun s => (.ok a, s)

/-- Sequencing; a throw skips the rest. -/
def M.bind {α β : Type} (m : M α) (f : α → M β) : M β := fun s =>
  match m s with
  | (.ok a, s') => f a s'
  | (.error e, s') => (.error e, s')

instance : Monad M where
  pure := M.pure
  bind := M.bind

/-- A value or exception computed without touching the state. -/
def M.lift {α : Type} (x : Except JsErr α) : M α := fun s => (x, s)

/-- The statement `throw`. -/
def M.throw {α : Type} (e : JsErr) : M α := fun s => (.error e, s)

/-- The statement `try { body } catch (err) { handler }`. -/
def M.tryCatch {α : Type} (body : M α) (handler : JsErr → M α) : M α := fun s =>
  match body s with
  | (.ok a, s') => (.ok a, s')
  | (.error e, s') => handler e s'

/-- The statement `try { body } finally { fin }`. -/
def M.tryFinally {α : Type} (body : M α) (fin : M Unit) : M α := fun s =>
  match body s with
  | (r, s') =>
    match fin s' with
    | (.ok _, s'') => (r, s'')
    | (.error e, s'') => (.error e, s'')

/-- Record an action. -/
def emit (e : Event) : M Unit := fun s => (.ok (), { s with log := s.log ++ [e] })

/-- Update the component state. -/
def modifySt (f : AppState → AppState) : M Unit := fun s => (.ok (), { s with st := f s.st })

/-- The setters of the `useState` cells. -/
def setWeather (v : JsVal) : M Unit := modifySt fun st => { st with weather := v }
def setPastWeather (v : List DayRecord) : M Unit := modifySt fun st => { st with pastWeather := v }
def setWeekWeather (v : List DayRecord) : M Unit := modifySt fun st => { st with weekWeather := v }
def setAqi (v : JsVal) : M Unit := modifySt fun st => { st with aqi := v }
def setLoading (b : Bool) : M Unit := modifySt fun st => { st with loading := b }
def setCondition (c : String) : M Unit := modifySt fun st => { st with condition := c }

/-- The setter `setError`; the call is recorded. -/
def setError (e : Option String) : M Unit := do
  emit (.setError e)
  modifySt fun st => { st with error := e }

/-! ## The fetch pipeline of `App.jsx` -/

/-- The constant `WEATHERSTACK_API_KEY` (App.jsx 9). -/
def WEATHERSTACK_API_KEY : String := "b087f69051908460b94ed65c77a15842"

/-- The string `currentUrl` of `fetchWeather` (App.jsx 80). -/
def currentUrl (env : Env) (location : String) : String :=
  "http://api.weatherstack.com/current?access_key=" ++ WEATHERSTACK_API_KEY ++ "&query=" ++
    env.encodeURIComponent location

/-- The string `proxyUrl` of `fetchWeather` (App.jsx 81). -/
def proxyUrl (env : Env) (location : String) : String :=
  "https://api.allorigins.win/get?url=" ++ env.encodeURIComponent (currentUrl env location)

/-- The element `conditions[idx]` of an array of strings. -/
def stringAt (xs : List String) (idx : Int) : JsVal :=
  if 0 ≤ idx then
    match xs.get? idx.toNat with
    | some c => .str c
    | none => .undefined
  else .undefined

/-- The function `generateMockDay` (App.jsx 207–226); `n` is the number of
`Math.random()` calls made before this one. -/
def generateMockDay (env : Env) (n : Nat) (date : String) (loc : String) : DayRecord :=
  let conditions := ["Sunny", "Partly Cloudy", "Rain", "Cloudy", "Clear"]
  let cond := stringAt conditions (Math_floor (env.random n * conditions.length))
  { date := .str date
    locationName := loc
    historical := [(date,
      { maxtemp := .num (25 + Math_floor (env.random (n + 1) * 10))
        mintemp := .num (15 + Math_floor (env.random (n + 2) * 5))
        avgtemp := .num (20 + Math_floor (env.random (n + 3) * 7))
        hourly := [{ weather_descriptions := [cond]
                     wind_speed := 10 + Math_floor (env.random (n + 4) * 15) }] })]
    isMock := some true }

/-- The call `dates.map(d => generateMockDay(d, location))` (App.jsx 201); `n`
counts the `Math.random()` calls made so far. -/
def mockDays (env : Env) (location : String) : Nat → List String → List DayRecord
  | _, [] => []
  | n, d :: ds => generateMockDay env n d location :: mockDays env location (n + 5) ds

/-- The receiver of `.map(...)`: anything but an array throws a `TypeError`. -/
def asArray : JsVal → Except JsErr (List JsVal)
  | .arr xs => .ok xs
  | .undefined => .error (.TypeError "Cannot read properties of undefined")
  | .null => .error (.TypeError "Cannot read properties of null")
  | _ => .error (.TypeError "map is not a function")

/-- The callback of `data.daily.time.map((date, idx) => ...)` (App.jsx 172–186): the
record built for the element `date` at index `idx`. -/
def formatDay (env : Env) (location : String) (daily : JsVal) (date : JsVal) (idx : Nat) :
    Except JsErr DayRecord := do
  let key ← template env date
  let mx ← getProp daily "temperature_2m_max" >>= fun a => getIndex a idx
  let mn ← getProp daily "temperature_2m_min" >>= fun a => getIndex a idx
  let av ← getProp daily "temperature_2m_mean" >>= fun a => getIndex a idx
  let code ← getProp daily "weather_code" >>= fun a => getIndex a idx
  pure
    { date := date
      locationName := location
      historical := [(key,
        { maxtemp := roundVal env mx
          mintemp := roundVal env mn
          avgtemp := roundVal env av
          hourly := [{ weather_descriptions := [.str (mapMeteoCode code)]
                       wind_speed := 12 }] })]
      isMock := none }

/-- The call `data.daily.time.map(...)` (App.jsx 172), on the elements from index
`idx` on. -/
def formatDays (env : Env) (location : String) (daily : JsVal) :
    Nat → List JsVal → Except JsErr (List DayRecord)
  | _, [] => .ok []
  | idx, date :: rest => do
    let r ← formatDay env location daily date idx
    let rs ← formatDays env location daily (idx + 1) rest
    pure (r :: rs)

/-- The string `url` of `fetchAQI` (App.jsx 147). -/
def aqiUrl (env : Env) (lat lon : JsVal) : Except JsErr String := do
  let la ← template env lat
  let lo ← template env lon
  pure ("https://air-quality-api.open-meteo.com/v1/air-quality?latitude=" ++ la ++
    "&longitude=" ++ lo ++
    "&current=us_aqi,pm10,pm2_5,nitrogen_dioxide,ozone,sulphur_dioxide&timezone=auto")

/-- The request of `fetchAQI` (App.jsx 148–150): the value of `data.current`. -/
def aqiResult (env : Env) (url : String) : Except JsErr JsVal := do
  let response ← env.fetch .airQuality url
  let data ← response.json
  getProp data "current"

/-- The function `fetchAQI` (App.jsx 145–154), run to completion. -/
def fetchAQI (env : Env) (lat lon : JsVal) : M Unit :=
  M.tryCatch
    (do
      let url ← M.lift (aqiUrl env lat lon)
      emit (.request .airQuality url)
      let cur ← M.lift (aqiResult env url)
      if isTruthy cur then setAqi cur else pure ())
    (fun _ => pure ())

/-- The time value of `endDate` in `fetchHistoricalData` (App.jsx 157–158): the first
reading of the clock, moved one day back. -/
def historyEnd (env : Env) : Int := setDateBack env (env.clock 0) 1

/-- The time value of `startDate` in `fetchHistoricalData` (App.jsx 159–160): the
second reading of the clock, moved seven days back. -/
def historyStart (env : Env) : Int := setDateBack env (env.clock 1) 7

/-- The string `historyUrl` of `fetchHistoricalData` (App.jsx 162–166). -/
def historyUrl (env : Env) (lat lon : JsVal) : Except JsErr String := do
  let startStr := isoDateOf (historyStart env)
  let endStr := isoDateOf (historyEnd env)
  let la ← template env lat
  let lo ← template env lon
  pure ("https://archive-api.open-meteo.com/v1/archive?latitude=" ++ la ++
    "&longitude=" ++ lo ++ "&start_date=" ++ startStr ++ "&end_date=" ++ endStr ++
    "&daily=weather_code,temperature_2m_max,temperature_2m_min,temperature_2m_mean&timezone=auto")

/-- The request of `fetchHistoricalData` and the decoding of its answer
(App.jsx 168–186): the array `formatted`, or `none` when `data.daily` is falsy. -/
def historyResult (env : Env) (location : String) (url : String) :
    Except JsErr (Option (List DayRecord)) := do
  let response ← env.fetch .archive url
  let data ← response.json
  let daily ← getProp data "daily"
  if isTruthy daily then do
    let time ← getProp daily "time"
    let xs ← asArray time
    let formatted ← formatDays env location daily 0 xs
    pure (some formatted)
  else pure none

/-- The dates of the `catch` block of `fetchHistoricalData` (App.jsx 195–200): for
`i` from 1 to 7 a new reading of the clock (the third to the ninth of the call), moved
`i` days back and printed. -/
def mockDates (env : Env) : List String :=
  (List.range' 1 7).map fun i : Nat => isoDateOf (setDateBack env (env.clock (i + 1)) i)

/-- The function `fetchHistoricalData` (App.jsx 156–205), run to completion. -/
def fetchHistoricalData (env : Env) (location : String) (lat lon : JsVal) : M Unit :=
  M.tryCatch
    (do
      let url ← M.lift (historyUrl env lat lon)
      emit (.request .archive url)
      let result ← M.lift (historyResult env location url)
      match result with
      | some formatted => do
        setPastWeather formatted.reverse
        setWeekWeather formatted
      | none => pure ())
    (fun _ => do
      let mocks := mockDays env location 0 (mockDates env)
      setPastWeather mocks
      setWeekWeather mocks.reverse)

/-- The object `mock` of `handleMockCurrent` (App.jsx 121–138). -/
def mockCurrent (location : String) : JsVal :=
  .obj [("request", .obj [("query", .str location)]),
    ("location", .obj [("name", .str location), ("country", .str "Aetheria"),
      ("lat", .str "35.6895"), ("lon", .str "139.6917"), ("timezone_id", .str "Asia/Tokyo")]),
    ("current", .obj [("temperature", .num 24),
      ("weather_descriptions", .arr [.str "Sunny with a chance of Aether"]),
      ("humidity", .num 45), ("wind_speed", .num 12), ("wind_degree", .num 140),
      ("wind_dir", .str "SE"), ("pressure", .num 1012), ("cloudcover", .num 10),
      ("precip", .num 0), ("visibility", .num 10), ("uv_index", .num 6),
      ("feelslike", .num 26)])]

/-- The function `handleMockCurrent` (App.jsx 120–143). -/
def handleMockCurrent (env : Env) (location : String) : M Unit := do
  let mock := mockCurrent location
  setWeather mock
  setCondition "Sunny"
  let loc ← M.lift (getProp mock "location")
  let lat ← M.lift (getProp loc "lat")
  let lon ← M.lift (getProp loc "lon")
  fetchHistoricalData env location lat lon
  fetchAQI env lat lon

/-- The call `determineCondition(v)` on an arbitrary value: `desc.toLowerCase()`
throws unless `desc` is a string. -/
def determineConditionOf : JsVal → Except JsErr String
  | .str s => .ok (determineCondition s)
  | .undefined => .error (.TypeError "Cannot read properties of undefined")
  | .null => .error (.TypeError "Cannot read properties of null")
  | _ => .error (.TypeError "desc.toLowerCase is not a function")

/-- The direct request of `fetchWeather` (App.jsx 85–86): `fetch` and
`response.json()`. -/
def directStep (env : Env) (location : String) : Except JsErr JsVal := do
  let response ← env.fetch .direct (currentUrl env location)
  response.json

/-- The relay-proxy request of `fetchWeather` (App.jsx 88–90): `fetch`,
`response.json()` and the unwrapping of `contents`. -/
def proxyStep (env : Env) (location : String) : Except JsErr JsVal := do
  let response ← env.fetch .proxy (proxyUrl env location)
  let rawData ← response.json
  let contents ← getProp rawData "contents"
  if isTruthy contents then env.JSON_parse contents else pure rawData

/-- The inner `try`/`catch` of `fetchWeather` (App.jsx 83–91): the value of `data`. -/
def resolveData (env : Env) (location : String) : M JsVal :=
  M.tryCatch
    (do
      emit (.request .direct (currentUrl env location))
      M.lift (directStep env location))
    (fun _ => do
      emit (.request .proxy (proxyUrl env location))
      M.lift (proxyStep env location))

/-- The body of the outer `try` of `fetchWeather` (App.jsx 72–109).  The result
says whether the `setTimeout` callback of the placeholder-key branch was scheduled. -/
def fetchWeatherTry (env : Env) (location : String) : M Bool := do
  if WEATHERSTACK_API_KEY = "YOUR_API_KEY" then pure true
  else do
    let data ← resolveData env location
    let err ← M.lift (getProp data "error")
    if isTruthy err then do
      let _ ← M.lift (getProp err "info")
      handleMockCurrent env location
      pure false
    else do
      let cur ← M.lift (getProp data "current")
      if !isTruthy cur then M.throw (.Error "Invalid data structure")
      else do
        setWeather data
        let descs ← M.lift (getProp cur "weather_descriptions")
        let d0 ← M.lift (getIndex descs 0)
        let c ← M.lift (determineConditionOf d0)
        setCondition c
        let loc ← M.lift (getProp data "location")
        let lat ← M.lift (getProp loc "lat")
        let lon ← M.lift (getProp loc "lon")
        fetchHistoricalData env location lat lon
        fetchAQI env lat lon
        pure false

/-- The notice of the outer `catch` of `fetchWeather` (App.jsx 113). -/
def simulationNotice : String := "Could not reach weather services. Using simulation mode."

/-- The reset at the start of `fetchWeather` (App.jsx 64–69). -/
def fetchWeatherReset : M Unit := do
  setLoading true
  setError none
  setWeather .null
  setPastWeather []
  setWeekWeather []

/-- The `try`/`catch`/`finally` of `fetchWeather` (App.jsx 71–117), followed by the
`setTimeout` callback when the placeholder-key branch scheduled it. -/
def fetchWeatherRest (env : Env) (location : String) : M Unit := do
  let timer ← M.tryFinally
    (M.tryCatch (fetchWeatherTry env location)
      (fun _ => do
        setError (some simulationNotice)
        handleMockCurrent env location
        pure false))
    (setLoading false)
  if timer then do
    handleMockCurrent env location
    setLoading false
  else pure ()

/-- The function `fetchWeather` (App.jsx 62–118), run to completion together with
the fetches it starts. -/
def fetchWeather (env : Env) (location : String) : M Unit := do
  emit (.fetchWeatherCalled location)
  if location = "" then pure ()
  else do
    fetchWeatherReset
    fetchWeatherRest env location

/-- The function `handleSearch` (App.jsx 229–237). -/
def handleSearch (env : Env) : M Unit := fun s =>
  if jsTrim s.st.query = "" then emit .shake s
  else fetchWeather env s.st.query s

/-- The setter `setQuery`. -/
def setQuery (q : String) : M Unit := modifySt fun st => { st with query := q }

/-- The setter `setUnit`, called by the unit buttons of `Header` (App.jsx 532–539). -/
def setUnit (u : String) : M Unit := modifySt fun st => { st with unit := u }

/-- The function `handleQuickCity` (App.jsx 239–242). -/
def handleQuickCity (env : Env) (city : String) : M Unit := do
  setQuery city
  fetchWeather env city

/-- The synchronous start of `fetchWeather` (App.jsx 62–85): the guard, the reset and,
with a key other than the placeholder, the call `fetch(directUrl)`; the function is
then suspended at its first `await`. -/
def fetchWeatherStart (env : Env) (location : String) : M Unit := do
  emit (.fetchWeatherCalled location)
  if location = "" then pure ()
  else do
    fetchWeatherReset
    if WEATHERSTACK_API_KEY = "YOUR_API_KEY" then pure ()
    else emit (.request .direct (currentUrl env location))

/-- The inner `try`/`catch` of `fetchWeather` from its first `await` on (App.jsx 85–91):
the answer to the direct request and its body are awaited; on a throw the relay proxy
is asked. -/
def resolveDataAwait (env : Env) (location : String) : M JsVal :=
  M.tryCatch
    (M.lift (directStep env location))
    (fun _ => do
      emit (.request .proxy (proxyUrl env location))
      M.lift (proxyStep env location))

/-- The body of the outer `try` of `fetchWeather` from its first `await` on
(App.jsx 85–109).  The result is that of `fetchWeatherTry`: no timer is scheduled on
this path. -/
def fetchWeatherTryAwait (env : Env) (location : String) : M Bool := do
  let data ← resolveDataAwait env location
  let err ← M.lift (getProp data "error")
  if isTruthy err then do
    let _ ← M.lift (getProp err "info")
    handleMockCurrent env location
    pure false
  else do
    let cur ← M.lift (getProp data "current")
    if !isTruthy cur then M.throw (.Error "Invalid data structure")
    else do
      setWeather data
      let descs ← M.lift (getProp cur "weather_descriptions")
      let d0 ← M.lift (getIndex descs 0)
      let c ← M.lift (determineConditionOf d0)
      setCondition c
      let loc ← M.lift (getProp data "location")
      let lat ← M.lift (getProp loc "lat")
      let lon ← M.lift (getProp loc "lon")
      fetchHistoricalData env location lat lon
      fetchAQI env lat lon
      pure false

/-- The function `fetchWeather` from its first `await` on (App.jsx 85–117): the rest of
the `try`, the `catch` and the `finally`, run to completion with the fetches it
starts.  The state is written only after the last answer awaited has arrived. -/
def fetchWeatherAwait (env : Env) (location : String) : M Unit := do
  let _ ← M.tryFinally
    (M.tryCatch (fetchWeatherTryAwait env location)
      (fun _ => do
        setError (some simulationNotice)
        handleMockCurrent env location
        pure false))
    (setLoading false)
  pure ()

/-- An event of a session: a search for a city is submitted (`handleQuickCity`, which
runs up to the first `await` of `fetchWeather`), or the answers awaited by the search
for a city arrive and the search runs to its end. -/
inductive Step where
  | submit (city : String) : Step
  | answer (city : String) : Step

/-- The code run at an event of a session. -/
def runStep (env : Env) : Step → M Unit
  | .submit city => do
    setQuery city
    fetchWeatherStart env city
  | .answer city => fetchWeatherAwait env city

/-- The events of a session, run in their order. -/
def runSchedule (env : Env) : List Step → M Unit
  | [] => pure ()
  | st :: rest => do
    runStep env st
    runSchedule env rest

/-- Whether an event is the arrival of answers. -/
def Step.isAnswer : Step → Bool
  | .answer _ => true
  | .submit _ => false

/-- The state and the actions after running `m` from `s`. -/
def runM {α : Type} (m : M α) (s : Sys) : Sys := (m s).2

/-! ## Auxiliary notions used to state the results -/

/-- The value of `data` after the inner `try`/`catch` of `fetchWeather`, or the
exception that leaves it. -/
def resolved (env : Env) (location : String) : Except JsErr JsVal :=
  match directStep env location with
  | .ok d => .ok d
  | .error _ => proxyStep env location

/-- The requests made by the inner `try`/`catch` of `fetchWeather`. -/
def resolveEvents (env : Env) (location : String) : List Event :=
  match directStep env location with
  | .ok _ => [.request .direct (currentUrl env location)]
  | .error _ => [.request .direct (currentUrl env location),
      .request .proxy (proxyUrl env location)]

/-- The state right after `fetchWeather` has reset it (App.jsx 64–69). -/
def cleared (st : AppState) : AppState :=
  { st with loading := true, error := none, weather := .null, pastWeather := [],
            weekWeather := [] }

/-- The ways the outer `try` of `fetchWeather` can end: live data was published
(with the condition and the coordinates read from it), the provider's error payload
was met, or an exception reached the outer `catch`. -/
inductive Outcome where
  | live (data : JsVal) (cond : String) (lat lon : JsVal) : Outcome
  | appError : Outcome
  | failure : Outcome

/-- The way the outer `try` of `fetchWeather` ends, read off the value of `data`. -/
def classify (env : Env) (location : String) : Outcome :=
  match resolved env location with
  | .error _ => .failure
  | .ok data =>
    match getProp data "error" with
    | .error _ => .failure
    | .ok err =>
      if isTruthy err then .appError
      else
        match getProp data "current" with
        | .error _ => .failure
        | .ok cur =>
          if !isTruthy cur then .failure
          else
            match getProp cur "weather_descriptions" >>= fun d => getIndex d 0 >>=
              determineConditionOf with
            | .error _ => .failure
            | .ok c =>
              match getProp data "location" with
              | .error _ => .failure
              | .ok loc =>
                match getProp loc "lat", getProp loc "lon" with
                | .ok la, .ok lo => .live data c la lo
                | _, _ => .failure

/-- The state `fetchWeather` reaches, up to the writes of the historical and
air-quality fetches, for each way its outer `try` can end. -/
def coreState (o : Outcome) (location : String) (st : AppState) : AppState :=
  match o with
  | .live data c _ _ => { cleared st with weather := data, condition := c, loading := false }
  | .appError =>
    { cleared st with weather := mockCurrent location, condition := "Sunny", loading := false }
  | .failure =>
    { cleared st with weather := mockCurrent location, condition := "Sunny",
                      error := some simulationNotice, loading := false }

/-- The state `fetchWeatherRest` reaches from `st`, up to the writes of the historical
and air-quality fetches, for each way the outer `try` can end. -/
def restCore (o : Outcome) (location : String) (st : AppState) : AppState :=
  match o with
  | .live data c _ _ => { st with weather := data, condition := c, loading := false }
  | .appError =>
    { st with weather := mockCurrent location, condition := "Sunny", loading := false }
  | .failure =>
    { st with weather := mockCurrent location, condition := "Sunny",
              error := some simulationNotice, loading := false }

/-- The notice raised by the outer `catch` of `fetchWeather`, if it runs. -/
def noticeOf : Outcome → List Event
  | .failure => [.setError (some simulationNotice)]
  | _ => []

/-- An action raises a notice: `setError` is called with a message. -/
def Event.isNotice : Event → Bool
  | .setError (some _) => true
  | _ => false

/-- An action is a network request. -/
def Event.isRequest : Event → Bool
  | .request _ _ => true
  | _ => false

/-- An action is a request at the relay proxy. -/
def Event.isProxyRequest : Event → Bool
  | .request .proxy _ => true
  | _ => false

/-- The day record the specification describes for index `i` of a historical answer:
date `t`, temperatures the rounded `a`, `b`, `c`, description read off `code`. -/
def liveRecord (env : Env) (location : String) (t a b c code : JsVal) (key : String) :
    DayRecord :=
  { date := t
    locationName := location
    historical := [(key,
      { maxtemp := roundVal env a
        mintemp := roundVal env b
        avgtemp := roundVal env c
        hourly := [{ weather_descriptions := [.str (mapMeteoCode code)], wind_speed := 12 }] })]
    isMock := none }

/-- The nine readings of the clock made by a call of `fetchHistoricalData` fall on the
UTC day `D`, and moving any of them up to seven days back in local time meets the UTC
offset it started from (no change of offset in between). -/
def SteadyZone (env : Env) (D : Int) : Prop :=
  ∀ n : Nat, n ≤ 8 → env.clock n / msPerDay = D ∧
    ∀ k : Int, 1 ≤ k → k ≤ 7 →
      env.localTZA (env.clock n + env.localTZA (env.clock n) true - k * msPerDay) false =
        env.localTZA (env.clock n) true

/-- Two environments differ at most in the answers at the direct and proxy sites, in
`JSON.parse` and in `encodeURIComponent`. -/
def SameBackground (e1 e2 : Env) : Prop :=
  e1.fetch .archive = e2.fetch .archive ∧ e1.fetch .airQuality = e2.fetch .airQuality ∧
  e1.templateOther = e2.templateOther ∧ e1.roundOther = e2.roundOther ∧
  e1.clock = e2.clock ∧ e1.localTZA = e2.localTZA ∧ e1.random = e2.random

/-- The end of `fetchWeather`: the `finally` block has set `loading` to false. -/
def finish (s : Sys) : Sys := ⟨{ s.st with loading := false }, s.log⟩

/-- What the historical and air-quality fetches write: for each of the three cells
the new value, or `none` when the cell is left as it is. -/
structure SubEffect where
  past : Option (List DayRecord)
  week : Option (List DayRecord)
  aqi : Option JsVal

/-- The state after the writes of a `SubEffect`. -/
def SubEffect.apply (e : SubEffect) (st : AppState) : AppState :=
  { st with pastWeather := e.past.getD st.pastWeather
            weekWeather := e.week.getD st.weekWeather
            aqi := e.aqi.getD st.aqi }

/-- An action is a network request at the archive or the air-quality site. -/
def Event.isSubRequest : Event → Bool
  | .request .archive _ => true
  | .request .airQuality _ => true
  | _ => false

/-- A value is neither `undefined` nor `null`. -/
def isPresent : JsVal → Bool
  | .undefined => false
  | .null => false
  | _ => true

/-- The value `v` has a property `k` that is neither `undefined` nor `null`. -/
def hasPart (v : JsVal) (k : String) : Prop :=
  ∃ part, getProp v k = .ok part ∧ isPresent part = true

/-! ## Reference definitions, written from the specification -/

/-- The weather-code table of the specification (§6): code and description. -/
def meteoTable : List (Rat × String) :=
  [(0, "Sunny"), (1, "Partly Cloudy"), (2, "Partly Cloudy"), (3, "Partly Cloudy"),
   (45, "Fog"), (48, "Fog"), (51, "Drizzle"), (53, "Drizzle"), (55, "Drizzle"),
   (61, "Rain"), (63, "Rain"), (65, "Rain"), (80, "Rain"), (81, "Rain"), (82, "Rain"),
   (71, "Snow"), (73, "Snow"), (75, "Snow"), (77, "Snow"), (85, "Snow"), (86, "Snow"),
   (95, "Thunderstorm"), (96, "Thunderstorm"), (99, "Thunderstorm")]

/-- The description listed for a code in a table, if any. -/
def tableLookup (c : Rat) : List (Rat × String) → Option String
  | [] => none
  | (k, v) :: rest => if c = k then some v else tableLookup c rest

/-- The reference mapping of the specification: the table entry, else "Cloudy". -/
def mapMeteoCodeRef (c : Rat) : String := (tableLookup c meteoTable).getD "Cloudy"

/-- The ordered keyword groups of the specification (§4.5) with their category. -/
def keywordGroups : List (List String × String) :=
  [(["rain", "drizzle"], "Rain"), (["thunder", "storm"], "Storm"),
   (["sun", "clear"], "Sunny"), (["snow", "ice", "blizzard"], "Snow")]

/-- The nine keywords of the specification. -/
def nineKeywords : List String :=
  ["rain", "drizzle", "thunder", "storm", "sun", "clear", "snow", "ice", "blizzard"]

/-- Substring containment: `k` occurs in `d` as a contiguous block. -/
def Occurs (k d : String) : Prop := ∃ u v : List Char, d.data = u ++ k.data ++ v

/-- The category of the first group among `groups` one of whose keywords occurs in
`d`; "Default" when there is none. -/
def firstMatch (d : String) : List (List String × String) → String
  | [] => "Default"
  | (ks, cat) :: rest => if ks.any (fun k => includes d k) then cat else firstMatch d rest

/-- The reference classifier of the specification, on an already lower-cased text. -/
def classifyRef (d : String) : String := firstMatch d keywordGroups

/-- The text with every letter `a`–`z` replaced by its capital. -/
def toUpperCase (s : String) : String := String.mk (s.data.map Char.toUpper)

/-! ## Sample environments and states -/

/-- The initial values of the `useState` cells (App.jsx 12–22). -/
def initialState : AppState :=
  { unit := "C", query := "", weather := .null, pastWeather := [], weekWeather := [],
    aqi := .null, loading := false, error := none, condition := "Default" }

/-- The initial state, nothing done yet. -/
def initialSys : Sys := ⟨initialState, []⟩

/-- A sample of `JSON.parse`: it agrees with `JSON.parse` on the texts of an empty
object and of `null` and on the empty text, the only ones it is used at. -/
def sampleParse : JsVal → Except JsErr JsVal
  | .str s =>
    if s = "\x7b\x7d" then .ok (.obj [])
    else if s = "null" then .ok .null
    else .error (.SyntaxError "Unexpected end of JSON input")
  | _ => .error (.SyntaxError "Unexpected token")

/-- A sample environment in which every request fails at the transport level; the
clock stands at 2024-01-20 12:00 UTC (day 19742) and local time is UTC. -/
def offlineEnv : Env :=
  { fetch := fun _ _ => .error (.TypeError "Failed to fetch")
    JSON_parse := sampleParse
    encodeURIComponent := id
    templateOther := fun _ => .ok "[object Object]"
    roundOther := fun _ => .num 0
    clock := fun _ => 1705752000000
    localTZA := fun _ _ => 0
    random := fun _ => 0 }

/-- The sample environment with the clock and the time zone of New York on 12 March
2024 at 19:30 local time (23:30 UTC): the offset is 5 hours behind UTC until the
change to daylight saving time on 10 March at 02:00 local time (07:00 UTC), and 4 hours
behind from then on; a local time is read with the offset in force before the change
up to 03:00. -/
def dstEnv : Env :=
  { offlineEnv with
    clock := fun _ => 1710286200000
    localTZA := fun t isUTC =>
      if isUTC then (if t < 1710054000000 then -18000000 else -14400000)
      else (if t < 1710039600000 then -18000000 else -14400000) }

/-- The sample environment with the answers of the network replaced. -/
def withFetch (f : Site → String → Except JsErr Response) : Env :=
  { offlineEnv with fetch := f }

/-- The direct request resolves to a body that is not JSON; every other request fails. -/
def envBadBody : Env :=
  withFetch fun site _ =>
    if site = .direct then .ok ⟨.error (.SyntaxError "Unexpected token < in JSON")⟩
    else .error (.TypeError "Failed to fetch")

/-- The direct request fails; the proxy answers with an envelope whose `contents`
is the given value; the other requests fail. -/
def envProxy (contents : JsVal) : Env :=
  withFetch fun site _ =>
    if site = .proxy then .ok ⟨.ok (.obj [("contents", contents)])⟩
    else .error (.TypeError "Failed to fetch")

/-- The direct request resolves to the given JSON value; every other request fails. -/
def envDirect (data : JsVal) : Env :=
  withFetch fun site _ =>
    if site = .direct then .ok ⟨.ok data⟩ else .error (.TypeError "Failed to fetch")

/-- The archive request resolves to the given JSON value; every other request fails. -/
def envArchive (data : JsVal) : Env :=
  withFetch fun site _ =>
    if site = .archive then .ok ⟨.ok data⟩ else .error (.TypeError "Failed to fetch")

/-- The air-quality request resolves to the given JSON value; every other request
fails. -/
def envAir (data : JsVal) : Env :=
  withFetch fun site _ =>
    if site = .airQuality then .ok ⟨.ok data⟩ else .error (.TypeError "Failed to fetch")

/-- A sample of the `current` object of the air-quality provider. -/
def sampleAqi : JsVal :=
  .obj [("us_aqi", .num 42), ("pm10", .num 11), ("pm2_5", .num 7),
    ("nitrogen_dioxide", .num 9), ("ozone", .num 60), ("sulphur_dioxide", .num 2)]

/-- The `daily` object of `oneDayArchive`. -/
def oneDayDaily : JsVal :=
  .obj [("time", .arr [.str "2024-01-19"]),
    ("weather_code", .arr [.num 61]),
    ("temperature_2m_max", .arr [.num (43 / 2)]),
    ("temperature_2m_min", .arr [.num (27 / 2)]),
    ("temperature_2m_mean", .arr [.num 17])]

/-- An archive answer with a single day. -/
def oneDayArchive : JsVal := .obj [("daily", oneDayDaily)]

/-- The record decoded from `oneDayArchive` for a location. -/
def oneDayRecord (location : String) : DayRecord :=
  { date := .str "2024-01-19"
    locationName := location
    historical := [("2024-01-19",
      { maxtemp := .num (Math_round (43 / 2))
        mintemp := .num (Math_round (27 / 2))
        avgtemp := .num (Math_round 17)
        hourly := [{ weather_descriptions := [.str (mapMeteoCode (.num 61))]
                     wind_speed := 12 }] })]
    isMock := none }

/-- A live answer of the current-conditions provider for a place of the given name. -/
def liveData (name : String) : JsVal :=
  .obj [("location", .obj [("name", .str name), ("country", .str "Testland"),
      ("lat", .str "1.0"), ("lon", .str "2.0"), ("timezone_id", .str "UTC")]),
    ("current", .obj [("temperature", .num 20),
      ("weather_descriptions", .arr [.str "Clear"]), ("feelslike", .num 19)])]

/-- The direct request for "Alpha" resolves to live data for Alpha, the direct request
for any other place to live data for Beta; every other request fails. -/
def envByCity : Env :=
  withFetch fun site url =>
    if site = .direct then
      if url = currentUrl offlineEnv "Alpha" then .ok ⟨.ok (liveData "Alpha")⟩
      else .ok ⟨.ok (liveData "Beta")⟩
    else .error (.TypeError "Failed to fetch")

/-- The error answer of the archive provider: no `daily` data. -/
def archiveError : JsVal :=
  .obj [("error", .bool true), ("reason", .str "Parameter out of allowed range")]

/-- The error payload of the current-conditions provider. -/
def errorPayload : JsVal :=
  .obj [("success", .bool false),
    ("error", .obj [("code", .num 615), ("type", .str "request_failed"),
      ("info", .str "Your API request failed.")])]

/-! ## Lemmas -/

theorem Math_round_eq_floor (x : Rat) : Math_round x = Int.floor (x + 1 / 2) := by
  unfold Math_round
  have h0 := Int.floor_le x
  have h1 := Int.lt_floor_add_one x
  split
  · next h =>
    symm; rw [Int.floor_eq_iff]
    constructor <;> linarith
  · next h =>
    symm; rw [Int.floor_eq_iff]
    push_cast
    constructor <;> linarith

theorem toLower_toUpper_char (c : Char) : c.toUpper.toLower = c.toLower := by
  by_cases h : 97 ≤ c.toNat ∧ c.toNat ≤ 122
  · obtain ⟨h1, h2⟩ := h
    have hc : c = Char.ofNat c.toNat := (Char.ofNat_toNat c).symm
    generalize c.toNat = n at *
    subst hc
    interval_cases n <;> decide
  · have : c.toUpper = c := by
      unfold Char.toUpper
      simp only [ge_iff_le]
      rw [if_neg h]
    rw [this]

theorem toLower_toLower_char (c : Char) : c.toLower.toLower = c.toLower := by
  by_cases h : 65 ≤ c.toNat ∧ c.toNat ≤ 90
  · obtain ⟨h1, h2⟩ := h
    have hc : c = Char.ofNat c.toNat := (Char.ofNat_toNat c).symm
    generalize c.toNat = n at *
    subst hc
    interval_cases n <;> decide
  · have : c.toLower = c := by
      unfold Char.toLower
      simp only [ge_iff_le]
      rw [if_neg h]
    rw [this, this]

theorem toLowerCase_toUpperCase (s : String) : toLowerCase (toUpperCase s) = toLowerCase s := by
  simp [toLowerCase, toUpperCase, List.map_map, Function.comp_def, toLower_toUpper_char]

theorem toLowerCase_idem (s : String) : toLowerCase (toLowerCase s) = toLowerCase s := by
  simp [toLowerCase, List.map_map, Function.comp_def, toLower_toLower_char]

theorem startsWithL_iff (text pat : List Char) :
    startsWithL text pat = true ↔ ∃ v, text = pat ++ v := by
  induction pat generalizing text with
  | nil => cases text <;> simp [startsWithL]
  | cons p pat ih =>
    cases text with
    | nil => simp [startsWithL]
    | cons c text =>
      simp only [startsWithL, Bool.and_eq_true, beq_iff_eq, ih, List.cons_append,
        List.cons.injEq]
      constructor
      · rintro ⟨rfl, v, rfl⟩; exact ⟨v, rfl, rfl⟩
      · rintro ⟨v, rfl, rfl⟩; exact ⟨rfl, v, rfl⟩

theorem includesL_iff (text pat : List Char) :
    includesL text pat = true ↔ ∃ u v, text = u ++ pat ++ v := by
  induction text with
  | nil =>
    simp only [includesL, startsWithL_iff]
    constructor
    · rintro ⟨v, h⟩; exact ⟨[], v, by simpa using h⟩
    · rintro ⟨u, v, h⟩
      have h1 : u = [] := by
        cases u with
        | nil => rfl
        | cons a u => simp at h
      subst h1
      exact ⟨v, by simpa using h⟩
  | cons c text ih =>
    simp only [includesL, Bool.or_eq_true, startsWithL_iff, ih]
    constructor
    · rintro (⟨v, h⟩ | ⟨u, v, h⟩)
      · exact ⟨[], v, by simpa using h⟩
      · exact ⟨c :: u, v, by simp [h]⟩
    · rintro ⟨u, v, h⟩
      cases u with
      | nil => left; exact ⟨v, by simpa using h⟩
      | cons a u =>
        right
        simp only [List.cons_append, List.cons.injEq] at h
        exact ⟨u, v, h.2⟩

theorem includes_iff_occurs (d k : String) : includes d k = true ↔ Occurs k d := by
  unfold includes Occurs
  exact includesL_iff d.data k.data

theorem determineCondition_eq_ref (desc : String) :
    determineCondition desc = classifyRef (toLowerCase desc) := by
  simp only [determineCondition, classifyRef, keywordGroups, firstMatch, List.any_cons,
    List.any_nil, Bool.or_false, Bool.or_eq_true, Bool.or_assoc]

theorem determineCondition_default_iff (desc : String) :
    determineCondition desc = "Default" ↔
      ∀ k ∈ nineKeywords, includes (toLowerCase desc) k = false := by
  simp only [determineCondition, nineKeywords, List.mem_cons, List.mem_singleton,
    List.not_mem_nil, or_false, forall_eq_or_imp, forall_eq, Bool.or_eq_true]
  constructor
  · intro h
    split_ifs at h with h1 h2 h3 h4
    · exact absurd h (by decide)
    · exact absurd h (by decide)
    · exact absurd h (by decide)
    · exact absurd h (by decide)
    · simp only [not_or, Bool.not_eq_true] at h1 h2 h3 h4
      exact ⟨h1.1, h1.2, h2.1, h2.2, h3.1, h3.2, h4.1.1, h4.1.2, h4.2⟩
  · rintro ⟨a1, a2, a3, a4, a5, a6, a7, a8, a9⟩
    simp [a1, a2, a3, a4, a5, a6, a7, a8, a9]

theorem determineCondition_range (desc : String) :
    determineCondition desc ∈ ["Rain", "Storm", "Sunny", "Snow", "Default"] := by
  unfold determineCondition
  simp only []
  split_ifs <;> simp

/-! ## Claims -/

/-- C2: `mapMeteoCode` agrees, at every numeric code, with the reference table of the
specification (the listed description, and "Cloudy" for every code that is not
listed); in particular 0 gives "Sunny", 61 "Rain", 95 "Thunderstorm", 200 "Cloudy". -/
theorem C2_mapMeteoCode_table :
    (∀ c : Rat, mapMeteoCode (.num c) = mapMeteoCodeRef c) ∧
    mapMeteoCode (.num 0) = "Sunny" ∧ mapMeteoCode (.num 61) = "Rain" ∧
    mapMeteoCode (.num 95) = "Thunderstorm" ∧ mapMeteoCode (.num 200) = "Cloudy" := by
  have key : ∀ c : Rat, mapMeteoCode (.num c) = mapMeteoCodeRef c := by
    intro c
    by_cases h : c ∈ meteoTable.map Prod.fst
    · simp only [meteoTable, List.map, List.mem_cons, List.not_mem_nil, or_false] at h
      rcases h with h | h | h | h | h | h | h | h | h | h | h | h | h | h | h | h | h | h |
        h | h | h | h | h | h <;> subst h <;>
        norm_num [mapMeteoCode, isZeroNum, numsInclude, mapMeteoCodeRef, meteoTable, tableLookup]
    · simp only [meteoTable, List.map, List.mem_cons, List.not_mem_nil, or_false, not_or] at h
      simp [mapMeteoCode, isZeroNum, numsInclude, mapMeteoCodeRef, meteoTable, tableLookup, h]
  refine ⟨key, ?_, ?_, ?_, ?_⟩ <;>
    norm_num [mapMeteoCode, isZeroNum, numsInclude]

/-- C3: `determineCondition` is total on strings, takes its value among Rain, Storm,
Sunny, Snow and Default, and equals the reference classifier applied to the
lower-cased text (ordered keyword groups, substring containment, first matching
group wins); a text containing "rain" and "thunder" is Rain; the result does not
depend on letter case; it is Default exactly when none of the nine keywords occurs. -/
theorem C3_determineCondition_classifier :
    (∀ desc, determineCondition desc = classifyRef (toLowerCase desc)) ∧
    (∀ desc, determineCondition desc ∈ ["Rain", "Storm", "Sunny", "Snow", "Default"]) ∧
    (∀ d k, includes d k = true ↔ Occurs k d) ∧
    (∀ desc, Occurs "rain" (toLowerCase desc) → Occurs "thunder" (toLowerCase desc) →
      determineCondition desc = "Rain") ∧
    (∀ a b, toLowerCase a = toLowerCase b → determineCondition a = determineCondition b) ∧
    (∀ desc, determineCondition (toUpperCase desc) = determineCondition desc ∧
      determineCondition (toLowerCase desc) = determineCondition desc) ∧
    (∀ desc, determineCondition desc = "Default" ↔
      ∀ k ∈ nineKeywords, ¬ Occurs k (toLowerCase desc)) := by
  refine ⟨determineCondition_eq_ref, determineCondition_range, includes_iff_occurs, ?_, ?_, ?_, ?_⟩
  · intro desc h1 _
    rw [← includes_iff_occurs] at h1
    simp [determineCondition, h1]
  · intro a b h
    simp only [determineCondition, h]
  · intro desc
    constructor
    · simp only [determineCondition, toLowerCase_toUpperCase]
    · simp only [determineCondition, toLowerCase_idem]
  · intro desc
    rw [determineCondition_default_iff]
    simp only [← includes_iff_occurs, Bool.not_eq_true]

/-- C3, at a concrete text: "Light RAIN with Thunder" is classified as Rain. -/
theorem C3_determineCondition_classifier_witness :
    determineCondition "Light RAIN with Thunder" = "Rain" :=
  C3_determineCondition_classifier.2.2.2.1 "Light RAIN with Thunder"
    ((includes_iff_occurs _ _).1 (by decide)) ((includes_iff_occurs _ _).1 (by decide))

theorem roundHalfEven_error (x : Rat) : |(roundHalfEven x : Rat) - x| ≤ 1 / 2 := by
  have h1 := Int.floor_le x
  have h2 := Int.lt_floor_add_one x
  unfold roundHalfEven
  split_ifs with a b c <;> push_cast <;> rw [abs_le] <;> constructor <;> linarith

theorem roundHalfEven_of_near (x : Rat) (m : Int) (h : |x - m| < 1 / 2) :
    roundHalfEven x = m := by
  rw [abs_lt] at h
  have h1 := Int.floor_le x
  have h2 := Int.lt_floor_add_one x
  unfold roundHalfEven
  split_ifs with a b c
  · have : (⌊x⌋ : Rat) < m + 1 := by linarith
    have : (m : Rat) < ⌊x⌋ + 1 := by linarith
    have e1 : ⌊x⌋ < m + 1 := by exact_mod_cast ‹(⌊x⌋ : Rat) < m + 1›
    have e2 : m < ⌊x⌋ + 1 := by exact_mod_cast ‹(m : Rat) < ⌊x⌋ + 1›
    omega
  · have : (⌊x⌋ : Rat) + 1 < m + 1 := by linarith
    have : (m : Rat) < ⌊x⌋ + 1 + 1 := by linarith
    have e1 : ⌊x⌋ + 1 < m + 1 := by exact_mod_cast ‹(⌊x⌋ : Rat) + 1 < m + 1›
    have e2 : m < ⌊x⌋ + 1 + 1 := by exact_mod_cast ‹(m : Rat) < ⌊x⌋ + 1 + 1›
    omega
  · exfalso
    have e : x - ⌊x⌋ = 1 / 2 := le_antisymm (not_lt.1 b) (not_lt.1 a)
    have : (2 * m - 2 * ⌊x⌋ - 1 : Rat) < 1 := by linarith
    have : (-1 : Rat) < 2 * m - 2 * ⌊x⌋ - 1 := by linarith
    have e1 : 2 * m - 2 * ⌊x⌋ - 1 < 1 := by exact_mod_cast ‹(2 * m - 2 * ⌊x⌋ - 1 : Rat) < 1›
    have e2 : -1 < 2 * m - 2 * ⌊x⌋ - 1 := by exact_mod_cast ‹(-1 : Rat) < 2 * m - 2 * ⌊x⌋ - 1›
    omega
  · exfalso
    have e : x - ⌊x⌋ = 1 / 2 := le_antisymm (not_lt.1 b) (not_lt.1 a)
    have : (2 * m - 2 * ⌊x⌋ - 1 : Rat) < 1 := by linarith
    have : (-1 : Rat) < 2 * m - 2 * ⌊x⌋ - 1 := by linarith
    have e1 : 2 * m - 2 * ⌊x⌋ - 1 < 1 := by exact_mod_cast ‹(2 * m - 2 * ⌊x⌋ - 1 : Rat) < 1›
    have e2 : -1 < 2 * m - 2 * ⌊x⌋ - 1 := by exact_mod_cast ‹(-1 : Rat) < 2 * m - 2 * ⌊x⌋ - 1›
    omega

theorem roundHalfEven_tie (m : Int) (hm : m % 2 = 0) (x : Rat) (h : x = m - 1 / 2) :
    roundHalfEven x = m := by
  have hf : ⌊x⌋ = m - 1 := by
    rw [Int.floor_eq_iff]; subst h; push_cast; constructor <;> linarith
  unfold roundHalfEven
  rw [hf]
  subst h
  have h1 : ¬ ((m : Rat) - 1 / 2 - ((m - 1 : Int) : Rat) < 1 / 2) := by push_cast; linarith
  have h2 : ¬ ((1 : Rat) / 2 < (m : Rat) - 1 / 2 - ((m - 1 : Int) : Rat)) := by push_cast; linarith
  have h3 : ¬ ((m - 1) % 2 = 0) := by omega
  simp only [h1, h2, h3, if_false]
  omega

theorem ulpExponent_eq (q : Rat) (k : Int) (hk : -1022 ≤ k) (h1 : (2 : Rat) ^ k ≤ |q|)
    (h2 : |q| < (2 : Rat) ^ (k + 1)) : ulpExponent q = k - 52 := by
  have hpos : 0 < |q| := lt_of_lt_of_le (by positivity) h1
  have a1 : k ≤ Int.log 2 |q| := (Int.zpow_le_iff_le_log (by norm_num) hpos).1 (by exact_mod_cast h1)
  have a2 : Int.log 2 |q| < k + 1 :=
    (Int.lt_zpow_iff_log_lt (by norm_num) hpos).1 (by exact_mod_cast h2)
  unfold ulpExponent
  have : Int.log 2 |q| = k := by omega
  rw [this, max_eq_left hk]

theorem nearestDouble_eq (q : Rat) (k m : Int) (hk : -1022 ≤ k) (h1 : (2 : Rat) ^ k ≤ |q|)
    (h2 : |q| < (2 : Rat) ^ (k + 1)) (hm : roundHalfEven (q / 2 ^ (k - 52)) = m) :
    nearestDouble q = m * 2 ^ (k - 52) := by
  unfold nearestDouble
  rw [ulpExponent_eq q k hk h1 h2, hm]


theorem nearestDouble_zero : nearestDouble 0 = 0 := by
  simp [nearestDouble, roundHalfEven]

theorem nearestDouble_error (q : Rat) :
    |nearestDouble q - q| ≤ |q| / 2 ^ 53 + 1 / 2 ^ 1075 := by
  by_cases hq : q = 0
  · subst hq
    rw [nearestDouble_zero]
    simp
  have hpos : 0 < |q| := abs_pos.2 hq
  have hu : (0 : Rat) < 2 ^ ulpExponent q := by positivity
  have herr : |nearestDouble q - q| ≤ 2 ^ ulpExponent q / 2 := by
    have h := roundHalfEven_error (q / 2 ^ ulpExponent q)
    have e : nearestDouble q - q =
        ((roundHalfEven (q / 2 ^ ulpExponent q) : Rat) - q / 2 ^ ulpExponent q) *
          2 ^ ulpExponent q := by
      unfold nearestDouble
      field_simp
    rw [e, abs_mul, abs_of_pos hu]
    calc |(roundHalfEven (q / 2 ^ ulpExponent q) : Rat) - q / 2 ^ ulpExponent q| *
          2 ^ ulpExponent q ≤ 1 / 2 * 2 ^ ulpExponent q :=
          mul_le_mul_of_nonneg_right h hu.le
      _ = 2 ^ ulpExponent q / 2 := by ring
  have hulp : (2 : Rat) ^ ulpExponent q ≤ |q| / 2 ^ 52 + 1 / 2 ^ 1074 := by
    unfold ulpExponent
    rcases le_total (Int.log 2 |q|) (-1022) with h | h
    · rw [max_eq_right h]
      have : (2 : Rat) ^ ((-1022 : Int) - 52) = 1 / 2 ^ 1074 := by
        rw [show ((-1022 : Int) - 52) = -((1074 : Nat) : Int) by norm_num, zpow_neg,
          zpow_natCast, one_div]
      rw [this]
      have : 0 ≤ |q| / 2 ^ 52 := by positivity
      linarith
    · rw [max_eq_left h]
      have h1 : ((2 : Nat) : Rat) ^ Int.log 2 |q| ≤ |q| := Int.zpow_log_le_self (by norm_num) hpos
      have h2 : (2 : Rat) ^ (Int.log 2 |q| - 52) = 2 ^ Int.log 2 |q| / 2 ^ 52 := by
        rw [zpow_sub₀ (by norm_num : (2 : Rat) ≠ 0)]
        norm_num
      rw [h2]
      have h3 : (2 : Rat) ^ Int.log 2 |q| / 2 ^ 52 ≤ |q| / 2 ^ 52 :=
        div_le_div_of_nonneg_right (by exact_mod_cast h1) (by positivity)
      have : (0 : Rat) ≤ 1 / 2 ^ 1074 := by positivity
      linarith
  calc |nearestDouble q - q| ≤ 2 ^ ulpExponent q / 2 := herr
    _ ≤ (|q| / 2 ^ 52 + 1 / 2 ^ 1074) / 2 := by linarith
    _ = |q| / 2 ^ 53 + 1 / 2 ^ 1075 := by ring

theorem nearestDouble_near (q B : Rat) (hB : |q| ≤ B) (h1 : 1 ≤ B) :
    |nearestDouble q - q| ≤ B / 2 ^ 52 := by
  have h := nearestDouble_error q
  have a : |q| / 2 ^ 53 ≤ B / 2 ^ 53 := div_le_div_of_nonneg_right hB (by positivity)
  have b : (1 : Rat) / 2 ^ 1075 ≤ B / 2 ^ 53 := by
    rw [div_le_div_iff₀ (by positivity) (by positivity)]
    have : (2 : Rat) ^ 53 ≤ 2 ^ 1075 := pow_le_pow_right₀ (by norm_num) (by norm_num)
    nlinarith
  have c : B / 2 ^ 53 + B / 2 ^ 53 = B / 2 ^ 52 := by ring
  linarith

theorem maxDouble_large : (2 : Rat) ^ 100 ≤ maxDouble := by
  unfold maxDouble
  have h1 : (2 : Rat) ^ 100 ≤ 2 ^ 971 := pow_le_pow_right₀ (by norm_num) (by norm_num)
  have h2 : (0 : Rat) < 2 ^ 971 := by positivity
  nlinarith

theorem toDouble_fin (q B : Rat) (hB : |q| ≤ B) (h1 : 1 ≤ B) (h2 : B ≤ 2 ^ 60) :
    toDouble q = .fin (nearestDouble q) ∧ |nearestDouble q - q| ≤ B / 2 ^ 52 ∧
      |nearestDouble q| ≤ 2 * B := by
  have h := nearestDouble_near q B hB h1
  have hb : B / 2 ^ 52 ≤ B := div_le_self (by linarith) (by norm_num)
  have hn : |nearestDouble q| ≤ 2 * B := by
    have := abs_sub_abs_le_abs_sub (nearestDouble q) q
    linarith
  refine ⟨?_, h, hn⟩
  unfold toDouble
  rw [if_neg]
  have := maxDouble_large
  have : (2 : Rat) ^ 60 * 2 < 2 ^ 100 := by norm_num
  intro hcon
  linarith

theorem nearestDouble_int (n : Int) (h : |(n : Rat)| < 2 ^ 53) : nearestDouble n = n := by
  by_cases hn : n = 0
  · subst hn
    simpa using nearestDouble_zero
  have hpos : (0 : Rat) < |(n : Rat)| := abs_pos.2 (by exact_mod_cast hn)
  have h1 : (1 : Rat) ≤ |(n : Rat)| := by
    have : (1 : Int) ≤ |n| := Int.one_le_abs hn
    exact_mod_cast this
  have a1 : 0 ≤ Int.log 2 |(n : Rat)| :=
    (Int.zpow_le_iff_le_log (by norm_num) hpos).1 (by simpa using h1)
  have a2 : Int.log 2 |(n : Rat)| < 53 :=
    (Int.lt_zpow_iff_log_lt (by norm_num) hpos).1 (by exact_mod_cast h)
  obtain ⟨j, hj⟩ : ∃ j : Nat, ulpExponent (n : Rat) = -(j : Int) := by
    refine ⟨(52 - Int.log 2 |(n : Rat)|).toNat, ?_⟩
    unfold ulpExponent
    rw [max_eq_left (by omega)]
    omega
  unfold nearestDouble
  rw [hj, zpow_neg, zpow_natCast]
  have e : (n : Rat) / (2 ^ j)⁻¹ = ((n * 2 ^ j : Int) : Rat) := by
    push_cast
    field_simp
  rw [e, roundHalfEven_of_near _ (n * 2 ^ j) (by simp)]
  push_cast
  field_simp


theorem div_five (q : Rat) : (JsNum.fin q).div 5 = toDouble (q / 5) := by
  simp [JsNum.div]

theorem Math_round_of_window (y : Rat) (n : Int) (h1 : (n : Rat) - 1 / 2 ≤ y)
    (h2 : y < n + 1 / 2) : Math_round y = n := by
  rw [Math_round_eq_floor, Int.floor_eq_iff]
  constructor <;> linarith

/-- The double-precision evaluation of `(c * 9 / 5) + 32` for a moderate `c` is finite
and within 1/256 of the exact value. -/
theorem fahrenheit_double (c : Rat) (hc : |c| ≤ 2 ^ 40) :
    ∃ y : Rat, (((JsNum.fin c).mul 9).div 5).add 32 = .fin y ∧
      |y - (c * 9 / 5 + 32)| ≤ 1 / 256 := by
  have b1 : |c * 9| ≤ 9 * 2 ^ 40 := by
    rw [abs_mul]
    norm_num
    linarith
  obtain ⟨e1, d1, n1⟩ := toDouble_fin (c * 9) (9 * 2 ^ 40) b1 (by norm_num) (by norm_num)
  have c1 : |c * 9| ≤ 9 * 2 ^ 40 := b1
  rw [abs_le] at c1 d1
  norm_num at d1
  have b2 : |nearestDouble (c * 9) / 5| ≤ 2 ^ 41 := by
    rw [abs_le]
    norm_num at c1 ⊢
    constructor <;> linarith
  obtain ⟨e2, d2, n2⟩ := toDouble_fin (nearestDouble (c * 9) / 5) (2 ^ 41) b2 (by norm_num)
    (by norm_num)
  have c2 := b2
  rw [abs_le] at c2 d2
  norm_num at d2
  have b3 : |nearestDouble (nearestDouble (c * 9) / 5) + 32| ≤ 2 ^ 42 := by
    rw [abs_le]
    norm_num at c2 ⊢
    constructor <;> linarith
  obtain ⟨e3, d3, -⟩ := toDouble_fin (nearestDouble (nearestDouble (c * 9) / 5) + 32) (2 ^ 42)
    b3 (by norm_num) (by norm_num)
  rw [abs_le] at d3
  norm_num at d3
  refine ⟨nearestDouble (nearestDouble (nearestDouble (c * 9) / 5) + 32), ?_, ?_⟩
  · simp only [JsNum.mul, div_five, JsNum.add, e1, e2, e3]
  · rw [abs_le]
    norm_num
    constructor <;> linarith

theorem convertTemp_window (c : Rat) (hc : |c| ≤ 2 ^ 40) (n : Int)
    (h1 : (n : Rat) - 1 / 2 + 1 / 256 ≤ c * 9 / 5 + 32)
    (h2 : c * 9 / 5 + 32 < n + 1 / 2 - 1 / 256) :
    convertTemp "F" (.fin c) = .fin n := by
  obtain ⟨y, hy, hd⟩ := fahrenheit_double c hc
  rw [abs_le] at hd
  simp only [convertTemp, if_true, hy, JsNum.round]
  rw [Math_round_of_window y n (by linarith) (by linarith)]

theorem fahrenheit_int_window (a : Int) :
    ((Int.floor ((a : Rat) * 9 / 5 + 32 + 1 / 2) : Int) : Rat) - 1 / 2 + 1 / 10 ≤
      (a : Rat) * 9 / 5 + 32 ∧
    (a : Rat) * 9 / 5 + 32 ≤
      ((Int.floor ((a : Rat) * 9 / 5 + 32 + 1 / 2) : Int) : Rat) + 1 / 2 - 1 / 10 := by
  have hf : Int.floor ((a : Rat) * 9 / 5 + 32 + 1 / 2) = (18 * a + 325) / 10 := by
    rw [Int.floor_eq_iff]
    have h1 : (10 : Int) * ((18 * a + 325) / 10) ≤ 18 * a + 325 := by omega
    have h2 : 18 * a + 325 < (10 : Int) * ((18 * a + 325) / 10) + 10 := by omega
    have h1' : (10 : Rat) * (((18 * a + 325) / 10 : Int) : Rat) ≤ 18 * a + 325 := by
      exact_mod_cast h1
    have h2' : (18 : Rat) * a + 325 < 10 * (((18 * a + 325) / 10 : Int) : Rat) + 10 := by
      exact_mod_cast h2
    constructor <;> linarith
  rw [hf]
  have h1 : (10 : Int) * ((18 * a + 325) / 10) + 1 ≤ 18 * a + 325 := by omega
  have h2 : 18 * a + 325 ≤ (10 : Int) * ((18 * a + 325) / 10) + 9 := by omega
  have h1' : (10 : Rat) * (((18 * a + 325) / 10 : Int) : Rat) + 1 ≤ 18 * a + 325 := by
    exact_mod_cast h1
  have h2' : (18 : Rat) * a + 325 ≤ 10 * (((18 * a + 325) / 10 : Int) : Rat) + 9 := by
    exact_mod_cast h2
  constructor <;> linarith

theorem convertTemp_int (a : Int) (ha : |a| ≤ 2 ^ 40) :
    convertTemp "F" (.fin a) = .fin (Int.floor ((a : Rat) * 9 / 5 + 32 + 1 / 2)) := by
  obtain ⟨h1, h2⟩ := fahrenheit_int_window a
  apply convertTemp_window
  · have : ((|a| : Int) : Rat) ≤ ((2 ^ 40 : Int) : Rat) := by exact_mod_cast ha
    simpa using this
  · linarith
  · linarith


theorem toDouble_eval (q : Rat) (k m : Int) (hk : -1022 ≤ k) (hk2 : k ≤ 59)
    (h1 : (2 : Rat) ^ k ≤ |q|) (h2 : |q| < (2 : Rat) ^ (k + 1))
    (hm : roundHalfEven (q / 2 ^ (k - 52)) = m) : toDouble q = .fin (m * 2 ^ (k - 52)) := by
  have hB : |q| ≤ 2 ^ 60 := by
    have : (2 : Rat) ^ (k + 1) ≤ 2 ^ (60 : Int) := zpow_le_zpow_right₀ (by norm_num) (by omega)
    have e : (2 : Rat) ^ (60 : Int) = 2 ^ 60 := by norm_num
    linarith
  rw [(toDouble_fin q (2 ^ 60) hB (by norm_num) le_rfl).1, nearestDouble_eq q k m hk h1 h2 hm]

theorem just_below_tie_value :
    convertTemp "F" (.fin (5629499534213119 / 2251799813685248)) = .fin 37 ∧
    Int.floor ((5629499534213119 / 2251799813685248 : Rat) * 9 / 5 + 32 + 1 / 2) = 36 := by
  constructor
  · have e1 : toDouble ((5629499534213119 / 2251799813685248 : Rat) * 9) =
        .fin (6333186975989759 / 281474976710656) := by
      rw [toDouble_eval _ 4 6333186975989759 (by norm_num) (by norm_num) (by norm_num [abs_of_pos])
        (by norm_num [abs_of_pos])
        (roundHalfEven_of_near _ _ (by norm_num [abs_lt]))]
      norm_num
    have e2 : toDouble ((6333186975989759 / 281474976710656 : Rat) / 5) =
        .fin (5066549580791807 / 1125899906842624) := by
      rw [toDouble_eval _ 2 5066549580791807 (by norm_num) (by norm_num) (by norm_num [abs_of_pos])
        (by norm_num [abs_of_pos])
        (roundHalfEven_of_near _ _ (by norm_num [abs_lt]))]
      norm_num
    have e3 : toDouble ((5066549580791807 / 1125899906842624 : Rat) + 32) = .fin (73 / 2) := by
      rw [toDouble_eval _ 5 5136918324969472 (by norm_num) (by norm_num) (by norm_num [abs_of_pos])
        (by norm_num [abs_of_pos])
        (roundHalfEven_of_near _ _ (by norm_num [abs_lt]))]
      norm_num
    have e4 : Math_round (73 / 2) = 37 := by
      rw [Math_round_eq_floor, Int.floor_eq_iff]
      norm_num
    simp only [convertTemp, if_true, JsNum.mul, div_five, JsNum.add, JsNum.round, e1, e2, e3, e4]
    norm_num
  · rw [Int.floor_eq_iff]
    norm_num

theorem large_integers_value :
    convertTemp "F" (.fin ((16012798675095096 : Int) : Rat)) =
      convertTemp "F" (.fin ((16012798675095098 : Int) : Rat)) := by
  have e1 : toDouble (((16012798675095096 : Int) : Rat) * 9) = .fin (2 ^ 57) := by
    rw [toDouble_eval _ 56 9007199254740992 (by norm_num) (by norm_num)
      (by norm_num [abs_of_pos]) (by norm_num [abs_of_pos])
      (roundHalfEven_tie _ (by norm_num) _ (by norm_num))]
    norm_num
  have e2 : toDouble (((16012798675095098 : Int) : Rat) * 9) = .fin (2 ^ 57) := by
    rw [toDouble_eval _ 57 4503599627370496 (by norm_num) (by norm_num)
      (by norm_num [abs_of_pos]) (by norm_num [abs_of_pos])
      (roundHalfEven_of_near _ _ (by norm_num [abs_lt]))]
    norm_num
  simp only [convertTemp, if_true, JsNum.mul, e1, e2]


theorem toDouble_int (n : Int) (h : |n| ≤ 2 ^ 40) : toDouble (n : Rat) = .fin n := by
  have h1 : |(n : Rat)| ≤ 2 ^ 40 := by
    have : ((|n| : Int) : Rat) ≤ ((2 ^ 40 : Int) : Rat) := by exact_mod_cast h
    simpa using this
  rw [(toDouble_fin (n : Rat) (2 ^ 40) h1 (by norm_num) (by norm_num)).1,
    nearestDouble_int n (lt_of_le_of_lt h1 (by norm_num))]

/-- C4 (amended): the five conversion sites compute the same function of the Celsius
value and the unit (in `generateHourly` the Celsius value is the double sum of the
base temperature and the hour's variation), and in unit 'C' the value is returned as
it is.  In unit 'F' the value is `Math.round` of the double-precision value of
`(c * 9 / 5) + 32`: for every whole number `a` of magnitude at most `2 ^ 40` this is
`floor (a * 9 / 5 + 32 + 1 / 2)`, and for every `q` of that magnitude it is the integer
`n` whenever `q * 9 / 5 + 32` lies between `n - 1/2` and `n + 1/2` at distance at least
1/256 from both. -/
theorem C4_fahrenheit_at_every_site (unit : String) (c : JsNum) :
    CurrentWeather.convert unit c = convertTemp unit c ∧
    PastCard.convert unit c = convertTemp unit c ∧
    WeekCard.convert unit c = convertTemp unit c ∧
    (∀ (currentH : Int) (wave : Int → Int) (baseTemp : Rat),
      (generateHourly currentH wave baseTemp unit).map HourEntry.temp =
        (List.range 13).map fun k : Nat =>
          convertTemp unit (toDouble (baseTemp + wave ((k : Int) - 4)))) ∧
    convertTemp "C" c = c ∧
    (∀ a : Int, |a| ≤ 2 ^ 40 →
      convertTemp "F" (.fin a) = .fin (Int.floor ((a : Rat) * 9 / 5 + 32 + 1 / 2))) ∧
    (∀ (q : Rat) (n : Int), |q| ≤ 2 ^ 40 → (n : Rat) - 1 / 2 + 1 / 256 ≤ q * 9 / 5 + 32 →
      q * 9 / 5 + 32 < n + 1 / 2 - 1 / 256 → convertTemp "F" (.fin q) = .fin n) ∧
    (∀ (currentH : Int) (wave : Int → Int) (a : Int),
      (∀ i : Int, |a + wave i| ≤ 2 ^ 40) →
      (generateHourly currentH wave a "F").map HourEntry.temp =
        (List.range 13).map fun k : Nat =>
          JsNum.fin (Int.floor (((a + wave ((k : Int) - 4) : Int) : Rat) * 9 / 5 + 32 + 1 / 2))) := by
  refine ⟨rfl, rfl, rfl, ?_, ?_, convertTemp_int, ?_, ?_⟩
  · intro currentH wave baseTemp
    simp [generateHourly, convertTemp, List.map_map, Function.comp_def]
  · simp [convertTemp]
  · intro q n hq h1 h2
    exact convertTemp_window q hq n h1 h2
  · intro currentH wave a hb
    simp only [generateHourly, List.map_map, Function.comp_def, if_true]
    refine List.map_congr_left fun k _ => ?_
    have e : (a : Rat) + (wave ((k : Int) - 4) : Rat) = ((a + wave ((k : Int) - 4) : Int) : Rat) := by
      push_cast
      rfl
    have h := convertTemp_int (a + wave ((k : Int) - 4)) (hb _)
    simp only [convertTemp, if_true] at h
    rw [e, toDouble_int _ (hb _), h]

/-- C4, at concrete inputs: 21 degrees Celsius are shown as 70 degrees Fahrenheit, and
21.3 degrees as 70 as well. -/
theorem C4_fahrenheit_at_every_site_witness :
    convertTemp "F" (.fin ((21 : Int) : Rat)) =
      .fin (Int.floor (((21 : Int) : Rat) * 9 / 5 + 32 + 1 / 2)) ∧
    convertTemp "F" (.fin (213 / 10)) = .fin (70 : Int) :=
  ⟨(C4_fahrenheit_at_every_site "F" (.fin 21)).2.2.2.2.2.1 21 (by norm_num),
   (C4_fahrenheit_at_every_site "F" (.fin 21)).2.2.2.2.2.2.1 (213 / 10) 70
     (by norm_num [abs_of_pos]) (by norm_num) (by norm_num)⟩

/-- C4 as stated fails: the double 2.4999999999999996 (the one just below 2.5) is
shown as 37 degrees Fahrenheit, whereas `floor (c * 9 / 5 + 32 + 1 / 2)` is 36: the
product `c * 9` and the quotient by 5 are each rounded to a double, and the sum with 32
rounds to 36.5. -/
theorem C4_counterexample :
    toDouble (5629499534213119 / 2251799813685248) =
      .fin (5629499534213119 / 2251799813685248) ∧
    convertTemp "F" (.fin (5629499534213119 / 2251799813685248)) = .fin 37 ∧
    CurrentWeather.convert "F" (.fin (5629499534213119 / 2251799813685248)) = .fin 37 ∧
    Int.floor ((5629499534213119 / 2251799813685248 : Rat) * 9 / 5 + 32 + 1 / 2) = 36 := by
  refine ⟨?_, just_below_tie_value.1, just_below_tie_value.1, just_below_tie_value.2⟩
  rw [toDouble_eval _ 1 5629499534213119 (by norm_num) (by norm_num) (by norm_num [abs_of_pos])
    (by norm_num [abs_of_pos]) (roundHalfEven_of_near _ _ (by norm_num [abs_lt]))]
  norm_num
theorem isoDate_sample : isoDate 19792 = "2024-03-10" ∧ isoDate 0 = "1970-01-01" ∧
    isoDate 2932896 = "9999-12-31" ∧ isoDate 19782 = "2024-02-29" ∧
    isoDate (-1) = "1969-12-31" ∧ isoDate 11016 = "2000-02-29" ∧
    isoDate (-719528) = "0000-01-01" ∧ isoDate (-719529) = "-000001-12-31" ∧
    isoDate 2932897 = "+010000-01-01" := by
  decide

theorem yoe_bounds (doe : Int) (h1 : 0 ≤ doe) (h2 : doe < 146097) :
    0 ≤ (doe - doe / 1460 + doe / 36524 - doe / 146096) / 365 ∧
    (doe - doe / 1460 + doe / 36524 - doe / 146096) / 365 ≤ 399 := by
  omega

theorem doy_bounds (doe c : Int) (h1 : 0 ≤ doe) (h2 : doe < 146097)
    (hc : (doe - doe / 1460 + doe / 36524 - doe / 146096) / 365 = c) :
    0 ≤ doe - (365 * c + c / 4 - c / 100) ∧ doe - (365 * c + c / 4 - c / 100) ≤ 365 := by
  have hg : doe / 36524 = 0 ∨ doe / 36524 = 1 ∨ doe / 36524 = 2 ∨ doe / 36524 = 3 ∨
      doe / 36524 = 4 := by omega
  have hi : doe / 146096 = 0 ∨ doe / 146096 = 1 := by omega
  have he : c / 100 = 0 ∨ c / 100 = 1 ∨ c / 100 = 2 ∨ c / 100 = 3 := by omega
  rcases hg with hg | hg | hg | hg | hg <;> rcases hi with hi | hi <;>
    rcases he with he | he | he | he <;> omega

/-- The parts of the civil date of a day: the era of 400 years, the year of the era,
the day of the year counted from 1 March, and the month counted from March. -/
theorem civil_spec (z : Int) :
    ∃ era yoe doy mp : Int, 0 ≤ yoe ∧ yoe ≤ 399 ∧ 0 ≤ doy ∧ doy ≤ 365 ∧ 0 ≤ mp ∧ mp ≤ 11 ∧
      mp = (5 * doy + 2) / 153 ∧
      z + 719468 = era * 146097 + (doy + (365 * yoe + yoe / 4 - yoe / 100)) ∧
      doy + (365 * yoe + yoe / 4 - yoe / 100) < 146097 ∧
      civilFromDays z =
        (if (if mp < 10 then mp + 3 else mp - 9) ≤ 2 then yoe + era * 400 + 1
          else yoe + era * 400,
         if mp < 10 then mp + 3 else mp - 9, doy - (153 * mp + 2) / 5 + 1) := by
  have h1 : 0 ≤ (z + 719468) % 146097 := Int.emod_nonneg _ (by norm_num)
  have h2 : (z + 719468) % 146097 < 146097 := Int.emod_lt_of_pos _ (by norm_num)
  obtain ⟨y1, y2⟩ := yoe_bounds _ h1 h2
  obtain ⟨d1, d2⟩ := doy_bounds _ _ h1 h2 rfl
  refine ⟨(z + 719468) / 146097, _, _, _, y1, y2, d1, d2, ?_, ?_, rfl, ?_, ?_, rfl⟩
  · omega
  · omega
  · have := Int.ediv_add_emod (z + 719468) 146097
    linarith
  · linarith

theorem civilFromDays_injective (a b : Int) (h : civilFromDays a = civilFromDays b) : a = b := by
  obtain ⟨e1, y1, d1, m1, h1, h2, h3, h4, h5, h6, h7, h8, h9, ha⟩ := civil_spec a
  obtain ⟨e2, y2, d2, m2, g1, g2, g3, g4, g5, g6, g7, g8, g9, hb⟩ := civil_spec b
  rw [ha, hb] at h
  simp only [Prod.mk.injEq] at h
  obtain ⟨hy, hm, hd⟩ := h
  have hmm : m1 = m2 := by
    split_ifs at hm <;> omega
  subst hmm
  have hdd : d1 = d2 := by omega
  subst hdd
  have hyy : y1 + e1 * 400 = y2 + e2 * 400 := by
    split_ifs at hy <;> omega
  have hee : e1 = e2 := by omega
  subst hee
  have : y1 = y2 := by omega
  subst this
  omega

theorem civil_range (z : Int) (h0 : 0 ≤ z) (h1 : z ≤ 2932896) :
    0 ≤ (civilFromDays z).1 ∧ (civilFromDays z).1 ≤ 9999 ∧
    1 ≤ (civilFromDays z).2.1 ∧ (civilFromDays z).2.1 ≤ 12 ∧
    1 ≤ (civilFromDays z).2.2 ∧ (civilFromDays z).2.2 ≤ 31 := by
  obtain ⟨e1, y1, d1, m1, a1, a2, a3, a4, a5, a6, a7, a8, a9, ha⟩ := civil_spec z
  rw [ha]
  simp only
  have hm : m1 = 0 ∨ m1 = 1 ∨ m1 = 2 ∨ m1 = 3 ∨ m1 = 4 ∨ m1 = 5 ∨ m1 = 6 ∨ m1 = 7 ∨ m1 = 8 ∨
      m1 = 9 ∨ m1 = 10 ∨ m1 = 11 := by omega
  have he : 4 ≤ e1 ∧ e1 ≤ 24 := by omega
  refine ⟨?_, ?_, ?_, ?_, ?_, ?_⟩
  · split_ifs <;> omega
  · have : e1 = 24 → y1 = 399 → m1 < 10 := by
      intro h24 h399
      subst h24 h399
      omega
    split_ifs <;> omega
  · split_ifs <;> omega
  · split_ifs <;> omega
  · rcases hm with h | h | h | h | h | h | h | h | h | h | h | h <;> subst h <;> omega
  · rcases hm with h | h | h | h | h | h | h | h | h | h | h | h <;> subst h <;> omega

theorem digitChar_injective : ∀ a < 10, ∀ b < 10, Nat.digitChar a = Nat.digitChar b → a = b := by
  decide

theorem digitOf_eq (a b place : Int) (h : digitOf a place = digitOf b place) :
    (a / place) % 10 = (b / place) % 10 := by
  unfold digitOf at h
  by_cases hp : (10 : Int) = 0
  · omega
  have a1 : 0 ≤ (a / place) % 10 := Int.emod_nonneg _ (by norm_num)
  have a2 : (a / place) % 10 < 10 := Int.emod_lt_of_pos _ (by norm_num)
  have b1 : 0 ≤ (b / place) % 10 := Int.emod_nonneg _ (by norm_num)
  have b2 : (b / place) % 10 < 10 := Int.emod_lt_of_pos _ (by norm_num)
  have := digitChar_injective _ (by omega) _ (by omega) h
  omega

/-- Different days between 1 January 1970 and 31 December 9999 have different ISO
dates. -/
theorem isoDate_injective (a b : Int) (ha0 : 0 ≤ a) (ha1 : a ≤ 2932896) (hb0 : 0 ≤ b)
    (hb1 : b ≤ 2932896) (h : isoDate a = isoDate b) : a = b := by
  obtain ⟨p1, p2, p3, p4, p5, p6⟩ := civil_range a ha0 ha1
  obtain ⟨q1, q2, q3, q4, q5, q6⟩ := civil_range b hb0 hb1
  apply civilFromDays_injective
  unfold isoDate at h
  rcases hca : civilFromDays a with ⟨ya, ma, da⟩
  rcases hcb : civilFromDays b with ⟨yb, mb, db⟩
  rw [hca] at p1 p2 p3 p4 p5 p6 h
  rw [hcb] at q1 q2 q3 q4 q5 q6 h
  simp only at p1 p2 p3 p4 p5 p6 q1 q2 q3 q4 q5 q6 h
  have h := congrArg String.data h
  simp only [isoYear, p1, p2, q1, q2, and_self, if_true, List.cons_append,
    List.nil_append, List.cons.injEq, true_and, and_true] at h
  obtain ⟨y3, y2, y1, y0, m1, m0, d1, d0⟩ := h
  have y3 := digitOf_eq _ _ _ y3
  have y2 := digitOf_eq _ _ _ y2
  have y1 := digitOf_eq _ _ _ y1
  have y0 := digitOf_eq _ _ _ y0
  have m1 := digitOf_eq _ _ _ m1
  have m0 := digitOf_eq _ _ _ m0
  have d1 := digitOf_eq _ _ _ d1
  have d0 := digitOf_eq _ _ _ d0
  have hy : ya = yb := by omega
  have hm : ma = mb := by omega
  have hd : da = db := by omega
  rw [hy, hm, hd]


theorem steady_day {env : Env} {D : Int} (h : SteadyZone env D) (n : Nat) (hn : n ≤ 8)
    (k : Int) (h1 : 1 ≤ k) (h7 : k ≤ 7) :
    setDateBack env (env.clock n) k / msPerDay = D - k := by
  obtain ⟨hd, ho⟩ := h n hn
  simp only [setDateBack, ho k h1 h7]
  simp only [msPerDay] at hd ⊢
  omega

theorem steady_iso {env : Env} {D : Int} (h : SteadyZone env D) (n : Nat) (hn : n ≤ 8)
    (k : Int) (h1 : 1 ≤ k) (h7 : k ≤ 7) :
    isoDateOf (setDateBack env (env.clock n) k) = isoDate (D - k) := by
  rw [isoDateOf, steady_day h n hn k h1 h7]

theorem offline_steady : SteadyZone offlineEnv 19742 := by
  intro n _
  exact ⟨rfl, fun k _ _ => rfl⟩

theorem mockDates_eq (env : Env) :
    mockDates env =
      [isoDateOf (setDateBack env (env.clock 2) 1), isoDateOf (setDateBack env (env.clock 3) 2),
        isoDateOf (setDateBack env (env.clock 4) 3), isoDateOf (setDateBack env (env.clock 5) 4),
        isoDateOf (setDateBack env (env.clock 6) 5), isoDateOf (setDateBack env (env.clock 7) 6),
        isoDateOf (setDateBack env (env.clock 8) 7)] := by
  simp [mockDates, List.range']

theorem mockDates_steady {env : Env} {D : Int} (h : SteadyZone env D) :
    mockDates env = [1, 2, 3, 4, 5, 6, 7].map fun i : Int => isoDate (D - i) := by
  rw [mockDates_eq]
  simp only [List.map]
  rw [steady_iso h 2 (by norm_num) 1 (by norm_num) (by norm_num),
    steady_iso h 3 (by norm_num) 2 (by norm_num) (by norm_num),
    steady_iso h 4 (by norm_num) 3 (by norm_num) (by norm_num),
    steady_iso h 5 (by norm_num) 4 (by norm_num) (by norm_num),
    steady_iso h 6 (by norm_num) 5 (by norm_num) (by norm_num),
    steady_iso h 7 (by norm_num) 6 (by norm_num) (by norm_num),
    steady_iso h 8 (by norm_num) 7 (by norm_num) (by norm_num)]

theorem window_nodup (D : Int) (h0 : 7 ≤ D) (h1 : D ≤ 2932896) (l : List Int)
    (hl : l.Nodup) (hb : ∀ i ∈ l, 1 ≤ i ∧ i ≤ 7) :
    (l.map fun i : Int => JsVal.str (isoDate (D - i))).Nodup := by
  refine List.Nodup.map_on ?_ hl
  intro x hx y hy hxy
  have hxy' : isoDate (D - x) = isoDate (D - y) := by
    injection hxy
  have hx' := hb x hx
  have hy' := hb y hy
  have := isoDate_injective (D - x) (D - y) (by omega) (by omega) (by omega) (by omega) hxy'
  omega

theorem dst_dates :
    mockDates dstEnv = ["2024-03-11", "2024-03-10", "2024-03-10", "2024-03-09", "2024-03-08",
      "2024-03-07", "2024-03-06"] ∧
    isoDateOf (historyStart dstEnv) = "2024-03-06" ∧
    isoDateOf (historyEnd dstEnv) = "2024-03-11" ∧
    historyStart dstEnv / msPerDay = 19788 ∧ historyEnd dstEnv / msPerDay = 19793 ∧
    dstEnv.clock 0 / msPerDay = 19794 := by
  decide

/-! ## Running the pipeline -/

theorem bind_apply {α β : Type} (m : M α) (f : α → M β) (s : Sys) :
    (m >>= f) s = match m s with
      | (.ok a, s') => f a s'
      | (.error e, s') => (.error e, s') := rfl

theorem pure_apply {α : Type} (a : α) (s : Sys) : (pure a : M α) s = (.ok a, s) := rfl

theorem lift_apply {α : Type} (x : Except JsErr α) (s : Sys) : M.lift x s = (x, s) := rfl

theorem emit_apply (e : Event) (s : Sys) :
    emit e s = (.ok (), { s with log := s.log ++ [e] }) := rfl

theorem modifySt_apply (f : AppState → AppState) (s : Sys) :
    modifySt f s = (.ok (), { s with st := f s.st }) := rfl

theorem except_error_bind {α β : Type} (e : JsErr) (f : α → Except JsErr β) :
    ((Except.error e : Except JsErr α) >>= f) = Except.error e := rfl

theorem except_ok_bind {α β : Type} (a : α) (f : α → Except JsErr β) :
    ((Except.ok a : Except JsErr α) >>= f) = f a := rfl

theorem fetchAQI_run (env : Env) (lat lon : JsVal) :
    ∃ (eff : SubEffect) (evs : List Event),
      eff.past = none ∧ eff.week = none ∧ (∀ e ∈ evs, Event.isSubRequest e = true) ∧
      ∀ s : Sys, fetchAQI env lat lon s = (.ok (), ⟨eff.apply s.st, s.log ++ evs⟩) := by
  unfold fetchAQI
  rcases h1 : aqiUrl env lat lon with e1 | url
  · exact ⟨⟨none, none, none⟩, [], rfl, rfl, by simp, fun s => by
      simp [M.tryCatch, bind_apply, lift_apply, h1, pure_apply, SubEffect.apply]⟩
  rcases h2 : aqiResult env url with e2 | cur
  · exact ⟨⟨none, none, none⟩, [.request .airQuality url], rfl, rfl,
      by simp [Event.isSubRequest], fun s => by
      simp [M.tryCatch, bind_apply, lift_apply, emit_apply, h1, h2, pure_apply,
        SubEffect.apply]⟩
  by_cases h3 : isTruthy cur = true
  · exact ⟨⟨none, none, some cur⟩, [.request .airQuality url], rfl, rfl,
      by simp [Event.isSubRequest], fun s => by
      simp [M.tryCatch, bind_apply, lift_apply, emit_apply, h1, h2, h3,
        pure_apply, SubEffect.apply, setAqi, modifySt_apply]⟩
  · exact ⟨⟨none, none, none⟩, [.request .airQuality url], rfl, rfl,
      by simp [Event.isSubRequest], fun s => by
      simp [M.tryCatch, bind_apply, lift_apply, emit_apply, h1, h2, h3,
        pure_apply, SubEffect.apply]⟩

theorem fetchHistoricalData_synthetic (env : Env) (location : String) (lat lon : JsVal)
    (e : JsErr) (h : (historyUrl env lat lon >>= historyResult env location) = .error e) :
    ∃ evs, (∀ e ∈ evs, Event.isSubRequest e = true) ∧ ∀ s : Sys,
      fetchHistoricalData env location lat lon s =
        (.ok (), ⟨{ s.st with pastWeather := mockDays env location 0 (mockDates env)
                              weekWeather := (mockDays env location 0 (mockDates env)).reverse },
          s.log ++ evs⟩) := by
  unfold fetchHistoricalData
  rcases h1 : historyUrl env lat lon with e1 | url
  · exact ⟨[], by simp, fun s => by
      simp [M.tryCatch, bind_apply, lift_apply, h1, pure_apply, setPastWeather, setWeekWeather,
        modifySt_apply]⟩
  rw [h1] at h
  change historyResult env location url = .error e at h
  exact ⟨[.request .archive url], by simp [Event.isSubRequest], fun s => by
    simp [M.tryCatch, bind_apply, lift_apply, emit_apply, h1, h, pure_apply, setPastWeather,
      setWeekWeather, modifySt_apply]⟩

theorem fetchHistoricalData_live (env : Env) (location : String) (lat lon : JsVal)
    (r : Option (List DayRecord))
    (h : (historyUrl env lat lon >>= historyResult env location) = .ok r) :
    ∃ evs, (∀ e ∈ evs, Event.isSubRequest e = true) ∧ ∀ s : Sys,
      fetchHistoricalData env location lat lon s =
        (.ok (), ⟨{ s.st with pastWeather := (r.map List.reverse).getD s.st.pastWeather
                              weekWeather := r.getD s.st.weekWeather },
          s.log ++ evs⟩) := by
  unfold fetchHistoricalData
  rcases h1 : historyUrl env lat lon with e1 | url
  · rw [h1] at h; exact absurd h (by simp [except_error_bind])
  rw [h1] at h
  change historyResult env location url = .ok r at h
  refine ⟨[.request .archive url], by simp [Event.isSubRequest], fun s => ?_⟩
  cases r <;>
    simp [M.tryCatch, bind_apply, lift_apply, emit_apply, h1, h, pure_apply, setPastWeather,
      setWeekWeather, modifySt_apply]

theorem fetchHistoricalData_run (env : Env) (location : String) (lat lon : JsVal) :
    ∃ (eff : SubEffect) (evs : List Event),
      eff.aqi = none ∧ (∀ e ∈ evs, Event.isSubRequest e = true) ∧
      ∀ s : Sys, fetchHistoricalData env location lat lon s =
        (.ok (), ⟨eff.apply s.st, s.log ++ evs⟩) := by
  rcases h : (historyUrl env lat lon >>= historyResult env location) with e | r
  · obtain ⟨evs, hev, hrun⟩ := fetchHistoricalData_synthetic env location lat lon e h
    exact ⟨⟨some (mockDays env location 0 (mockDates env)),
      some (mockDays env location 0 (mockDates env)).reverse, none⟩, evs, rfl, hev, fun s => by
      rw [hrun]; simp [SubEffect.apply]⟩
  · obtain ⟨evs, hev, hrun⟩ := fetchHistoricalData_live env location lat lon r h
    exact ⟨⟨r.map List.reverse, r, none⟩, evs, rfl, hev, fun s => by
      rw [hrun]; simp [SubEffect.apply]⟩

theorem resolveData_run (env : Env) (location : String) (s : Sys) :
    resolveData env location s =
      (resolved env location, ⟨s.st, s.log ++ resolveEvents env location⟩) := by
  unfold resolveData resolved resolveEvents
  rcases h : directStep env location with e | d <;>
    simp [M.tryCatch, bind_apply, lift_apply, emit_apply, h]

theorem key_ne_placeholder : ¬ (WEATHERSTACK_API_KEY = "YOUR_API_KEY") := by decide

theorem handleMockCurrent_run (env : Env) (location : String) :
    ∃ (eff : SubEffect) (evs : List Event),
      (∀ e ∈ evs, Event.isSubRequest e = true) ∧
      ∀ s : Sys, handleMockCurrent env location s =
        (.ok (), ⟨eff.apply { s.st with weather := mockCurrent location, condition := "Sunny" },
          s.log ++ evs⟩) := by
  obtain ⟨e1, v1, a1, r1, h1⟩ :=
    fetchHistoricalData_run env location (.str "35.6895") (.str "139.6917")
  obtain ⟨e2, v2, p2, w2, r2, h2⟩ := fetchAQI_run env (.str "35.6895") (.str "139.6917")
  refine ⟨⟨e1.past, e1.week, e2.aqi⟩, v1 ++ v2, ?_, ?_⟩
  · intro e he
    rcases List.mem_append.1 he with h | h
    · exact r1 e h
    · exact r2 e h
  · intro s
    simp [handleMockCurrent, bind_apply, lift_apply, setWeather, setCondition, modifySt_apply,
      mockCurrent, getProp, lookupKey, h1, h2, SubEffect.apply, a1, p2, w2]

theorem subFetches_run (env : Env) (location : String) (lat lon : JsVal) :
    ∃ (eff : SubEffect) (evs : List Event),
      (∀ e ∈ evs, Event.isSubRequest e = true) ∧
      ∀ s : Sys, (fetchHistoricalData env location lat lon >>= fun _ => fetchAQI env lat lon) s =
        (.ok (), ⟨eff.apply s.st, s.log ++ evs⟩) := by
  obtain ⟨e1, v1, a1, r1, h1⟩ := fetchHistoricalData_run env location lat lon
  obtain ⟨e2, v2, p2, w2, r2, h2⟩ := fetchAQI_run env lat lon
  refine ⟨⟨e1.past, e1.week, e2.aqi⟩, v1 ++ v2, ?_, ?_⟩
  · intro e he
    rcases List.mem_append.1 he with h | h
    · exact r1 e h
    · exact r2 e h
  · intro s
    simp [bind_apply, h1, h2, SubEffect.apply, a1, p2, w2]


theorem fetchWeatherRest_run (env : Env) (location : String) (s : Sys) :
    fetchWeatherRest env location s = (.ok (),
      match classify env location with
      | .live data c la lo =>
        finish (runM (fetchHistoricalData env location la lo >>= fun _ => fetchAQI env la lo)
          ⟨{ s.st with weather := data, condition := c },
            s.log ++ resolveEvents env location⟩)
      | .appError =>
        finish (runM (handleMockCurrent env location)
          ⟨s.st, s.log ++ resolveEvents env location⟩)
      | .failure =>
        finish (runM (handleMockCurrent env location)
          ⟨{ s.st with error := some simulationNotice },
            s.log ++ resolveEvents env location ++ [.setError (some simulationNotice)]⟩)) := by
  obtain ⟨eff, evs, -, hm⟩ := handleMockCurrent_run env location
  have hk := key_ne_placeholder
  unfold classify
  rcases h1 : resolved env location with e1 | data
  · simp [runM, fetchWeatherRest, fetchWeatherTry, hk, bind_apply, emit_apply, pure_apply, lift_apply,
      setLoading, setError, setWeather, setPastWeather, setWeekWeather, setCondition,
      modifySt_apply, M.tryFinally, M.tryCatch, M.throw, resolveData_run, hm, finish, cleared,
      SubEffect.apply, except_error_bind, except_ok_bind, h1]
  rcases h2 : getProp data "error" with e2 | err
  · simp [runM, fetchWeatherRest, fetchWeatherTry, hk, bind_apply, emit_apply, pure_apply, lift_apply,
      setLoading, setError, setWeather, setPastWeather, setWeekWeather, setCondition,
      modifySt_apply, M.tryFinally, M.tryCatch, M.throw, resolveData_run, hm, finish, cleared,
      SubEffect.apply, except_error_bind, except_ok_bind, h1, h2]
  by_cases h3 : isTruthy err = true
  · have h3' : ∃ v, getProp err "info" = .ok v := by
      cases err <;> simp [isTruthy, getProp] at h3 ⊢
    obtain ⟨v, hv⟩ := h3'
    simp [runM, fetchWeatherRest, fetchWeatherTry, hk, bind_apply, emit_apply, pure_apply, lift_apply,
      setLoading, setError, setWeather, setPastWeather, setWeekWeather, setCondition,
      modifySt_apply, M.tryFinally, M.tryCatch, M.throw, resolveData_run, hm, finish, cleared,
      SubEffect.apply, except_error_bind, except_ok_bind, h1, h2, h3, hv]
  rcases h4 : getProp data "current" with e4 | cur
  · simp [runM, fetchWeatherRest, fetchWeatherTry, hk, bind_apply, emit_apply, pure_apply, lift_apply,
      setLoading, setError, setWeather, setPastWeather, setWeekWeather, setCondition,
      modifySt_apply, M.tryFinally, M.tryCatch, M.throw, resolveData_run, hm, finish, cleared,
      SubEffect.apply, except_error_bind, except_ok_bind, h1, h2, h3, h4]
  by_cases h5 : isTruthy cur = true
  swap
  · simp [runM, fetchWeatherRest, fetchWeatherTry, hk, bind_apply, emit_apply, pure_apply, lift_apply,
      setLoading, setError, setWeather, setPastWeather, setWeekWeather, setCondition,
      modifySt_apply, M.tryFinally, M.tryCatch, M.throw, resolveData_run, hm, finish, cleared,
      SubEffect.apply, except_error_bind, except_ok_bind, h1, h2, h3, h4, h5]
  rcases h6 : getProp cur "weather_descriptions" with e6 | descs
  · simp [runM, fetchWeatherRest, fetchWeatherTry, hk, bind_apply, emit_apply, pure_apply, lift_apply,
      setLoading, setError, setWeather, setPastWeather, setWeekWeather, setCondition,
      modifySt_apply, M.tryFinally, M.tryCatch, M.throw, resolveData_run, hm, finish, cleared,
      SubEffect.apply, except_error_bind, except_ok_bind, h1, h2, h3, h4, h5, h6]
  rcases h7 : getIndex descs 0 with e7 | d0
  · simp [runM, fetchWeatherRest, fetchWeatherTry, hk, bind_apply, emit_apply, pure_apply, lift_apply,
      setLoading, setError, setWeather, setPastWeather, setWeekWeather, setCondition,
      modifySt_apply, M.tryFinally, M.tryCatch, M.throw, resolveData_run, hm, finish, cleared,
      SubEffect.apply, except_error_bind, except_ok_bind, h1, h2, h3, h4, h5, h6, h7]
  rcases h8 : determineConditionOf d0 with e8 | c
  · simp [runM, fetchWeatherRest, fetchWeatherTry, hk, bind_apply, emit_apply, pure_apply, lift_apply,
      setLoading, setError, setWeather, setPastWeather, setWeekWeather, setCondition,
      modifySt_apply, M.tryFinally, M.tryCatch, M.throw, resolveData_run, hm, finish, cleared,
      SubEffect.apply, except_error_bind, except_ok_bind, h1, h2, h3, h4, h5, h6, h7, h8]
  rcases h9 : getProp data "location" with e9 | loc
  · simp [runM, fetchWeatherRest, fetchWeatherTry, hk, bind_apply, emit_apply, pure_apply, lift_apply,
      setLoading, setError, setWeather, setPastWeather, setWeekWeather, setCondition,
      modifySt_apply, M.tryFinally, M.tryCatch, M.throw, resolveData_run, hm, finish, cleared,
      SubEffect.apply, except_error_bind, except_ok_bind, h1, h2, h3, h4, h5, h6, h7, h8, h9]
  rcases h10 : getProp loc "lat" with e10 | la
  · simp [runM, fetchWeatherRest, fetchWeatherTry, hk, bind_apply, emit_apply, pure_apply, lift_apply,
      setLoading, setError, setWeather, setPastWeather, setWeekWeather, setCondition,
      modifySt_apply, M.tryFinally, M.tryCatch, M.throw, resolveData_run, hm, finish, cleared,
      SubEffect.apply, except_error_bind, except_ok_bind, h1, h2, h3, h4, h5, h6, h7, h8, h9, h10]
  rcases h11 : getProp loc "lon" with e11 | lo
  · simp [runM, fetchWeatherRest, fetchWeatherTry, hk, bind_apply, emit_apply, pure_apply, lift_apply,
      setLoading, setError, setWeather, setPastWeather, setWeekWeather, setCondition,
      modifySt_apply, M.tryFinally, M.tryCatch, M.throw, resolveData_run, hm, finish, cleared,
      SubEffect.apply, except_error_bind, except_ok_bind, h1, h2, h3, h4, h5, h6, h7, h8, h9, h10, h11]
  obtain ⟨ea, va, -, -, ha⟩ := fetchHistoricalData_run env location la lo
  obtain ⟨eb, vb, -, -, -, hb⟩ := fetchAQI_run env la lo
  simp [runM, fetchWeatherRest, fetchWeatherTry, hk, bind_apply, emit_apply, pure_apply, lift_apply,
      setLoading, setError, setWeather, setPastWeather, setWeekWeather, setCondition,
      modifySt_apply, M.tryFinally, M.tryCatch, M.throw, resolveData_run, hm, finish, cleared,
      SubEffect.apply, except_error_bind, except_ok_bind, h1, h2, h3, h4, h5, h6, h7, h8, h9, h10, h11, ha, hb]

theorem fetchWeather_split (env : Env) (location : String) (s : Sys) (h : location ≠ "") :
    fetchWeather env location s =
      fetchWeatherRest env location
        ⟨cleared s.st, s.log ++ [.fetchWeatherCalled location, .setError none]⟩ := by
  simp [fetchWeather, fetchWeatherReset, h, bind_apply, emit_apply, setLoading, setError,
    setWeather, setPastWeather, setWeekWeather, modifySt_apply, cleared]

theorem fetchWeather_run (env : Env) (location : String) (s : Sys) (h : location ≠ "") :
    fetchWeather env location s = (.ok (),
      match classify env location with
      | .live data c la lo =>
        finish (runM (fetchHistoricalData env location la lo >>= fun _ => fetchAQI env la lo)
          ⟨{ cleared s.st with weather := data, condition := c },
            s.log ++ [.fetchWeatherCalled location, .setError none] ++
              resolveEvents env location⟩)
      | .appError =>
        finish (runM (handleMockCurrent env location)
          ⟨cleared s.st, s.log ++ [.fetchWeatherCalled location, .setError none] ++
              resolveEvents env location⟩)
      | .failure =>
        finish (runM (handleMockCurrent env location)
          ⟨{ cleared s.st with error := some simulationNotice },
            s.log ++ [.fetchWeatherCalled location, .setError none] ++
              resolveEvents env location ++ [.setError (some simulationNotice)]⟩)) := by
  rw [fetchWeather_split env location s h, fetchWeatherRest_run]

theorem fetchWeather_summary (env : Env) (location : String) (s : Sys) (h : location ≠ "") :
    ∃ (eff : SubEffect) (evs : List Event),
      (∀ e ∈ evs, Event.isSubRequest e = true) ∧
      fetchWeather env location s = (.ok (),
        ⟨eff.apply (coreState (classify env location) location s.st),
          s.log ++ [.fetchWeatherCalled location, .setError none] ++
            resolveEvents env location ++ noticeOf (classify env location) ++ evs⟩) := by
  rw [fetchWeather_run env location s h]
  obtain ⟨eff, evs, hev, hm⟩ := handleMockCurrent_run env location
  rcases hc : classify env location with ⟨data, c, la, lo⟩ | _ | _
  · obtain ⟨eff2, evs2, hev2, hs⟩ := subFetches_run env location la lo
    exact ⟨eff2, evs2, hev2, by simp [runM, hs, finish, coreState, noticeOf, SubEffect.apply]⟩
  · exact ⟨eff, evs, hev, by
      simp [runM, hm, finish, coreState, noticeOf, SubEffect.apply, cleared]⟩
  · exact ⟨eff, evs, hev, by
      simp [runM, hm, finish, coreState, noticeOf, SubEffect.apply, cleared]⟩

theorem isPresent_of_getProp {v r : JsVal} {k : String} (h : getProp v k = .ok r) :
    isPresent v = true := by
  cases v <;> simp [getProp, isPresent] at h ⊢

theorem isPresent_of_isTruthy {v : JsVal} (h : isTruthy v = true) : isPresent v = true := by
  cases v <;> simp [isTruthy, isPresent] at h ⊢

theorem classify_live_parts (env : Env) (location : String) (data la lo : JsVal) (c : String)
    (h : classify env location = .live data c la lo) :
    isPresent data = true ∧ hasPart data "location" ∧ hasPart data "current" := by
  unfold classify at h
  split at h
  · cases h
  next d hd =>
  split at h
  · cases h
  next err he =>
  split at h
  · cases h
  split at h
  · cases h
  next cur hcur =>
  split at h
  · cases h
  next hct =>
  split at h
  · cases h
  next c' hc' =>
  split at h
  · cases h
  next loc hloc =>
  split at h
  next la' lo' hla hlo =>
    cases h
    simp only [Bool.not_eq_true, Bool.not_eq_false', Bool.not_eq_true'] at hct
    refine ⟨isPresent_of_getProp he, ⟨loc, hloc, isPresent_of_getProp hla⟩,
      ⟨cur, hcur, isPresent_of_isTruthy (by simpa using hct)⟩⟩
  · cases h


theorem mockCurrent_parts (location : String) :
    isPresent (mockCurrent location) = true ∧ hasPart (mockCurrent location) "location" ∧
      hasPart (mockCurrent location) "current" := by
  refine ⟨rfl, ⟨_, rfl, rfl⟩, ⟨_, rfl, rfl⟩⟩

theorem classify_appError (env : Env) (location : String) (data e : JsVal)
    (h1 : resolved env location = .ok data) (h2 : getProp data "error" = .ok e)
    (h3 : isTruthy e = true) : classify env location = .appError := by
  simp [classify, h1, h2, h3]

theorem classify_schema (env : Env) (location : String) (data e c : JsVal)
    (h1 : resolved env location = .ok data) (h2 : getProp data "error" = .ok e)
    (h3 : isTruthy e = false) (h4 : getProp data "current" = .ok c)
    (h5 : isTruthy c = false) : classify env location = .failure := by
  simp [classify, h1, h2, h3, h4, h5]

theorem classify_failure (env : Env) (location : String) (e : JsErr)
    (h1 : resolved env location = .error e) : classify env location = .failure := by
  simp [classify, h1]

theorem jsTrim_blank (q : String) (h : ∀ c ∈ q.data, isJsWhiteSpace c = true) :
    jsTrim q = "" := by
  have h1 : q.data.dropWhile isJsWhiteSpace = [] := by
    rw [List.dropWhile_eq_nil_iff]
    exact h
  simp [jsTrim, h1]

/-- C1: for every non-empty location and every behaviour of the providers,
`fetchWeather` completes, and in the state it reaches `weather` is not null and has
both a `location` part and a `current` part. -/
theorem C1_fetchWeather_publishes_current (env : Env) (location : String) (s : Sys)
    (h : location ≠ "") :
    ∃ s', fetchWeather env location s = (.ok (), s') ∧ isPresent s'.st.weather = true ∧
      hasPart s'.st.weather "location" ∧ hasPart s'.st.weather "current" := by
  obtain ⟨eff, evs, -, hrun⟩ := fetchWeather_summary env location s h
  refine ⟨_, hrun, ?_⟩
  rcases hc : classify env location with ⟨data, c, la, lo⟩ | _ | _
  · simpa [coreState, SubEffect.apply] using classify_live_parts env location data la lo c hc
  · simpa [coreState, SubEffect.apply] using mockCurrent_parts location
  · simpa [coreState, SubEffect.apply] using mockCurrent_parts location

/-- C1, at a concrete input: with every provider down, a search for "Tokyo" ends with
`weather` present and holding both parts. -/
theorem C1_fetchWeather_publishes_current_witness :
    "Tokyo" ≠ "" ∧ ∃ s', fetchWeather offlineEnv "Tokyo" initialSys = (.ok (), s') ∧
      isPresent s'.st.weather = true ∧
      hasPart s'.st.weather "location" ∧ hasPart s'.st.weather "current" :=
  ⟨by decide, C1_fetchWeather_publishes_current offlineEnv "Tokyo" initialSys (by decide)⟩

/-- C5: `handleSearch` with an empty or whitespace-only query leaves the whole state as
it is and performs a single action, the shake of the input: `fetchWeather` is not
called and no request is made; and `fetchWeather('')` returns at once, with no request
and no state change. -/
theorem C5_blank_query_rejected (env : Env) (s : Sys)
    (h : ∀ c ∈ s.st.query.data, isJsWhiteSpace c = true) :
    handleSearch env s = (.ok (), ⟨s.st, s.log ++ [.shake]⟩) ∧
    fetchWeather env "" s = (.ok (), ⟨s.st, s.log ++ [.fetchWeatherCalled ""]⟩) := by
  constructor
  · simp [handleSearch, jsTrim_blank _ h, emit_apply]
  · simp [fetchWeather, bind_apply, emit_apply, pure_apply]

/-- C5, at a concrete input: the query of three blanks is rejected. -/
theorem C5_blank_query_rejected_witness :
    handleSearch offlineEnv ⟨{ initialState with query := "   " }, []⟩ =
      (.ok (), ⟨{ initialState with query := "   " }, [.shake]⟩) ∧
    fetchWeather offlineEnv "" ⟨{ initialState with query := "   " }, []⟩ =
      (.ok (), ⟨{ initialState with query := "   " }, [.fetchWeatherCalled ""]⟩) :=
  C5_blank_query_rejected offlineEnv ⟨{ initialState with query := "   " }, []⟩ (by decide)


theorem notice_of_subRequest {e : Event} (h : Event.isSubRequest e = true) :
    Event.isNotice e = false ∧ Event.isProxyRequest e = false := by
  cases e with
  | request site url => cases site <;> simp [Event.isSubRequest, Event.isNotice, Event.isProxyRequest] at h ⊢
  | _ => simp [Event.isSubRequest] at h

theorem resolveEvents_no_notice (env : Env) (location : String) :
    ∀ e ∈ resolveEvents env location, Event.isNotice e = false := by
  intro e he
  unfold resolveEvents at he
  split at he <;> simp at he <;> rcases he with rfl | rfl <;> rfl

theorem directStep_error_iff (env : Env) (location : String) :
    (∃ err, directStep env location = .error err) ↔
      (∃ err, env.fetch .direct (currentUrl env location) = .error err) ∨
      (∃ r err, env.fetch .direct (currentUrl env location) = .ok r ∧ r.json = .error err) := by
  unfold directStep
  rcases h : env.fetch .direct (currentUrl env location) with e | r
  · simp [except_error_bind]
  · simp [except_ok_bind]

/-- C6 (amended): the relay-proxy request is issued if and only if the direct step
throws, be it the `fetch` itself or the parsing of its body by `response.json()`;
when the direct step yields a JSON body that body is the data used and no proxy
request is made.  When the proxy is used and its envelope has a non-empty `contents`
string, the data used is the JSON parse of `contents`. -/
theorem C6_proxy_iff_direct_step_throws (env : Env) (location : String) (s : Sys)
    (h : location ≠ "") :
    (∃ evs, (runM (fetchWeather env location) s).log = s.log ++ evs ∧
      ((∃ e ∈ evs, Event.isProxyRequest e = true) ↔
        ((∃ err, env.fetch .direct (currentUrl env location) = .error err) ∨
         (∃ r err, env.fetch .direct (currentUrl env location) = .ok r ∧
            r.json = .error err)))) ∧
    (∀ r d, env.fetch .direct (currentUrl env location) = .ok r → r.json = .ok d →
      resolved env location = .ok d) ∧
    (∀ err r raw c, directStep env location = .error err →
      env.fetch .proxy (proxyUrl env location) = .ok r → r.json = .ok raw →
      getProp raw "contents" = .ok (.str c) → c ≠ "" →
      resolved env location = env.JSON_parse (.str c)) := by
  refine ⟨?_, ?_, ?_⟩
  · obtain ⟨eff, evs, hev, hrun⟩ := fetchWeather_summary env location s h
    refine ⟨[.fetchWeatherCalled location, .setError none] ++ resolveEvents env location ++
      noticeOf (classify env location) ++ evs, by rw [runM, hrun]; simp, ?_⟩
    rw [← directStep_error_iff]
    have hsub : ∀ e ∈ evs, Event.isProxyRequest e = false :=
      fun e he => (notice_of_subRequest (hev e he)).2
    have hnot : ∀ e ∈ noticeOf (classify env location), Event.isProxyRequest e = false := by
      intro e he
      unfold noticeOf at he
      split at he <;> simp at he
      subst he; rfl
    have hsub' : evs.any Event.isProxyRequest = false := by
      rw [List.any_eq_false]; intro e he; simp [hsub e he]
    have hnot' : (noticeOf (classify env location)).any Event.isProxyRequest = false := by
      rw [List.any_eq_false]; intro e he; simp [hnot e he]
    rw [← List.any_eq_true]
    rcases hd : directStep env location with err | d
    · simp [resolveEvents, hd, List.any_append, hsub', hnot', Event.isProxyRequest]
    · simp [resolveEvents, hd, List.any_append, hsub', hnot', Event.isProxyRequest]
  · intro r d h1 h2
    simp [resolved, directStep, h1, h2, except_ok_bind]
  · intro err r raw c hd h1 h2 h3 hc
    simp [resolved, hd, proxyStep, h1, h2, h3, except_ok_bind, isTruthy, hc]

/-- C6 (amended), at a concrete input: the direct request fails, the proxy's envelope
holds the text of an empty object, and the data used is the parse of that text. -/
theorem C6_proxy_iff_direct_step_throws_witness :
    resolved (envProxy (.str "\x7b\x7d")) "London" =
      (envProxy (.str "\x7b\x7d")).JSON_parse (.str "\x7b\x7d") :=
  (C6_proxy_iff_direct_step_throws (envProxy (.str "\x7b\x7d")) "London" initialSys
    (by decide)).2.2 (.TypeError "Failed to fetch")
    ⟨.ok (.obj [("contents", .str "\x7b\x7d")])⟩ (.obj [("contents", .str "\x7b\x7d")])
    "\x7b\x7d" rfl rfl rfl rfl (by decide)

/-- C6 as stated fails twice.  When the direct `fetch` resolves to a body that is not
JSON, it did not throw and yet the proxy request is issued; and when the proxy's
envelope has the empty string as `contents`, the data used is the envelope itself,
whereas the JSON parse of the empty text is a `SyntaxError`. -/
theorem C6_counterexample :
    ((∃ r, envBadBody.fetch .direct (currentUrl envBadBody "London") = .ok r) ∧
      Event.request .proxy (proxyUrl envBadBody "London") ∈
        (runM (fetchWeather envBadBody "London") initialSys).log) ∧
    (getProp (.obj [("contents", .str "")]) "contents" = .ok (.str "") ∧
      resolved (envProxy (.str "")) "London" = .ok (.obj [("contents", .str "")]) ∧
      (envProxy (.str "")).JSON_parse (.str "") =
        .error (.SyntaxError "Unexpected end of JSON input")) := by
  refine ⟨⟨⟨_, rfl⟩, ?_⟩, rfl, rfl, rfl⟩
  obtain ⟨eff, evs, -, hrun⟩ :=
    fetchWeather_summary envBadBody "London" initialSys (by decide)
  rw [runM, hrun]
  have : resolveEvents envBadBody "London" =
      [.request .direct (currentUrl envBadBody "London"),
        .request .proxy (proxyUrl envBadBody "London")] := rfl
  simp [this]


theorem filter_notice_sub (evs : List Event) (h : ∀ e ∈ evs, Event.isSubRequest e = true) :
    evs.filter Event.isNotice = [] := by
  rw [List.filter_eq_nil_iff]
  intro e he
  simp [(notice_of_subRequest (h e he)).1]

theorem filter_notice_resolve (env : Env) (location : String) :
    (resolveEvents env location).filter Event.isNotice = [] := by
  rw [List.filter_eq_nil_iff]
  intro e he
  simp [resolveEvents_no_notice env location e he]

theorem mockCurrent_name (location : String) :
    (getProp (mockCurrent location) "location" >>= fun l => getProp l "name") =
      .ok (.str location) := rfl

/-- C7: when the data obtained by the direct or the proxy step carries an error payload
in its `error` field (the provider's error object, or any other value that
`if (data.error)` takes for true), `fetchWeather` publishes the mock current
conditions, whose `location.name` is the requested location, and raises no notice:
`error` is null at the end and `setError` was never called with a message. -/
theorem C7_error_payload_silent_mock (env : Env) (location : String) (s : Sys)
    (data e : JsVal) (h : location ≠ "") (h1 : resolved env location = .ok data)
    (h2 : getProp data "error" = .ok e) (h3 : isTruthy e = true) :
    ∃ evs, (runM (fetchWeather env location) s).log = s.log ++ evs ∧
      evs.filter Event.isNotice = [] ∧
      (runM (fetchWeather env location) s).st.weather = mockCurrent location ∧
      (getProp (mockCurrent location) "location" >>= fun l => getProp l "name") =
        .ok (.str location) ∧
      (runM (fetchWeather env location) s).st.error = none := by
  obtain ⟨eff, evs, hev, hrun⟩ := fetchWeather_summary env location s h
  have hc := classify_appError env location data e h1 h2 h3
  rw [hc] at hrun
  refine ⟨[.fetchWeatherCalled location, .setError none] ++ resolveEvents env location ++
      noticeOf .appError ++ evs, by rw [runM, hrun]; simp, ?_, ?_, mockCurrent_name location, ?_⟩
  · simp [List.filter_append, filter_notice_sub evs hev, filter_notice_resolve, noticeOf,
      List.filter, Event.isNotice]
  · rw [runM, hrun]; simp [coreState, SubEffect.apply]
  · rw [runM, hrun]; simp [coreState, SubEffect.apply, cleared]

/-- C7, at a concrete input: the provider's error payload for "London". -/
theorem C7_error_payload_silent_mock_witness :
    ∃ evs, (runM (fetchWeather (envDirect errorPayload) "London") initialSys).log =
        initialSys.log ++ evs ∧
      evs.filter Event.isNotice = [] ∧
      (runM (fetchWeather (envDirect errorPayload) "London") initialSys).st.weather =
        mockCurrent "London" ∧
      (getProp (mockCurrent "London") "location" >>= fun l => getProp l "name") =
        .ok (.str "London") ∧
      (runM (fetchWeather (envDirect errorPayload) "London") initialSys).st.error = none :=
  C7_error_payload_silent_mock (envDirect errorPayload) "London" initialSys errorPayload
    (.obj [("code", .num 615), ("type", .str "request_failed"),
      ("info", .str "Your API request failed.")]) (by decide) rfl rfl rfl

/-- The boundary of the test `if (data.error)`: an `error` field whose value is the
empty string is not an error payload; the missing `current` data then raises the
notice. -/
theorem blank_error_field_raises_notice :
    getProp (.obj [("success", .bool false), ("error", .str "")]) "error" = .ok (.str "") ∧
    resolved (envDirect (.obj [("success", .bool false), ("error", .str "")])) "London" =
      .ok (.obj [("success", .bool false), ("error", .str "")]) ∧
    (runM (fetchWeather (envDirect (.obj [("success", .bool false), ("error", .str "")]))
      "London") initialSys).st.error = some simulationNotice := by
  refine ⟨rfl, rfl, ?_⟩
  obtain ⟨eff, evs, -, hrun⟩ := fetchWeather_summary
    (envDirect (.obj [("success", .bool false), ("error", .str "")])) "London" initialSys
    (by decide)
  have hc : classify (envDirect (.obj [("success", .bool false), ("error", .str "")]))
      "London" = .failure :=
    classify_schema _ _ _ (.str "") .undefined rfl rfl rfl rfl rfl
  rw [runM, hrun, hc]
  simp [coreState, SubEffect.apply]

/-- C9: when both the direct and the proxy step throw, `fetchWeather` publishes the
mock current conditions for the requested location and raises exactly one notice:
`setError` is called with a message once, with the simulation-mode message, and
`error` holds that message at the end. -/
theorem C9_all_providers_down (env : Env) (location : String) (s : Sys) (e1 e2 : JsErr)
    (h : location ≠ "") (hd : directStep env location = .error e1)
    (hp : proxyStep env location = .error e2) :
    ∃ evs, (runM (fetchWeather env location) s).log = s.log ++ evs ∧
      evs.filter Event.isNotice = [.setError (some simulationNotice)] ∧
      (runM (fetchWeather env location) s).st.weather = mockCurrent location ∧
      (getProp (mockCurrent location) "location" >>= fun l => getProp l "name") =
        .ok (.str location) ∧
      (runM (fetchWeather env location) s).st.error = some simulationNotice := by
  obtain ⟨eff, evs, hev, hrun⟩ := fetchWeather_summary env location s h
  have hr : resolved env location = .error e2 := by simp [resolved, hd, hp]
  have hc := classify_failure env location e2 hr
  rw [hc] at hrun
  refine ⟨[.fetchWeatherCalled location, .setError none] ++ resolveEvents env location ++
      noticeOf .failure ++ evs, by rw [runM, hrun]; simp, ?_, ?_, mockCurrent_name location, ?_⟩
  · simp [List.filter_append, filter_notice_sub evs hev, filter_notice_resolve, noticeOf,
      List.filter, Event.isNotice]
  · rw [runM, hrun]; simp [coreState, SubEffect.apply]
  · rw [runM, hrun]; simp [coreState, SubEffect.apply]

/-- C9, at a concrete input: "Tokyo" with every request failing. -/
theorem C9_all_providers_down_witness :
    ∃ evs, (runM (fetchWeather offlineEnv "Tokyo") initialSys).log = initialSys.log ++ evs ∧
      evs.filter Event.isNotice = [.setError (some simulationNotice)] ∧
      (runM (fetchWeather offlineEnv "Tokyo") initialSys).st.weather = mockCurrent "Tokyo" ∧
      (getProp (mockCurrent "Tokyo") "location" >>= fun l => getProp l "name") =
        .ok (.str "Tokyo") ∧
      (runM (fetchWeather offlineEnv "Tokyo") initialSys).st.error = some simulationNotice :=
  C9_all_providers_down offlineEnv "Tokyo" initialSys (.TypeError "Failed to fetch")
    (.TypeError "Failed to fetch") (by decide) rfl rfl


theorem template_congr {e1 e2 : Env} (h : e1.templateOther = e2.templateOther) :
    template e1 = template e2 := by
  funext v
  cases v <;> simp [template, h]

theorem roundVal_congr {e1 e2 : Env} (h : e1.roundOther = e2.roundOther) :
    roundVal e1 = roundVal e2 := by
  funext v
  cases v <;> simp [roundVal, h]

theorem formatDays_congr {e1 e2 : Env} (h : SameBackground e1 e2) (location : String)
    (daily : JsVal) (xs : List JsVal) (idx : Nat) :
    formatDays e1 location daily idx xs = formatDays e2 location daily idx xs := by
  induction xs generalizing idx with
  | nil => rfl
  | cons x xs ih =>
    simp only [formatDays, formatDay, template_congr h.2.2.1, roundVal_congr h.2.2.2.1, ih]

theorem mockDays_congr {e1 e2 : Env} (h : SameBackground e1 e2) (location : String)
    (ds : List String) (n : Nat) : mockDays e1 location n ds = mockDays e2 location n ds := by
  induction ds generalizing n with
  | nil => rfl
  | cons d ds ih => simp only [mockDays, generateMockDay, h.2.2.2.2.2.2, ih]

theorem fetchHistoricalData_congr {e1 e2 : Env} (h : SameBackground e1 e2)
    (location : String) (lat lon : JsVal) :
    fetchHistoricalData e1 location lat lon = fetchHistoricalData e2 location lat lon := by
  have hu : historyUrl e1 lat lon = historyUrl e2 lat lon := by
    simp only [historyUrl, historyStart, historyEnd, setDateBack, template_congr h.2.2.1,
      h.2.2.2.2.1, h.2.2.2.2.2.1]
  have hr : historyResult e1 location = historyResult e2 location := by
    funext url
    simp only [historyResult, h.1, formatDays_congr h]
  have hm : mockDays e1 location 0 (mockDates e1) = mockDays e2 location 0 (mockDates e2) := by
    rw [mockDays_congr h]
    simp only [mockDates, setDateBack, h.2.2.2.2.1, h.2.2.2.2.2.1]
  simp only [fetchHistoricalData, hu, hr, hm]

theorem fetchAQI_congr {e1 e2 : Env} (h : SameBackground e1 e2) (lat lon : JsVal) :
    fetchAQI e1 lat lon = fetchAQI e2 lat lon := by
  have hu : aqiUrl e1 lat lon = aqiUrl e2 lat lon := by
    simp only [aqiUrl, template_congr h.2.2.1]
  have hr : aqiResult e1 = aqiResult e2 := by
    funext url
    simp only [aqiResult, h.2.1]
  simp only [fetchAQI, hu, hr]

theorem handleMockCurrent_congr {e1 e2 : Env} (h : SameBackground e1 e2) (location : String) :
    handleMockCurrent e1 location = handleMockCurrent e2 location := by
  simp only [handleMockCurrent, fetchHistoricalData_congr h, fetchAQI_congr h]

/-- C8 (amended): a schema error is treated like an application error except for the
notice.  Take two runs that differ only in what the direct and proxy steps deliver:
in the first the data has a truthy `error` field, in the second it has no truthy
`error` field and no truthy `current` field.  Both end with the mock conditions for
the location, and the second final state is the first one with `error` set to the
simulation-mode message, whereas the first has `error` null. -/
theorem C8_schema_error_raises_notice (env1 env2 : Env) (location : String) (s : Sys)
    (dA eA dS eS cS : JsVal) (h : location ≠ "") (hbg : SameBackground env1 env2)
    (hA : resolved env1 location = .ok dA) (hAe : getProp dA "error" = .ok eA)
    (hAt : isTruthy eA = true)
    (hS : resolved env2 location = .ok dS) (hSe : getProp dS "error" = .ok eS)
    (hSf : isTruthy eS = false) (hSc : getProp dS "current" = .ok cS)
    (hScf : isTruthy cS = false) :
    (runM (fetchWeather env2 location) s).st =
      { (runM (fetchWeather env1 location) s).st with error := some simulationNotice } ∧
    (runM (fetchWeather env2 location) s).st.weather = mockCurrent location ∧
    (runM (fetchWeather env1 location) s).st.weather = mockCurrent location ∧
    (runM (fetchWeather env1 location) s).st.error = none := by
  have hcA := classify_appError env1 location dA eA hA hAe hAt
  have hcS := classify_schema env2 location dS eS cS hS hSe hSf hSc hScf
  obtain ⟨eff, evs, -, hm⟩ := handleMockCurrent_run env1 location
  have hm2 := hm
  rw [handleMockCurrent_congr hbg] at hm2
  rw [runM, runM, fetchWeather_run env1 location s h, fetchWeather_run env2 location s h,
    hcA, hcS]
  simp [runM, hm, hm2, finish, cleared, SubEffect.apply]

/-- C8 (amended), at a concrete input: the provider's error payload against a body
that has neither `error` nor `current`, for "London". -/
theorem C8_schema_error_raises_notice_witness :
    (runM (fetchWeather (envDirect (.obj [("success", .bool true)])) "London") initialSys).st =
      { (runM (fetchWeather (envDirect errorPayload) "London") initialSys).st with
        error := some simulationNotice } ∧
    (runM (fetchWeather (envDirect (.obj [("success", .bool true)])) "London")
      initialSys).st.weather = mockCurrent "London" ∧
    (runM (fetchWeather (envDirect errorPayload) "London") initialSys).st.weather =
      mockCurrent "London" ∧
    (runM (fetchWeather (envDirect errorPayload) "London") initialSys).st.error = none :=
  C8_schema_error_raises_notice (envDirect errorPayload)
    (envDirect (.obj [("success", .bool true)])) "London" initialSys errorPayload
    (.obj [("code", .num 615), ("type", .str "request_failed"),
      ("info", .str "Your API request failed.")])
    (.obj [("success", .bool true)]) .undefined .undefined (by decide)
    ⟨rfl, rfl, rfl, rfl, rfl, rfl, rfl⟩ rfl rfl rfl rfl rfl rfl rfl rfl

/-- C8 as stated fails: for "London", a body with neither `error` nor `current` ends
with the notice raised (`error` holds the simulation-mode message), whereas the
provider's error payload ends with `error` null; the two final states differ. -/
theorem C8_counterexample :
    (runM (fetchWeather (envDirect (.obj [("success", .bool true)])) "London")
      initialSys).st.error = some simulationNotice ∧
    (runM (fetchWeather (envDirect errorPayload) "London") initialSys).st.error = none ∧
    (runM (fetchWeather (envDirect (.obj [("success", .bool true)])) "London") initialSys).st ≠
      (runM (fetchWeather (envDirect errorPayload) "London") initialSys).st := by
  have hcA : classify (envDirect errorPayload) "London" = .appError :=
    classify_appError _ _ errorPayload _ rfl rfl rfl
  have hcS : classify (envDirect (.obj [("success", .bool true)])) "London" = .failure :=
    classify_schema _ _ _ .undefined .undefined rfl rfl rfl rfl rfl
  obtain ⟨effA, evsA, -, hA⟩ :=
    fetchWeather_summary (envDirect errorPayload) "London" initialSys (by decide)
  obtain ⟨effS, evsS, -, hS⟩ :=
    fetchWeather_summary (envDirect (.obj [("success", .bool true)])) "London" initialSys
      (by decide)
  have e1 : (runM (fetchWeather (envDirect (.obj [("success", .bool true)])) "London")
      initialSys).st.error = some simulationNotice := by
    rw [runM, hS, hcS]; simp [coreState, SubEffect.apply]
  have e2 : (runM (fetchWeather (envDirect errorPayload) "London") initialSys).st.error =
      none := by
    rw [runM, hA, hcA]; simp [coreState, SubEffect.apply, cleared]
  refine ⟨e1, e2, ?_⟩
  intro hEq
  rw [hEq, e2] at e1
  cases e1


theorem except_bind_eq_ok {α β : Type} {x : Except JsErr α} {f : α → Except JsErr β} {b : β} :
    (x >>= f) = .ok b ↔ ∃ a, x = .ok a ∧ f a = .ok b := by
  cases x with
  | error e => simp [except_error_bind]
  | ok a => simp [except_ok_bind]

theorem except_pure_eq_ok {α : Type} (a b : α) :
    (pure a : Except JsErr α) = .ok b ↔ a = b := by
  constructor
  · intro h; cases h; rfl
  · intro h; subst h; rfl

theorem mockDays_length (env : Env) (location : String) (ds : List String) (n : Nat) :
    (mockDays env location n ds).length = ds.length := by
  induction ds generalizing n with
  | nil => rfl
  | cons d ds ih => simp [mockDays, ih]

theorem mockDays_dates (env : Env) (location : String) (ds : List String) (n : Nat) :
    (mockDays env location n ds).map DayRecord.date = ds.map JsVal.str := by
  induction ds generalizing n with
  | nil => rfl
  | cons d ds ih => simp [mockDays, generateMockDay, ih]

theorem mockDays_isMock (env : Env) (location : String) (ds : List String) (n : Nat) :
    ∀ r ∈ mockDays env location n ds, r.isMock = some true := by
  induction ds generalizing n with
  | nil => intro r hr; simp [mockDays] at hr
  | cons d ds ih =>
    intro r hr
    simp only [mockDays, List.mem_cons] at hr
    rcases hr with rfl | hr
    · rfl
    · exact ih _ r hr

theorem formatDay_date {env : Env} {location : String} {daily date : JsVal} {idx : Nat}
    {r : DayRecord} (h : formatDay env location daily date idx = .ok r) :
    r.date = date ∧ r.isMock = none ∧ r.locationName = location := by
  simp only [formatDay, except_bind_eq_ok, except_pure_eq_ok] at h
  obtain ⟨_, _, _, _, _, _, _, _, _, _, rfl⟩ := h
  exact ⟨rfl, rfl, rfl⟩

theorem formatDays_spec (env : Env) (location : String) (daily : JsVal) (xs : List JsVal)
    (idx : Nat) (rs : List DayRecord) (h : formatDays env location daily idx xs = .ok rs) :
    rs.length = xs.length ∧ rs.map DayRecord.date = xs ∧ (∀ r ∈ rs, r.isMock = none) ∧
      ∀ r ∈ rs, r.locationName = location := by
  induction xs generalizing idx rs with
  | nil =>
    simp only [formatDays] at h
    cases h
    simp
  | cons x xs ih =>
    simp only [formatDays, except_bind_eq_ok, except_pure_eq_ok] at h
    obtain ⟨r, hr, rs', hrs, rfl⟩ := h
    obtain ⟨h1, h2, h3, h4⟩ := ih (idx + 1) rs' hrs
    obtain ⟨d1, d2, d3⟩ := formatDay_date hr
    refine ⟨by simp [h1], by simp [h2, d1], ?_, ?_⟩
    · intro r' hr'
      rcases List.mem_cons.1 hr' with rfl | hr'
      · exact d2
      · exact h3 r' hr'
    · intro r' hr'
      rcases List.mem_cons.1 hr' with rfl | hr'
      · exact d3
      · exact h4 r' hr'


theorem asArray_eq_ok {v : JsVal} {xs : List JsVal} (h : asArray v = .ok xs) : v = .arr xs := by
  cases v <;> simp [asArray] at h
  subst h; rfl

theorem historyResult_some {env : Env} {location url : String} {formatted : List DayRecord}
    (h : historyResult env location url = .ok (some formatted)) :
    ∃ response data daily xs, env.fetch .archive url = .ok response ∧
      response.json = .ok data ∧ getProp data "daily" = .ok daily ∧ isTruthy daily = true ∧
      getProp daily "time" = .ok (.arr xs) ∧
      formatDays env location daily 0 xs = .ok formatted := by
  simp only [historyResult, except_bind_eq_ok] at h
  obtain ⟨response, h1, data, h2, daily, h3, h4⟩ := h
  by_cases ht : isTruthy daily = true
  · simp only [ht, if_true, except_bind_eq_ok, except_pure_eq_ok] at h4
    obtain ⟨time, h5, xs, h6, f, h7, h8⟩ := h4
    cases h8
    have := asArray_eq_ok h6
    subst this
    exact ⟨response, data, daily, xs, h1, h2, h3, ht, h5, h7⟩
  · simp only [ht] at h4
    cases h4

theorem synthetic_published (env : Env) (location : String) (lat lon : JsVal) (s : Sys)
    (e : JsErr) (he : (historyUrl env lat lon >>= historyResult env location) = .error e) :
    (runM (fetchHistoricalData env location lat lon) s).st.pastWeather.length = 7 ∧
    (runM (fetchHistoricalData env location lat lon) s).st.weekWeather.length = 7 ∧
    (runM (fetchHistoricalData env location lat lon) s).st.pastWeather.map DayRecord.date =
      (mockDates env).map JsVal.str ∧
    (runM (fetchHistoricalData env location lat lon) s).st.weekWeather.map DayRecord.date =
      (mockDates env).reverse.map JsVal.str ∧
    (∀ D, SteadyZone env D →
      (runM (fetchHistoricalData env location lat lon) s).st.pastWeather.map DayRecord.date =
        [1, 2, 3, 4, 5, 6, 7].map (fun i : Int => JsVal.str (isoDate (D - i))) ∧
      (runM (fetchHistoricalData env location lat lon) s).st.weekWeather.map DayRecord.date =
        [7, 6, 5, 4, 3, 2, 1].map (fun i : Int => JsVal.str (isoDate (D - i))) ∧
      (7 ≤ D → D ≤ 2932896 →
        ((runM (fetchHistoricalData env location lat lon) s).st.pastWeather.map
          DayRecord.date).Nodup ∧
        ((runM (fetchHistoricalData env location lat lon) s).st.weekWeather.map
          DayRecord.date).Nodup)) := by
  obtain ⟨evs, -, hrun⟩ := fetchHistoricalData_synthetic env location lat lon e he
  have hp : (mockDays env location 0 (mockDates env)).map DayRecord.date =
      (mockDates env).map JsVal.str := mockDays_dates env location _ 0
  have hw : (mockDays env location 0 (mockDates env)).reverse.map DayRecord.date =
      (mockDates env).reverse.map JsVal.str := by
    rw [List.map_reverse, hp, List.map_reverse]
  rw [runM, hrun]
  refine ⟨by simp [mockDays_length, mockDates_eq], by simp [mockDays_length, mockDates_eq],
    hp, hw, ?_⟩
  intro D hD
  have hp' : (mockDays env location 0 (mockDates env)).map DayRecord.date =
      [1, 2, 3, 4, 5, 6, 7].map (fun i : Int => JsVal.str (isoDate (D - i))) := by
    rw [hp, mockDates_steady hD]; simp
  have hw' : (mockDays env location 0 (mockDates env)).reverse.map DayRecord.date =
      [7, 6, 5, 4, 3, 2, 1].map (fun i : Int => JsVal.str (isoDate (D - i))) := by
    rw [List.map_reverse, hp']; rfl
  refine ⟨hp', hw', fun h0 h1 => ⟨?_, ?_⟩⟩
  · show ((mockDays env location 0 (mockDates env)).map DayRecord.date).Nodup
    rw [hp']
    exact window_nodup D h0 h1 _ (by decide) (by decide)
  · show ((mockDays env location 0 (mockDates env)).reverse.map DayRecord.date).Nodup
    rw [hw']
    exact window_nodup D h0 h1 _ (by decide) (by decide)

theorem live_published (env : Env) (location : String) (lat lon : JsVal) (s : Sys)
    (formatted : List DayRecord)
    (hf : (historyUrl env lat lon >>= historyResult env location) = .ok (some formatted)) :
    (runM (fetchHistoricalData env location lat lon) s).st.weekWeather = formatted ∧
    (runM (fetchHistoricalData env location lat lon) s).st.pastWeather = formatted.reverse ∧
    ∃ url response data daily xs, historyUrl env lat lon = .ok url ∧
      env.fetch .archive url = .ok response ∧ response.json = .ok data ∧
      getProp data "daily" = .ok daily ∧ getProp daily "time" = .ok (.arr xs) ∧
      formatDays env location daily 0 xs = .ok formatted ∧
      formatted.length = xs.length ∧ formatted.map DayRecord.date = xs := by
  obtain ⟨evs, -, hrun⟩ := fetchHistoricalData_live env location lat lon _ hf
  rw [runM, hrun]
  refine ⟨rfl, rfl, ?_⟩
  rw [except_bind_eq_ok] at hf
  obtain ⟨url, hu, hr⟩ := hf
  obtain ⟨response, data, daily, xs, h1, h2, h3, -, h5, h6⟩ := historyResult_some hr
  obtain ⟨g1, g2, -, -⟩ := formatDays_spec env location daily xs 0 formatted h6
  exact ⟨url, response, data, daily, xs, hu, h1, h2, h3, h5, h6, g1, g2⟩

/-- C10 (amended): on the synthetic path (the request or the decoding of its answer
throws) the published set has exactly 7 records, dated by the seven dates the `catch`
block prints, newest first in `pastWeather` and in the opposite order in
`weekWeather`.  When the clock readings of the call fall on one UTC day `D` and the
time zone keeps one UTC offset over the week before, these are the dates of the days
`D - 1`, ..., `D - 7`, without duplicates (for `D` between 8 January 1970 and the end
of the year 9999).  On the live path the published set has one record for each entry
of the provider's `time` array, dated by these entries in the provider's order: 7
records of the window only if the provider sends exactly those. -/
theorem C10_history_record_set (env : Env) (location : String) (lat lon : JsVal) (s : Sys) :
    (∀ e, (historyUrl env lat lon >>= historyResult env location) = .error e →
      (runM (fetchHistoricalData env location lat lon) s).st.pastWeather.length = 7 ∧
      (runM (fetchHistoricalData env location lat lon) s).st.weekWeather.length = 7 ∧
      (runM (fetchHistoricalData env location lat lon) s).st.pastWeather.map DayRecord.date =
        (mockDates env).map JsVal.str ∧
      (runM (fetchHistoricalData env location lat lon) s).st.weekWeather.map DayRecord.date =
        (mockDates env).reverse.map JsVal.str ∧
      (∀ D, SteadyZone env D →
        (runM (fetchHistoricalData env location lat lon) s).st.pastWeather.map
            DayRecord.date =
          [1, 2, 3, 4, 5, 6, 7].map (fun i : Int => JsVal.str (isoDate (D - i))) ∧
        (runM (fetchHistoricalData env location lat lon) s).st.weekWeather.map
            DayRecord.date =
          [7, 6, 5, 4, 3, 2, 1].map (fun i : Int => JsVal.str (isoDate (D - i))) ∧
        (7 ≤ D → D ≤ 2932896 →
          ((runM (fetchHistoricalData env location lat lon) s).st.pastWeather.map
            DayRecord.date).Nodup ∧
          ((runM (fetchHistoricalData env location lat lon) s).st.weekWeather.map
            DayRecord.date).Nodup))) ∧
    (∀ formatted,
      (historyUrl env lat lon >>= historyResult env location) = .ok (some formatted) →
      (runM (fetchHistoricalData env location lat lon) s).st.weekWeather = formatted ∧
      (runM (fetchHistoricalData env location lat lon) s).st.pastWeather = formatted.reverse ∧
      ∃ url response data daily xs, historyUrl env lat lon = .ok url ∧
        env.fetch .archive url = .ok response ∧ response.json = .ok data ∧
        getProp data "daily" = .ok daily ∧ getProp daily "time" = .ok (.arr xs) ∧
        formatted.length = xs.length ∧ formatted.map DayRecord.date = xs) := by
  constructor
  · intro e he
    exact synthetic_published env location lat lon s e he
  · intro formatted hf
    obtain ⟨h1, h2, url, response, data, daily, xs, a1, a2, a3, a4, a5, -, a7, a8⟩ :=
      live_published env location lat lon s formatted hf
    exact ⟨h1, h2, url, response, data, daily, xs, a1, a2, a3, a4, a5, a7, a8⟩

theorem oneDay_result :
    (historyUrl (envArchive oneDayArchive) (.str "51.5") (.str "-0.1") >>=
      historyResult (envArchive oneDayArchive) "London") = .ok (some [oneDayRecord "London"]) :=
  rfl

/-- C10 (amended), at concrete inputs: with the network down, the clock at noon UTC of
20 January 2024 and local time UTC, the seven synthetic records are dated 19, ..., 13
January, without duplicate dates; and a live answer with a single day publishes that
single record. -/
theorem C10_history_record_set_witness :
    ((runM (fetchHistoricalData offlineEnv "London" (.str "51.5") (.str "-0.1"))
        initialSys).st.pastWeather.length = 7 ∧
      (runM (fetchHistoricalData offlineEnv "London" (.str "51.5") (.str "-0.1"))
        initialSys).st.pastWeather.map DayRecord.date =
        [1, 2, 3, 4, 5, 6, 7].map (fun i : Int => JsVal.str (isoDate (19742 - i))) ∧
      ((runM (fetchHistoricalData offlineEnv "London" (.str "51.5") (.str "-0.1"))
        initialSys).st.pastWeather.map DayRecord.date).Nodup) ∧
    (runM (fetchHistoricalData (envArchive oneDayArchive) "London" (.str "51.5")
      (.str "-0.1")) initialSys).st.weekWeather = [oneDayRecord "London"] :=
  ⟨⟨((C10_history_record_set offlineEnv "London" (.str "51.5") (.str "-0.1") initialSys).1
      (.TypeError "Failed to fetch") rfl).1,
    (((C10_history_record_set offlineEnv "London" (.str "51.5") (.str "-0.1") initialSys).1
      (.TypeError "Failed to fetch") rfl).2.2.2.2 19742 offline_steady).1,
    ((((C10_history_record_set offlineEnv "London" (.str "51.5") (.str "-0.1") initialSys).1
      (.TypeError "Failed to fetch") rfl).2.2.2.2 19742 offline_steady).2.2
        (by decide) (by decide)).1⟩,
   ((C10_history_record_set (envArchive oneDayArchive) "London" (.str "51.5") (.str "-0.1")
      initialSys).2 [oneDayRecord "London"] oneDay_result).1⟩

/-- C10 as stated fails.  On the live path, when the provider's answer holds a single
day, the published record set has 1 record, not 7.  On the synthetic path, on 12 March
2024 at 19:30 in New York, two days after the change to daylight saving time, the 7
records published carry the date 2024-03-10 twice. -/
theorem C10_counterexample :
    (runM (fetchHistoricalData (envArchive oneDayArchive) "London" (.str "51.5")
      (.str "-0.1")) initialSys).st.weekWeather.length = 1 ∧
    (runM (fetchHistoricalData (envArchive oneDayArchive) "London" (.str "51.5")
      (.str "-0.1")) initialSys).st.pastWeather.length = 1 ∧
    (runM (fetchHistoricalData (envArchive oneDayArchive) "London" (.str "51.5")
      (.str "-0.1")) initialSys).st.weekWeather.length ≠ 7 ∧
    (runM (fetchHistoricalData dstEnv "London" (.str "51.5") (.str "-0.1"))
        initialSys).st.pastWeather.map DayRecord.date =
      [.str "2024-03-11", .str "2024-03-10", .str "2024-03-10", .str "2024-03-09",
        .str "2024-03-08", .str "2024-03-07", .str "2024-03-06"] := by
  obtain ⟨evs, -, hrun⟩ := fetchHistoricalData_live (envArchive oneDayArchive) "London"
    (.str "51.5") (.str "-0.1") _ oneDay_result
  refine ⟨?_, ?_, ?_, ?_⟩
  · rw [runM, hrun]; simp
  · rw [runM, hrun]; simp
  · rw [runM, hrun]; simp
  · rw [(synthetic_published dstEnv "London" (.str "51.5") (.str "-0.1") initialSys
      (.TypeError "Failed to fetch") rfl).2.2.1, dst_dates.1]
    rfl

theorem noDaily_result :
    (historyUrl (envArchive archiveError) (.str "51.5") (.str "-0.1") >>=
      historyResult (envArchive archiveError) "London") = .ok none :=
  rfl

/-- C11, evaluated at the failing input: the archive provider answers with its error
object, which has no `daily` data; `fetchHistoricalData` then publishes nothing, and
`pastWeather` and `weekWeather` are still empty afterwards. -/
theorem C11_no_daily_publishes_nothing :
    getProp archiveError "daily" = .ok .undefined ∧
    (runM (fetchHistoricalData (envArchive archiveError) "London" (.str "51.5")
      (.str "-0.1")) initialSys).st.pastWeather = [] ∧
    (runM (fetchHistoricalData (envArchive archiveError) "London" (.str "51.5")
      (.str "-0.1")) initialSys).st.weekWeather = [] := by
  obtain ⟨evs, -, hrun⟩ := fetchHistoricalData_live (envArchive archiveError) "London"
    (.str "51.5") (.str "-0.1") _ noDaily_result
  rw [runM, hrun]
  exact ⟨rfl, rfl, rfl⟩

theorem dst_synthetic_run :
    (historyUrl dstEnv (.str "51.5") (.str "-0.1") >>= historyResult dstEnv "London") =
      .error (.TypeError "Failed to fetch") :=
  rfl

/-- C12: when the historical request throws, `fetchHistoricalData` publishes exactly 7
records, all synthetic, dated by the seven dates the `catch` block prints.  When the
clock readings of the call fall on one UTC day `D` and the time zone keeps one UTC
offset over the week before, these are the dates of `D - 1`, `D - 2`, ..., `D - 7`,
pairwise different, from the `end_date` back to the `start_date` of the request.
They are not in general: on 12 March 2024 at 19:30 in New York, two days after the
change to daylight saving time, the seven records are dated 11, 10, 10, 9, 8, 7 and 6
March, the date 2024-03-10 twice, and the request asked for 6 to 11 March. -/
theorem C12_request_throws_window :
    (∀ (env : Env) (location : String) (lat lon : JsVal) (s : Sys) (url : String) (e : JsErr),
      historyUrl env lat lon = .ok url → env.fetch .archive url = .error e →
      (runM (fetchHistoricalData env location lat lon) s).st.pastWeather.length = 7 ∧
      (runM (fetchHistoricalData env location lat lon) s).st.pastWeather.map DayRecord.date =
        (mockDates env).map JsVal.str ∧
      (∀ r ∈ (runM (fetchHistoricalData env location lat lon) s).st.pastWeather,
        r.isMock = some true) ∧
      ∀ D, SteadyZone env D →
        (runM (fetchHistoricalData env location lat lon) s).st.pastWeather.map
            DayRecord.date =
          [1, 2, 3, 4, 5, 6, 7].map (fun i : Int => JsVal.str (isoDate (D - i))) ∧
        isoDateOf (historyEnd env) = isoDate (D - 1) ∧
        isoDateOf (historyStart env) = isoDate (D - 7) ∧
        (7 ≤ D → D ≤ 2932896 →
          ((runM (fetchHistoricalData env location lat lon) s).st.pastWeather.map
            DayRecord.date).Nodup)) ∧
    ((runM (fetchHistoricalData dstEnv "London" (.str "51.5") (.str "-0.1"))
        initialSys).st.pastWeather.map DayRecord.date =
      [.str "2024-03-11", .str "2024-03-10", .str "2024-03-10", .str "2024-03-09",
        .str "2024-03-08", .str "2024-03-07", .str "2024-03-06"] ∧
      ¬ (mockDates dstEnv).Nodup ∧
      isoDateOf (historyStart dstEnv) = "2024-03-06" ∧
      isoDateOf (historyEnd dstEnv) = "2024-03-11" ∧
      dstEnv.clock 0 / msPerDay = 19794 ∧ isoDate 19794 = "2024-03-12") := by
  constructor
  · intro env location lat lon s url e hu hf
    have he : (historyUrl env lat lon >>= historyResult env location) = .error e := by
      rw [hu, except_ok_bind]
      simp [historyResult, hf, except_error_bind]
    obtain ⟨h1, -, h3, -, h5⟩ := synthetic_published env location lat lon s e he
    obtain ⟨evs, -, hrun⟩ := fetchHistoricalData_synthetic env location lat lon e he
    refine ⟨h1, h3, ?_, fun D hD => ⟨(h5 D hD).1, ?_, ?_, fun h0 h1 => ((h5 D hD).2.2 h0 h1).1⟩⟩
    · rw [runM, hrun]
      exact mockDays_isMock env location _ 0
    · exact steady_iso hD 0 (by norm_num) 1 (by norm_num) (by norm_num)
    · exact steady_iso hD 1 (by norm_num) 7 (by norm_num) (by norm_num)
  · obtain ⟨d1, d2, d3, -, -, d6⟩ := dst_dates
    refine ⟨?_, ?_, d2, d3, d6, by decide⟩
    · rw [(synthetic_published dstEnv "London" (.str "51.5") (.str "-0.1") initialSys _
        dst_synthetic_run).2.2.1, d1]
      rfl
    · rw [d1]
      decide

/-- C12, at a concrete input: with the network down, the clock at noon UTC of 20
January 2024 and local time UTC, the seven records are dated 19, 18, ..., 13 January,
pairwise different. -/
theorem C12_request_throws_window_witness :
    (runM (fetchHistoricalData offlineEnv "London" (.str "51.5") (.str "-0.1"))
      initialSys).st.pastWeather.map DayRecord.date =
      [1, 2, 3, 4, 5, 6, 7].map (fun i : Int => JsVal.str (isoDate (19742 - i))) ∧
    ((runM (fetchHistoricalData offlineEnv "London" (.str "51.5") (.str "-0.1"))
      initialSys).st.pastWeather.map DayRecord.date).Nodup ∧
    isoDate (19742 - 1) = "2024-01-19" ∧ isoDate (19742 - 7) = "2024-01-13" :=
  ⟨((C12_request_throws_window.1 offlineEnv "London" (.str "51.5") (.str "-0.1") initialSys
      _ (.TypeError "Failed to fetch") rfl rfl).2.2.2 19742 offline_steady).1,
   ((C12_request_throws_window.1 offlineEnv "London" (.str "51.5") (.str "-0.1") initialSys
      _ (.TypeError "Failed to fetch") rfl rfl).2.2.2 19742 offline_steady).2.2.2
      (by decide) (by decide),
   by decide, by decide⟩

/-- C13: the historical request carries as `start_date` the UTC date of the clock
reading moved seven days back in local time, and as `end_date` the UTC date of the
clock reading moved one day back.  When the clock readings fall on one UTC day `D` and
the time zone keeps one UTC offset over the week before, these are the days `D - 7`
and `D - 1`: 7 days, both ends included, and `D` is not one of them.  They are not in
general: on 12 March 2024 at 19:30 in New York, two days after the change to daylight
saving time, the request asks for 2024-03-06 to 2024-03-11, which are 6 days. -/
theorem C13_requested_range :
    (∀ (env : Env) (lat lon : JsVal),
      historyUrl env lat lon =
        (template env lat >>= fun la => template env lon >>= fun lo =>
          pure ("https://archive-api.open-meteo.com/v1/archive?latitude=" ++ la ++
            "&longitude=" ++ lo ++ "&start_date=" ++ isoDateOf (historyStart env) ++
            "&end_date=" ++ isoDateOf (historyEnd env) ++
            "&daily=weather_code,temperature_2m_max,temperature_2m_min,temperature_2m_mean&timezone=auto")) ∧
      ∀ D, SteadyZone env D →
        isoDateOf (historyStart env) = isoDate (D - 7) ∧
        isoDateOf (historyEnd env) = isoDate (D - 1) ∧
        historyStart env / msPerDay = D - 7 ∧ historyEnd env / msPerDay = D - 1 ∧
        historyEnd env / msPerDay - historyStart env / msPerDay + 1 = 7 ∧
        env.clock 0 / msPerDay = D ∧
        (∀ d : Int, historyStart env / msPerDay ≤ d → d ≤ historyEnd env / msPerDay →
          d ≠ D)) ∧
    (historyUrl dstEnv (.str "40.7") (.str "-74.0") =
        .ok ("https://archive-api.open-meteo.com/v1/archive?latitude=40.7&longitude=-74.0" ++
          "&start_date=2024-03-06&end_date=2024-03-11" ++
          "&daily=weather_code,temperature_2m_max,temperature_2m_min,temperature_2m_mean&timezone=auto") ∧
      historyStart dstEnv / msPerDay = 19788 ∧ historyEnd dstEnv / msPerDay = 19793 ∧
      historyEnd dstEnv / msPerDay - historyStart dstEnv / msPerDay + 1 = 6 ∧
      dstEnv.clock 0 / msPerDay = 19794 ∧ isoDate 19794 = "2024-03-12" ∧
      isoDate (19794 - 7) = "2024-03-05") := by
  constructor
  · intro env lat lon
    refine ⟨rfl, fun D hD => ?_⟩
    have hs := steady_day hD 1 (by norm_num) 7 (by norm_num) (by norm_num)
    have he := steady_day hD 0 (by norm_num) 1 (by norm_num) (by norm_num)
    refine ⟨steady_iso hD 1 (by norm_num) 7 (by norm_num) (by norm_num),
      steady_iso hD 0 (by norm_num) 1 (by norm_num) (by norm_num), hs, he, ?_,
      (hD 0 (by norm_num)).1, ?_⟩
    · simp only [historyStart, historyEnd, hs, he]
      omega
    · intro d _ h2
      simp only [historyEnd, he] at h2
      omega
  · refine ⟨?_, by decide, by decide, by decide, by decide, by decide, by decide⟩
    simp only [historyUrl, template, dst_dates.2.1, dst_dates.2.2.1]
    rfl

/-- C13, at a concrete input: with the clock at noon UTC of 20 January 2024 and local
time UTC the request asks for the days from 13 to 19 January. -/
theorem C13_requested_range_witness :
    isoDateOf (historyStart offlineEnv) = isoDate (19742 - 7) ∧
    isoDateOf (historyEnd offlineEnv) = isoDate (19742 - 1) ∧
    isoDate (19742 - 7) = "2024-01-13" ∧ isoDate (19742 - 1) = "2024-01-19" :=
  ⟨((C13_requested_range.1 offlineEnv .null .null).2 19742 offline_steady).1,
   ((C13_requested_range.1 offlineEnv .null .null).2 19742 offline_steady).2.1,
   by decide, by decide⟩

/-- C14: after `fetchHistoricalData` publishes, on the synthetic and on the live path,
`pastWeather` is the reversal of `weekWeather`.  On the synthetic path `pastWeather`
carries the seven dates of the `catch` block in the order it prints them (one, two,
..., seven days back) and `weekWeather` the same dates in the opposite order; these
are the days `D - 1`, ..., `D - 7` and `D - 7`, ..., `D - 1` when the clock readings
fall on the UTC day `D` and the time zone keeps one UTC offset.  On the live path `weekWeather` carries
the provider's dates in the provider's order, so that for every order on dates in
which the provider's dates are increasing, `weekWeather` is increasing and
`pastWeather` decreasing. -/
theorem C14_two_views_of_one_set (env : Env) (location : String) (lat lon : JsVal) (s : Sys) :
    (∀ e, (historyUrl env lat lon >>= historyResult env location) = .error e →
      (runM (fetchHistoricalData env location lat lon) s).st.pastWeather =
        (runM (fetchHistoricalData env location lat lon) s).st.weekWeather.reverse ∧
      (runM (fetchHistoricalData env location lat lon) s).st.weekWeather.map DayRecord.date =
        [7, 6, 5, 4, 3, 2, 1].map (fun i : Nat =>
          JsVal.str (isoDateOf (setDateBack env (env.clock (i + 1)) i))) ∧
      (runM (fetchHistoricalData env location lat lon) s).st.pastWeather.map DayRecord.date =
        [1, 2, 3, 4, 5, 6, 7].map (fun i : Nat =>
          JsVal.str (isoDateOf (setDateBack env (env.clock (i + 1)) i))) ∧
      (∀ D, SteadyZone env D →
        (runM (fetchHistoricalData env location lat lon) s).st.weekWeather.map
            DayRecord.date =
          [7, 6, 5, 4, 3, 2, 1].map (fun i : Int => JsVal.str (isoDate (D - i))) ∧
        (runM (fetchHistoricalData env location lat lon) s).st.pastWeather.map
            DayRecord.date =
          [1, 2, 3, 4, 5, 6, 7].map (fun i : Int => JsVal.str (isoDate (D - i))))) ∧
    (∀ formatted,
      (historyUrl env lat lon >>= historyResult env location) = .ok (some formatted) →
      (runM (fetchHistoricalData env location lat lon) s).st.pastWeather =
        (runM (fetchHistoricalData env location lat lon) s).st.weekWeather.reverse ∧
      ∃ url response data daily xs, historyUrl env lat lon = .ok url ∧
        env.fetch .archive url = .ok response ∧ response.json = .ok data ∧
        getProp data "daily" = .ok daily ∧ getProp daily "time" = .ok (.arr xs) ∧
        (runM (fetchHistoricalData env location lat lon) s).st.weekWeather.map
          DayRecord.date = xs ∧
        ∀ before : JsVal → JsVal → Prop, xs.Pairwise before →
          ((runM (fetchHistoricalData env location lat lon) s).st.weekWeather.map
            DayRecord.date).Pairwise before ∧
          ((runM (fetchHistoricalData env location lat lon) s).st.pastWeather.map
            DayRecord.date).Pairwise (fun a b => before b a)) := by
  constructor
  · intro e he
    obtain ⟨-, -, h3, h4, h5⟩ := synthetic_published env location lat lon s e he
    refine ⟨?_, ?_, ?_, fun D hD => ⟨(h5 D hD).2.1, (h5 D hD).1⟩⟩
    · obtain ⟨evs, -, hrun⟩ := fetchHistoricalData_synthetic env location lat lon e he
      rw [runM, hrun]
      simp
    · rw [h4, mockDates_eq]
      rfl
    · rw [h3, mockDates_eq]
      rfl
  · intro formatted hf
    obtain ⟨h1, h2, url, response, data, daily, xs, a1, a2, a3, a4, a5, -, -, a8⟩ :=
      live_published env location lat lon s formatted hf
    refine ⟨by rw [h1, h2], url, response, data, daily, xs, a1, a2, a3, a4, a5,
      by rw [h1, a8], ?_⟩
    intro before hb
    rw [h1, h2, List.map_reverse, a8]
    exact ⟨hb, List.pairwise_reverse.2 hb⟩

/-- C14, at concrete inputs: with the network down `pastWeather` is the reversal of
`weekWeather`; and with a live answer of one day `weekWeather` carries its date. -/
theorem C14_two_views_of_one_set_witness :
    (runM (fetchHistoricalData offlineEnv "London" (.str "51.5") (.str "-0.1"))
      initialSys).st.pastWeather =
      (runM (fetchHistoricalData offlineEnv "London" (.str "51.5") (.str "-0.1"))
        initialSys).st.weekWeather.reverse ∧
    (runM (fetchHistoricalData (envArchive oneDayArchive) "London" (.str "51.5")
      (.str "-0.1")) initialSys).st.pastWeather =
      (runM (fetchHistoricalData (envArchive oneDayArchive) "London" (.str "51.5")
        (.str "-0.1")) initialSys).st.weekWeather.reverse :=
  ⟨((C14_two_views_of_one_set offlineEnv "London" (.str "51.5") (.str "-0.1") initialSys).1
      (.TypeError "Failed to fetch") rfl).1,
   ((C14_two_views_of_one_set (envArchive oneDayArchive) "London" (.str "51.5") (.str "-0.1")
      initialSys).2 [oneDayRecord "London"] oneDay_result).1⟩


theorem formatDays_records (env : Env) (location : String) (daily : JsVal) (ts : List JsVal)
    (idx : Nat)
    (h : ∀ i t, ts[i]? = some t → ∃ r, formatDay env location daily t (idx + i) = .ok r) :
    ∃ rs, formatDays env location daily idx ts = .ok rs ∧
      ∀ i t, ts[i]? = some t →
        ∃ r, rs[i]? = some r ∧ formatDay env location daily t (idx + i) = .ok r := by
  induction ts generalizing idx with
  | nil => exact ⟨[], rfl, by intro i t ht; simp at ht⟩
  | cons x xs ih =>
    obtain ⟨r, hr⟩ := h 0 x (by simp)
    obtain ⟨rs, hrs, hall⟩ := ih (idx + 1) (by
      intro i t ht
      have := h (i + 1) t (by simpa using ht)
      simpa [Nat.add_assoc, Nat.add_comm 1 i] using this)
    refine ⟨r :: rs, ?_, ?_⟩
    · have hr' : formatDay env location daily x idx = .ok r := by simpa using hr
      simp only [formatDays, hr', hrs, except_ok_bind]
      rfl
    · intro i t ht
      cases i with
      | zero =>
        simp only [List.getElem?_cons_zero, Option.some.injEq] at ht
        subst ht
        exact ⟨r, by simp, hr⟩
      | succ i =>
        obtain ⟨r', h1, h2⟩ := hall i t (by simpa using ht)
        exact ⟨r', by simpa using h1, by
          simpa [Nat.add_assoc, Nat.add_comm 1 i] using h2⟩

theorem getIndex_arr (xs : List JsVal) (i : Nat) (a : JsVal) (h : xs[i]? = some a) :
    getIndex (.arr xs) i = .ok a := by
  simp [getIndex, List.getD, h]

theorem getElem?_of_lt (xs : List JsVal) (i : Nat) (h : i < xs.length) :
    ∃ a, xs[i]? = some a := ⟨xs[i], List.getElem?_eq_getElem h⟩

/-- C15: for a historical answer whose five daily sequences have the same length `n`
(the dates being convertible to property keys, as strings are), the live path decodes
exactly `n` records, in the order of `time`; at every index `i < n` each of the five
sequences has an element, and record `i` has date `time[i]`, `maxtemp`, `mintemp` and
`avgtemp` the `Math.round` of `max[i]`, `min[i]` and `mean[i]`, and description
`mapMeteoCode(weather_code[i])`; these records are what the request step yields. -/
theorem C15_live_decoding (env : Env) (location : String) (daily : JsVal)
    (ts mx mn av cs : List JsVal)
    (ht : getProp daily "time" = .ok (.arr ts))
    (hmx : getProp daily "temperature_2m_max" = .ok (.arr mx))
    (hmn : getProp daily "temperature_2m_min" = .ok (.arr mn))
    (hav : getProp daily "temperature_2m_mean" = .ok (.arr av))
    (hcs : getProp daily "weather_code" = .ok (.arr cs))
    (lmx : mx.length = ts.length) (lmn : mn.length = ts.length)
    (lav : av.length = ts.length) (lcs : cs.length = ts.length)
    (hkey : ∀ t ∈ ts, ∃ key, template env t = .ok key) :
    ∃ rs, formatDays env location daily 0 ts = .ok rs ∧ rs.length = ts.length ∧
      rs.map DayRecord.date = ts ∧
      (∀ i, i < ts.length → ∃ t a b c code key,
        ts[i]? = some t ∧ mx[i]? = some a ∧ mn[i]? = some b ∧ av[i]? = some c ∧
        cs[i]? = some code ∧ template env t = .ok key ∧
        rs[i]? = some (liveRecord env location t a b c code key)) ∧
      (∀ q : Rat, roundVal env (.num q) = .num (Math_round q)) ∧
      (∀ url response data, env.fetch .archive url = .ok response →
        response.json = .ok data → getProp data "daily" = .ok daily →
        historyResult env location url = .ok (some rs)) := by
  have hday : ∀ i t, ts[i]? = some t → ∃ a b c code key,
      mx[i]? = some a ∧ mn[i]? = some b ∧ av[i]? = some c ∧ cs[i]? = some code ∧
      template env t = .ok key ∧
      formatDay env location daily t i = .ok (liveRecord env location t a b c code key) := by
    intro i t hi
    have hlt : i < ts.length := by
      by_contra hcon
      rw [List.getElem?_eq_none (by omega)] at hi
      cases hi
    obtain ⟨a, ha⟩ := getElem?_of_lt mx i (by omega)
    obtain ⟨b, hb⟩ := getElem?_of_lt mn i (by omega)
    obtain ⟨c, hc⟩ := getElem?_of_lt av i (by omega)
    obtain ⟨code, hcode⟩ := getElem?_of_lt cs i (by omega)
    obtain ⟨key, hk⟩ := hkey t (List.getElem?_mem hi)
    refine ⟨a, b, c, code, key, ha, hb, hc, hcode, hk, ?_⟩
    simp only [formatDay, hk, hmx, hmn, hav, hcs, except_ok_bind, getIndex_arr _ _ _ ha,
      getIndex_arr _ _ _ hb, getIndex_arr _ _ _ hc, getIndex_arr _ _ _ hcode]
    rfl
  obtain ⟨rs, hrs, hall⟩ := formatDays_records env location daily ts 0 (by
    intro i t hi
    obtain ⟨a, b, c, code, key, -, -, -, -, -, h⟩ := hday i t hi
    exact ⟨_, by simpa using h⟩)
  obtain ⟨g1, g2, -, -⟩ := formatDays_spec env location daily ts 0 rs hrs
  refine ⟨rs, hrs, g1, g2, ?_, fun q => rfl, ?_⟩
  · intro i hi
    obtain ⟨t, hti⟩ := getElem?_of_lt ts i hi
    obtain ⟨a, b, c, code, key, ha, hb, hc, hcode, hk, hf⟩ := hday i t hti
    obtain ⟨r, hr1, hr2⟩ := hall i t hti
    have hr2' : formatDay env location daily t i = .ok r := by simpa using hr2
    rw [hf] at hr2'
    cases hr2'
    exact ⟨t, a, b, c, code, key, hti, ha, hb, hc, hcode, hk, hr1⟩
  · intro url response data h1 h2 h3
    have htruthy : isTruthy daily = true := by
      cases daily <;> first | rfl | simp [getProp] at ht
    simp only [historyResult, h1, h2, h3, except_ok_bind, htruthy, if_true, ht, asArray, hrs]
    rfl


/-- C15, at a concrete input: an answer with one day decodes to one record. -/
theorem C15_live_decoding_witness :
    ∃ rs, formatDays offlineEnv "London" oneDayDaily 0 [.str "2024-01-19"] = .ok rs ∧
      rs.length = 1 ∧ rs.map DayRecord.date = [.str "2024-01-19"] :=
  let ⟨rs, h1, h2, h3, _⟩ := C15_live_decoding offlineEnv "London" oneDayDaily
    [.str "2024-01-19"] [.num (43 / 2)] [.num (27 / 2)] [.num 17] [.num 61]
    rfl rfl rfl rfl rfl rfl rfl rfl rfl
    (fun t ht => by
      simp only [List.mem_singleton] at ht
      subst ht
      exact ⟨"2024-01-19", rfl⟩)
  ⟨rs, h1, h2, h3⟩

theorem aqi_error_run (env : Env) (lat lon : JsVal) (e : JsErr)
    (h : (aqiUrl env lat lon >>= aqiResult env) = .error e) :
    ∃ evs, (∀ ev ∈ evs, Event.isSubRequest ev = true) ∧
      ∀ s : Sys, fetchAQI env lat lon s = (.ok (), ⟨s.st, s.log ++ evs⟩) := by
  unfold fetchAQI
  rcases h1 : aqiUrl env lat lon with e1 | url
  · exact ⟨[], by simp, fun s => by
      simp [M.tryCatch, bind_apply, lift_apply, h1, pure_apply]⟩
  rw [h1] at h
  change aqiResult env url = .error e at h
  exact ⟨[.request .airQuality url], by simp [Event.isSubRequest], fun s => by
    simp [M.tryCatch, bind_apply, lift_apply, emit_apply, h1, h, pure_apply]⟩

theorem aqi_ok_run (env : Env) (lat lon cur : JsVal)
    (h : (aqiUrl env lat lon >>= aqiResult env) = .ok cur) :
    ∃ evs, (∀ ev ∈ evs, Event.isSubRequest ev = true) ∧
      ∀ s : Sys, fetchAQI env lat lon s =
        (.ok (), ⟨if isTruthy cur then { s.st with aqi := cur } else s.st, s.log ++ evs⟩) := by
  unfold fetchAQI
  rcases h1 : aqiUrl env lat lon with e1 | url
  · rw [h1] at h; exact absurd h (by simp [except_error_bind])
  rw [h1] at h
  change aqiResult env url = .ok cur at h
  refine ⟨[.request .airQuality url], by simp [Event.isSubRequest], fun s => ?_⟩
  by_cases ht : isTruthy cur = true
  · simp [M.tryCatch, bind_apply, lift_apply, emit_apply, h1, h, pure_apply, ht, setAqi,
      modifySt_apply]
  · simp [M.tryCatch, bind_apply, lift_apply, emit_apply, h1, h, pure_apply, ht]


theorem fetchWeatherRest_summary (env : Env) (location : String) :
    ∃ (eff : SubEffect) (evs : List Event),
      (∀ e ∈ evs, Event.isSubRequest e = true) ∧
      ∀ s : Sys, fetchWeatherRest env location s = (.ok (),
        ⟨eff.apply (restCore (classify env location) location s.st),
          s.log ++ resolveEvents env location ++ noticeOf (classify env location) ++ evs⟩) := by
  obtain ⟨eff, evs, hev, hm⟩ := handleMockCurrent_run env location
  rcases hc : classify env location with ⟨data, c, la, lo⟩ | _ | _
  · obtain ⟨eff2, evs2, hev2, hs⟩ := subFetches_run env location la lo
    exact ⟨eff2, evs2, hev2, fun s => by
      rw [fetchWeatherRest_run, hc]
      simp [runM, hs, finish, restCore, noticeOf, SubEffect.apply]⟩
  · exact ⟨eff, evs, hev, fun s => by
      rw [fetchWeatherRest_run, hc]
      simp [runM, hm, finish, restCore, noticeOf, SubEffect.apply]⟩
  · exact ⟨eff, evs, hev, fun s => by
      rw [fetchWeatherRest_run, hc]
      simp [runM, hm, finish, restCore, noticeOf, SubEffect.apply]⟩

theorem aqiStep_throws {env : Env} {lat lon : JsVal} {url : String} {e : JsErr}
    (hu : aqiUrl env lat lon = .ok url) (hf : env.fetch .airQuality url = .error e) :
    (aqiUrl env lat lon >>= aqiResult env) = .error e := by
  rw [hu, except_ok_bind]
  simp [aqiResult, hf, except_error_bind]

theorem aqiStep_current {env : Env} {lat lon : JsVal} {url : String} {r : Response}
    {data cur : JsVal} (hu : aqiUrl env lat lon = .ok url)
    (hf : env.fetch .airQuality url = .ok r) (hj : r.json = .ok data)
    (hc : getProp data "current" = .ok cur) :
    (aqiUrl env lat lon >>= aqiResult env) = .ok cur := by
  rw [hu, except_ok_bind]
  simp [aqiResult, hf, hj, hc, except_ok_bind]

theorem aqiStep_ok {env : Env} {lat lon cur : JsVal}
    (h : (aqiUrl env lat lon >>= aqiResult env) = .ok cur) :
    ∃ url r data, aqiUrl env lat lon = .ok url ∧ env.fetch .airQuality url = .ok r ∧
      r.json = .ok data ∧ getProp data "current" = .ok cur := by
  rw [except_bind_eq_ok] at h
  obtain ⟨url, hu, hr⟩ := h
  simp only [aqiResult, except_bind_eq_ok] at hr
  obtain ⟨r, hf, data, hj, hc⟩ := hr
  exact ⟨url, r, data, hu, hf, hj, hc⟩

/-- C16: `fetchAQI` never synthesizes a sample.  Whatever the environment, the call
raises no notice and either leaves the whole state (the `aqi` cell included) as it
was, or sets `aqi` to the `current` field of the parsed answer and changes nothing
else.  The state is left as it was when the URL cannot be built, when the request
throws, when the body of the answer cannot be parsed, when the body is `null` (so that
reading `current` throws) and when `current` is absent or falsy; when `current` is
truthy, an object in particular, `aqi` becomes exactly that value. -/
theorem C16_aqi_never_synthesized (env : Env) (lat lon : JsVal) (s : Sys) :
    (∃ evs, (runM (fetchAQI env lat lon) s).log = s.log ++ evs ∧
      evs.filter Event.isNotice = []) ∧
    ((runM (fetchAQI env lat lon) s).st = s.st ∨
      ∃ url r data cur, aqiUrl env lat lon = .ok url ∧ env.fetch .airQuality url = .ok r ∧
        r.json = .ok data ∧ getProp data "current" = .ok cur ∧ isTruthy cur = true ∧
        (runM (fetchAQI env lat lon) s).st = { s.st with aqi := cur }) ∧
    (∀ e, aqiUrl env lat lon = .error e → (runM (fetchAQI env lat lon) s).st = s.st) ∧
    (∀ url e, aqiUrl env lat lon = .ok url → env.fetch .airQuality url = .error e →
      (runM (fetchAQI env lat lon) s).st = s.st) ∧
    (∀ url r e, aqiUrl env lat lon = .ok url → env.fetch .airQuality url = .ok r →
      r.json = .error e → (runM (fetchAQI env lat lon) s).st = s.st) ∧
    (∀ url r data e, aqiUrl env lat lon = .ok url → env.fetch .airQuality url = .ok r →
      r.json = .ok data → getProp data "current" = .error e →
      (runM (fetchAQI env lat lon) s).st = s.st) ∧
    (∀ url r data cur, aqiUrl env lat lon = .ok url → env.fetch .airQuality url = .ok r →
      r.json = .ok data → getProp data "current" = .ok cur → isTruthy cur = false →
      (runM (fetchAQI env lat lon) s).st = s.st) ∧
    (∀ url r data cur, aqiUrl env lat lon = .ok url → env.fetch .airQuality url = .ok r →
      r.json = .ok data → getProp data "current" = .ok cur → isTruthy cur = true →
      (runM (fetchAQI env lat lon) s).st = { s.st with aqi := cur }) ∧
    (∀ url r data, aqiUrl env lat lon = .ok url → env.fetch .airQuality url = .ok r →
      r.json = .ok data → getProp data "current" = .ok .undefined →
      (runM (fetchAQI env lat lon) s).st = s.st) ∧
    (∀ url r data o, aqiUrl env lat lon = .ok url → env.fetch .airQuality url = .ok r →
      r.json = .ok data → getProp data "current" = .ok (.obj o) →
      (runM (fetchAQI env lat lon) s).st = { s.st with aqi := .obj o }) := by
  have herr : ∀ e, (aqiUrl env lat lon >>= aqiResult env) = .error e →
      (runM (fetchAQI env lat lon) s).st = s.st := by
    intro e he
    obtain ⟨evs, -, hrun⟩ := aqi_error_run env lat lon e he
    rw [runM, hrun]
  have hok : ∀ cur, (aqiUrl env lat lon >>= aqiResult env) = .ok cur →
      (runM (fetchAQI env lat lon) s).st =
        if isTruthy cur then { s.st with aqi := cur } else s.st := by
    intro cur hc
    obtain ⟨evs, -, hrun⟩ := aqi_ok_run env lat lon cur hc
    rw [runM, hrun]
  refine ⟨?_, ?_, ?_, ?_, ?_, ?_, ?_, ?_, ?_, ?_⟩
  · obtain ⟨eff, evs, -, -, hev, hrun⟩ := fetchAQI_run env lat lon
    exact ⟨evs, by rw [runM, hrun], filter_notice_sub evs hev⟩
  · rcases hres : (aqiUrl env lat lon >>= aqiResult env) with e | cur
    · exact Or.inl (herr e hres)
    · by_cases ht : isTruthy cur = true
      · obtain ⟨url, r, data, hu, hf, hj, hc⟩ := aqiStep_ok hres
        exact Or.inr ⟨url, r, data, cur, hu, hf, hj, hc, ht, by rw [hok cur hres, if_pos ht]⟩
      · exact Or.inl (by rw [hok cur hres, if_neg ht])
  · intro e hu
    exact herr e (by rw [hu, except_error_bind])
  · intro url e hu hf
    exact herr e (aqiStep_throws hu hf)
  · intro url r e hu hf hj
    exact herr e (by rw [hu, except_ok_bind]; simp [aqiResult, hf, hj, except_ok_bind,
      except_error_bind])
  · intro url r data e hu hf hj hc
    exact herr e (by rw [hu, except_ok_bind]; simp [aqiResult, hf, hj, hc, except_ok_bind])
  · intro url r data cur hu hf hj hc ht
    rw [hok cur (aqiStep_current hu hf hj hc), ht]
    rfl
  · intro url r data cur hu hf hj hc ht
    rw [hok cur (aqiStep_current hu hf hj hc), if_pos ht]
  · intro url r data hu hf hj hc
    rw [hok _ (aqiStep_current hu hf hj hc)]
    rfl
  · intro url r data o hu hf hj hc
    rw [hok _ (aqiStep_current hu hf hj hc)]
    rfl

/-- C16, at concrete inputs: with the network down, with an answer whose body is not
JSON and with an answer whose body is `null`, `aqi` stays absent; with an answer whose
`current` is the sample object `aqi` becomes that object. -/
theorem C16_aqi_never_synthesized_witness :
    (runM (fetchAQI offlineEnv (.str "51.5") (.str "-0.1")) initialSys).st = initialState ∧
    (runM (fetchAQI (withFetch fun _ _ => .ok ⟨.error (.SyntaxError "Unexpected token <")⟩)
      (.str "51.5") (.str "-0.1")) initialSys).st = initialState ∧
    (runM (fetchAQI (envAir .null) (.str "51.5") (.str "-0.1")) initialSys).st =
      initialState ∧
    (runM (fetchAQI (envAir (.obj [("current", sampleAqi)])) (.str "51.5") (.str "-0.1"))
      initialSys).st = { initialState with aqi := sampleAqi } :=
  ⟨(C16_aqi_never_synthesized offlineEnv (.str "51.5") (.str "-0.1") initialSys).2.2.2.1
      _ (.TypeError "Failed to fetch") rfl rfl,
   (C16_aqi_never_synthesized (withFetch fun _ _ =>
      .ok ⟨.error (.SyntaxError "Unexpected token <")⟩) (.str "51.5") (.str "-0.1")
      initialSys).2.2.2.2.1 _ _ (.SyntaxError "Unexpected token <") rfl rfl rfl,
   (C16_aqi_never_synthesized (envAir .null) (.str "51.5") (.str "-0.1")
      initialSys).2.2.2.2.2.1 _ ⟨.ok .null⟩ .null _ rfl rfl rfl rfl,
   (C16_aqi_never_synthesized (envAir (.obj [("current", sampleAqi)])) (.str "51.5")
      (.str "-0.1") initialSys).2.2.2.2.2.2.2.2.2 _ ⟨.ok (.obj [("current", sampleAqi)])⟩
      (.obj [("current", sampleAqi)]) _ rfl rfl rfl rfl⟩

/-- C17: whatever their outcome, `fetchHistoricalData` writes only `pastWeather` and
`weekWeather` and `fetchAQI` writes only `aqi`: `weather`, `condition`, `error` and
`loading` are never changed by either, neither raises a notice, and the two commute,
so neither affects what the other publishes. -/
theorem C17_isolation (env : Env) (location : String) (lat lon : JsVal) (s : Sys) :
    (∃ p w, (runM (fetchHistoricalData env location lat lon) s).st =
      { s.st with pastWeather := p, weekWeather := w }) ∧
    (∃ a, (runM (fetchAQI env lat lon) s).st = { s.st with aqi := a }) ∧
    ((runM (fetchHistoricalData env location lat lon) s).st.weather = s.st.weather ∧
      (runM (fetchHistoricalData env location lat lon) s).st.condition = s.st.condition ∧
      (runM (fetchHistoricalData env location lat lon) s).st.error = s.st.error ∧
      (runM (fetchHistoricalData env location lat lon) s).st.loading = s.st.loading ∧
      (runM (fetchHistoricalData env location lat lon) s).st.aqi = s.st.aqi) ∧
    ((runM (fetchAQI env lat lon) s).st.weather = s.st.weather ∧
      (runM (fetchAQI env lat lon) s).st.condition = s.st.condition ∧
      (runM (fetchAQI env lat lon) s).st.error = s.st.error ∧
      (runM (fetchAQI env lat lon) s).st.loading = s.st.loading ∧
      (runM (fetchAQI env lat lon) s).st.pastWeather = s.st.pastWeather ∧
      (runM (fetchAQI env lat lon) s).st.weekWeather = s.st.weekWeather) ∧
    (∃ evs, (runM (fetchHistoricalData env location lat lon) s).log = s.log ++ evs ∧
      evs.filter Event.isNotice = []) ∧
    (runM (fetchAQI env lat lon) (runM (fetchHistoricalData env location lat lon) s)).st =
      (runM (fetchHistoricalData env location lat lon) (runM (fetchAQI env lat lon) s)).st := by
  obtain ⟨e1, v1, a1, r1, h1⟩ := fetchHistoricalData_run env location lat lon
  obtain ⟨e2, v2, p2, w2, r2, h2⟩ := fetchAQI_run env lat lon
  refine ⟨⟨e1.past.getD s.st.pastWeather, e1.week.getD s.st.weekWeather, ?_⟩,
    ⟨e2.aqi.getD s.st.aqi, ?_⟩, ?_, ?_, ⟨v1, ?_, filter_notice_sub v1 r1⟩, ?_⟩
  · rw [runM, h1]; simp [SubEffect.apply, a1]
  · rw [runM, h2]; simp [SubEffect.apply, p2, w2]
  · rw [runM, h1]; simp [SubEffect.apply, a1]
  · rw [runM, h2]; simp [SubEffect.apply, p2, w2]
  · rw [runM, h1]
  · simp only [runM, h1, h2]
    simp [SubEffect.apply, a1, p2, w2]


theorem fetchWeather_summary_all (env : Env) (location : String) (h : location ≠ "") :
    ∃ (eff : SubEffect) (evs : List Event),
      (∀ e ∈ evs, Event.isSubRequest e = true) ∧
      ∀ s : Sys, fetchWeather env location s = (.ok (),
        ⟨eff.apply (coreState (classify env location) location s.st),
          s.log ++ [.fetchWeatherCalled location, .setError none] ++
            resolveEvents env location ++ noticeOf (classify env location) ++ evs⟩) := by
  obtain ⟨eff, evs, hev, hrun⟩ := fetchWeatherRest_summary env location
  refine ⟨eff, evs, hev, fun s => ?_⟩
  rw [fetchWeather_split env location s h, hrun]
  cases hc : classify env location <;> simp [restCore, coreState]

/-- C18, evaluated at the failing input: a session that holds an air-quality sample
from an earlier search starts a search for "Paris" while the network is down.  The
reset clears `weather`, `pastWeather`, `weekWeather` and `error` but leaves `aqi`,
and the sample of the earlier location is still there when the search has ended. -/
theorem C18_aqi_survives_reset :
    (runM fetchWeatherReset
      ⟨{ initialState with weather := mockCurrent "Tokyo", aqi := sampleAqi }, []⟩).st =
      { initialState with loading := true, aqi := sampleAqi } ∧
    (runM (fetchWeather offlineEnv "Paris")
      ⟨{ initialState with weather := mockCurrent "Tokyo", aqi := sampleAqi }, []⟩).st.aqi =
      sampleAqi ∧
    (runM (fetchWeather offlineEnv "Paris")
      ⟨{ initialState with weather := mockCurrent "Tokyo", aqi := sampleAqi }, []⟩).st.weather =
      mockCurrent "Paris" := by
  refine ⟨rfl, ?_, ?_⟩
  · obtain ⟨eff, evs, -, hrun⟩ := fetchWeather_summary_all offlineEnv "Paris" (by decide)
    obtain ⟨e2, v2, p2, w2, r2, h2⟩ := fetchAQI_run offlineEnv (.str "35.6895") (.str "139.6917")
    have hc : classify offlineEnv "Paris" = .failure := rfl
    have ha := aqi_error_run offlineEnv (.str "35.6895") (.str "139.6917")
      (.TypeError "Failed to fetch") rfl
    obtain ⟨va, -, hra⟩ := ha
    obtain ⟨e1, v1, a1, r1, h1⟩ :=
      fetchHistoricalData_run offlineEnv "Paris" (.str "35.6895") (.str "139.6917")
    rw [runM, fetchWeather_run offlineEnv "Paris" _ (by decide), hc]
    simp [runM, finish, handleMockCurrent, bind_apply, lift_apply, setWeather, setCondition,
      modifySt_apply, mockCurrent, getProp, lookupKey, h1, hra, SubEffect.apply, a1, cleared]
  · obtain ⟨eff, evs, -, hrun⟩ := fetchWeather_summary_all offlineEnv "Paris" (by decide)
    have hc : classify offlineEnv "Paris" = .failure := rfl
    rw [runM, hrun, hc]
    simp [coreState, SubEffect.apply]

theorem handleQuickCity_run (env : Env) (b : String) (hb : b ≠ "") :
    ∃ (eff : SubEffect) (evs : List Event), ∀ s : Sys,
      handleQuickCity env b s = (.ok (),
        ⟨eff.apply (coreState (classify env b) b { s.st with query := b }),
          s.log ++ [.fetchWeatherCalled b, .setError none] ++
            resolveEvents env b ++ noticeOf (classify env b) ++ evs⟩) := by
  obtain ⟨eff, evs, -, hrun⟩ := fetchWeather_summary_all env b hb
  exact ⟨eff, evs, fun s => by
    simp [handleQuickCity, bind_apply, setQuery, modifySt_apply, hrun]⟩

theorem resolveEvents_eq (env : Env) (location : String) :
    resolveEvents env location =
      .request .direct (currentUrl env location) :: (resolveEvents env location).tail := by
  unfold resolveEvents
  cases directStep env location <;> rfl

theorem resolveDataAwait_run (env : Env) (location : String) (s : Sys) :
    resolveDataAwait env location s =
      (resolved env location, ⟨s.st, s.log ++ (resolveEvents env location).tail⟩) := by
  unfold resolveDataAwait resolved resolveEvents
  rcases h : directStep env location with e | d <;>
    simp [M.tryCatch, bind_apply, lift_apply, emit_apply, h]

theorem fetchWeatherAwait_run (env : Env) (location : String) (s : Sys) :
    fetchWeatherAwait env location s = (.ok (),
      match classify env location with
      | .live data c la lo =>
        finish (runM (fetchHistoricalData env location la lo >>= fun _ => fetchAQI env la lo)
          ⟨{ s.st with weather := data, condition := c },
            s.log ++ (resolveEvents env location).tail⟩)
      | .appError =>
        finish (runM (handleMockCurrent env location)
          ⟨s.st, s.log ++ (resolveEvents env location).tail⟩)
      | .failure =>
        finish (runM (handleMockCurrent env location)
          ⟨{ s.st with error := some simulationNotice },
            s.log ++ (resolveEvents env location).tail ++
              [.setError (some simulationNotice)]⟩)) := by
  obtain ⟨eff, evs, -, hm⟩ := handleMockCurrent_run env location
  unfold classify
  rcases h1 : resolved env location with e1 | data
  · simp [runM, fetchWeatherAwait, fetchWeatherTryAwait, bind_apply, emit_apply, pure_apply, lift_apply,
      setLoading, setError, setWeather, setPastWeather, setWeekWeather, setCondition,
      modifySt_apply, M.tryFinally, M.tryCatch, M.throw, resolveDataAwait_run, hm, finish, cleared,
      SubEffect.apply, except_error_bind, except_ok_bind, h1]
  rcases h2 : getProp data "error" with e2 | err
  · simp [runM, fetchWeatherAwait, fetchWeatherTryAwait, bind_apply, emit_apply, pure_apply, lift_apply,
      setLoading, setError, setWeather, setPastWeather, setWeekWeather, setCondition,
      modifySt_apply, M.tryFinally, M.tryCatch, M.throw, resolveDataAwait_run, hm, finish, cleared,
      SubEffect.apply, except_error_bind, except_ok_bind, h1, h2]
  by_cases h3 : isTruthy err = true
  · have h3' : ∃ v, getProp err "info" = .ok v := by
      cases err <;> simp [isTruthy, getProp] at h3 ⊢
    obtain ⟨v, hv⟩ := h3'
    simp [runM, fetchWeatherAwait, fetchWeatherTryAwait, bind_apply, emit_apply, pure_apply, lift_apply,
      setLoading, setError, setWeather, setPastWeather, setWeekWeather, setCondition,
      modifySt_apply, M.tryFinally, M.tryCatch, M.throw, resolveDataAwait_run, hm, finish, cleared,
      SubEffect.apply, except_error_bind, except_ok_bind, h1, h2, h3, hv]
  rcases h4 : getProp data "current" with e4 | cur
  · simp [runM, fetchWeatherAwait, fetchWeatherTryAwait, bind_apply, emit_apply, pure_apply, lift_apply,
      setLoading, setError, setWeather, setPastWeather, setWeekWeather, setCondition,
      modifySt_apply, M.tryFinally, M.tryCatch, M.throw, resolveDataAwait_run, hm, finish, cleared,
      SubEffect.apply, except_error_bind, except_ok_bind, h1, h2, h3, h4]
  by_cases h5 : isTruthy cur = true
  swap
  · simp [runM, fetchWeatherAwait, fetchWeatherTryAwait, bind_apply, emit_apply, pure_apply, lift_apply,
      setLoading, setError, setWeather, setPastWeather, setWeekWeather, setCondition,
      modifySt_apply, M.tryFinally, M.tryCatch, M.throw, resolveDataAwait_run, hm, finish, cleared,
      SubEffect.apply, except_error_bind, except_ok_bind, h1, h2, h3, h4, h5]
  rcases h6 : getProp cur "weather_descriptions" with e6 | descs
  · simp [runM, fetchWeatherAwait, fetchWeatherTryAwait, bind_apply, emit_apply, pure_apply, lift_apply,
      setLoading, setError, setWeather, setPastWeather, setWeekWeather, setCondition,
      modifySt_apply, M.tryFinally, M.tryCatch, M.throw, resolveDataAwait_run, hm, finish, cleared,
      SubEffect.apply, except_error_bind, except_ok_bind, h1, h2, h3, h4, h5, h6]
  rcases h7 : getIndex descs 0 with e7 | d0
  · simp [runM, fetchWeatherAwait, fetchWeatherTryAwait, bind_apply, emit_apply, pure_apply, lift_apply,
      setLoading, setError, setWeather, setPastWeather, setWeekWeather, setCondition,
      modifySt_apply, M.tryFinally, M.tryCatch, M.throw, resolveDataAwait_run, hm, finish, cleared,
      SubEffect.apply, except_error_bind, except_ok_bind, h1, h2, h3, h4, h5, h6, h7]
  rcases h8 : determineConditionOf d0 with e8 | c
  · simp [runM, fetchWeatherAwait, fetchWeatherTryAwait, bind_apply, emit_apply, pure_apply, lift_apply,
      setLoading, setError, setWeather, setPastWeather, setWeekWeather, setCondition,
      modifySt_apply, M.tryFinally, M.tryCatch, M.throw, resolveDataAwait_run, hm, finish, cleared,
      SubEffect.apply, except_error_bind, except_ok_bind, h1, h2, h3, h4, h5, h6, h7, h8]
  rcases h9 : getProp data "location" with e9 | loc
  · simp [runM, fetchWeatherAwait, fetchWeatherTryAwait, bind_apply, emit_apply, pure_apply, lift_apply,
      setLoading, setError, setWeather, setPastWeather, setWeekWeather, setCondition,
      modifySt_apply, M.tryFinally, M.tryCatch, M.throw, resolveDataAwait_run, hm, finish, cleared,
      SubEffect.apply, except_error_bind, except_ok_bind, h1, h2, h3, h4, h5, h6, h7, h8, h9]
  rcases h10 : getProp loc "lat" with e10 | la
  · simp [runM, fetchWeatherAwait, fetchWeatherTryAwait, bind_apply, emit_apply, pure_apply, lift_apply,
      setLoading, setError, setWeather, setPastWeather, setWeekWeather, setCondition,
      modifySt_apply, M.tryFinally, M.tryCatch, M.throw, resolveDataAwait_run, hm, finish, cleared,
      SubEffect.apply, except_error_bind, except_ok_bind, h1, h2, h3, h4, h5, h6, h7, h8, h9, h10]
  rcases h11 : getProp loc "lon" with e11 | lo
  · simp [runM, fetchWeatherAwait, fetchWeatherTryAwait, bind_apply, emit_apply, pure_apply, lift_apply,
      setLoading, setError, setWeather, setPastWeather, setWeekWeather, setCondition,
      modifySt_apply, M.tryFinally, M.tryCatch, M.throw, resolveDataAwait_run, hm, finish, cleared,
      SubEffect.apply, except_error_bind, except_ok_bind, h1, h2, h3, h4, h5, h6, h7, h8, h9, h10, h11]
  obtain ⟨ea, va, -, -, ha⟩ := fetchHistoricalData_run env location la lo
  obtain ⟨eb, vb, -, -, -, hb⟩ := fetchAQI_run env la lo
  simp [runM, fetchWeatherAwait, fetchWeatherTryAwait, bind_apply, emit_apply, pure_apply, lift_apply,
      setLoading, setError, setWeather, setPastWeather, setWeekWeather, setCondition,
      modifySt_apply, M.tryFinally, M.tryCatch, M.throw, resolveDataAwait_run, hm, finish, cleared,
      SubEffect.apply, except_error_bind, except_ok_bind, h1, h2, h3, h4, h5, h6, h7, h8, h9, h10, h11, ha, hb]

theorem fetchWeatherRest_eq_await (env : Env) (location : String) (s : Sys) :
    fetchWeatherRest env location s =
      fetchWeatherAwait env location
        ⟨s.st, s.log ++ [.request .direct (currentUrl env location)]⟩ := by
  rw [fetchWeatherRest_run, fetchWeatherAwait_run]
  have e : ∀ l : List Event, l ++ resolveEvents env location =
      l ++ [.request .direct (currentUrl env location)] ++ (resolveEvents env location).tail := by
    intro l
    rw [List.append_assoc]
    exact congrArg (l ++ ·) (resolveEvents_eq env location)
  simp only [e]

theorem fetchWeatherAwait_summary (env : Env) (location : String) :
    ∃ (eff : SubEffect) (evs : List Event),
      ∀ s : Sys, fetchWeatherAwait env location s = (.ok (),
        ⟨eff.apply (restCore (classify env location) location s.st), s.log ++ evs⟩) := by
  obtain ⟨eff, evs, hev, hm⟩ := handleMockCurrent_run env location
  rcases hc : classify env location with ⟨data, c, la, lo⟩ | _ | _
  · obtain ⟨eff2, evs2, hev2, hs⟩ := subFetches_run env location la lo
    exact ⟨eff2, (resolveEvents env location).tail ++ evs2, fun s => by
      rw [fetchWeatherAwait_run, hc]
      simp [runM, hs, finish, restCore, SubEffect.apply]⟩
  · exact ⟨eff, (resolveEvents env location).tail ++ evs, fun s => by
      rw [fetchWeatherAwait_run, hc]
      simp [runM, hm, finish, restCore, SubEffect.apply]⟩
  · exact ⟨eff, (resolveEvents env location).tail ++ [.setError (some simulationNotice)] ++ evs,
      fun s => by
        rw [fetchWeatherAwait_run, hc]
        simp [runM, hm, finish, restCore, SubEffect.apply]⟩

theorem fetchWeatherStart_run (env : Env) (city : String) (h : city ≠ "") (s : Sys) :
    fetchWeatherStart env city s = (.ok (),
      ⟨cleared s.st, s.log ++ [.fetchWeatherCalled city, .setError none,
        .request .direct (currentUrl env city)]⟩) := by
  simp [fetchWeatherStart, fetchWeatherReset, h, key_ne_placeholder, bind_apply, emit_apply,
    setLoading, setError, setWeather, setPastWeather, setWeekWeather, modifySt_apply, cleared]

theorem runStep_ok (env : Env) (st : Step) (s : Sys) :
    (runStep env st s).1 = .ok () ∧
      (st.isAnswer = true → (runStep env st s).2.st.query = s.st.query) := by
  cases st with
  | submit city =>
    refine ⟨?_, fun h => by simp [Step.isAnswer] at h⟩
    by_cases hc : city = ""
    · subst hc
      simp [runStep, fetchWeatherStart, bind_apply, emit_apply, pure_apply, setQuery,
        modifySt_apply]
    · simp [runStep, bind_apply, setQuery, modifySt_apply, fetchWeatherStart_run env city hc]
  | answer city =>
    obtain ⟨eff, evs, h⟩ := fetchWeatherAwait_summary env city
    refine ⟨by simp [runStep, h], fun _ => ?_⟩
    simp only [runStep, h]
    cases classify env city <;> simp [restCore, SubEffect.apply]

theorem runSchedule_run (env : Env) (steps : List Step) (s : Sys) :
    runSchedule env steps s = (.ok (), runM (runSchedule env steps) s) := by
  induction steps generalizing s with
  | nil => rfl
  | cons st rest ih =>
    have h := (runStep_ok env st s).1
    rcases hr : runStep env st s with ⟨r, s1⟩
    rw [hr] at h
    simp only at h
    subst h
    simp only [runM, runSchedule, bind_apply, hr]
    rw [ih s1]

theorem runSchedule_append (env : Env) (xs ys : List Step) (s : Sys) :
    runM (runSchedule env (xs ++ ys)) s =
      runM (runSchedule env ys) (runM (runSchedule env xs) s) := by
  induction xs generalizing s with
  | nil => rfl
  | cons st rest ih =>
    have h := (runStep_ok env st s).1
    rcases hr : runStep env st s with ⟨r, s1⟩
    rw [hr] at h
    simp only at h
    subst h
    simp only [runM, List.cons_append, runSchedule, bind_apply, hr]
    exact ih s1

theorem runSchedule_answers_query (env : Env) (mid : List Step)
    (hm : ∀ st ∈ mid, st.isAnswer = true) (s : Sys) :
    (runM (runSchedule env mid) s).st.query = s.st.query := by
  induction mid generalizing s with
  | nil => rfl
  | cons st rest ih =>
    obtain ⟨h1, h2⟩ := runStep_ok env st s
    rcases hr : runStep env st s with ⟨r, s1⟩
    rw [hr] at h1 h2
    simp only at h1 h2
    subst h1
    simp only [runM, runSchedule, bind_apply, hr]
    have := ih (fun x hx => hm x (List.mem_cons_of_mem _ hx)) s1
    simp only [runM] at this
    rw [this, h2 (hm st (List.mem_cons_self _ _))]

theorem submit_query (env : Env) (b : String) (s : Sys) :
    (runM (runSchedule env [.submit b]) s).st.query = b := by
  by_cases hb : b = ""
  · subst hb
    simp [runM, runSchedule, runStep, fetchWeatherStart, bind_apply, emit_apply, pure_apply,
      setQuery, modifySt_apply]
  · simp [runM, runSchedule, runStep, bind_apply, pure_apply, setQuery, modifySt_apply,
      fetchWeatherStart_run env b hb, cleared]

theorem answer_last (env : Env) (a : String) (ha : a ≠ "") (s s0 : Sys) :
    (runM (fetchWeatherAwait env a) s).st.weather = (runM (fetchWeather env a) s0).st.weather ∧
    (runM (fetchWeatherAwait env a) s).st.condition =
      (runM (fetchWeather env a) s0).st.condition ∧
    (runM (fetchWeatherAwait env a) s).st.loading = false := by
  obtain ⟨eff, evs, h⟩ := fetchWeatherAwait_summary env a
  obtain ⟨eff2, evs2, -, h2⟩ := fetchWeather_summary_all env a ha
  simp only [runM, h, h2]
  cases classify env a <;> simp [restCore, coreState, SubEffect.apply]

/-- C19 (amended): there is no supersession; the answers that arrive last are
committed.  A session is any sequence of submissions and arrivals of answers.
Whenever the answers to a search for A arrive, whatever happened before, `weather` and
`condition` become those a search for A alone publishes and `loading` becomes false.
So in every session in which B is submitted and the answers to A arrive last, only
arrivals of answers lying in between, the session ends with A's current conditions
under the query B.  A submission followed by the arrival of its answers is
`handleQuickCity`; a search that has ended before the next one is submitted leaves
nothing in `weather`, the day records, `condition`, `error` and `loading`. -/
theorem C19_last_completion_wins (env : Env) (a b : String) (s : Sys) (ha : a ≠ "")
    (hb : b ≠ "") :
    (∀ pre : List Step,
      (runM (runSchedule env (pre ++ [.answer a])) s).st.weather =
        (runM (fetchWeather env a) s).st.weather ∧
      (runM (runSchedule env (pre ++ [.answer a])) s).st.condition =
        (runM (fetchWeather env a) s).st.condition ∧
      (runM (runSchedule env (pre ++ [.answer a])) s).st.loading = false) ∧
    (∀ pre mid : List Step, (∀ st ∈ mid, st.isAnswer = true) →
      (runM (runSchedule env (pre ++ [.submit b] ++ mid ++ [.answer a])) s).st.weather =
        (runM (fetchWeather env a) s).st.weather ∧
      (runM (runSchedule env (pre ++ [.submit b] ++ mid ++ [.answer a])) s).st.query = b) ∧
    ((runM (runSchedule env [.submit a, .submit b, .answer b, .answer a]) s).st.weather =
        (runM (fetchWeather env a) s).st.weather ∧
      (runM (runSchedule env [.submit a, .submit b, .answer b, .answer a]) s).st.query = b ∧
      (runM (runSchedule env [.submit a, .submit b, .answer a, .answer b]) s).st.weather =
        (runM (fetchWeather env b) s).st.weather ∧
      (runM (runSchedule env [.submit a, .submit b, .answer a, .answer b]) s).st.query = b) ∧
    (runSchedule env [.submit a, .answer a] s = handleQuickCity env a s ∧
      (runM (runSchedule env [.submit a, .submit b]) s).log =
        s.log ++ [.fetchWeatherCalled a, .setError none, .request .direct (currentUrl env a),
          .fetchWeatherCalled b, .setError none, .request .direct (currentUrl env b)]) ∧
    ((runM (handleQuickCity env b) (runM (handleQuickCity env a) s)).st.weather =
        (runM (handleQuickCity env b) s).st.weather ∧
      (runM (handleQuickCity env b) (runM (handleQuickCity env a) s)).st.pastWeather =
        (runM (handleQuickCity env b) s).st.pastWeather ∧
      (runM (handleQuickCity env b) (runM (handleQuickCity env a) s)).st.weekWeather =
        (runM (handleQuickCity env b) s).st.weekWeather ∧
      (runM (handleQuickCity env b) (runM (handleQuickCity env a) s)).st.condition =
        (runM (handleQuickCity env b) s).st.condition ∧
      (runM (handleQuickCity env b) (runM (handleQuickCity env a) s)).st.error =
        (runM (handleQuickCity env b) s).st.error ∧
      (runM (handleQuickCity env b) (runM (handleQuickCity env a) s)).st.loading =
        (runM (handleQuickCity env b) s).st.loading ∧
      (runM (handleQuickCity env b) (runM (handleQuickCity env a) s)).st.query = b) := by
  have last : ∀ (c : String), c ≠ "" → ∀ pre : List Step,
      (runM (runSchedule env (pre ++ [.answer c])) s).st.weather =
        (runM (fetchWeather env c) s).st.weather ∧
      (runM (runSchedule env (pre ++ [.answer c])) s).st.condition =
        (runM (fetchWeather env c) s).st.condition ∧
      (runM (runSchedule env (pre ++ [.answer c])) s).st.loading = false := by
    intro c hc pre
    rw [runSchedule_append]
    have e : ∀ s1 : Sys, runM (runSchedule env [.answer c]) s1 =
        runM (fetchWeatherAwait env c) s1 := by
      intro s1
      obtain ⟨eff, evs, h⟩ := fetchWeatherAwait_summary env c
      simp [runM, runSchedule, runStep, bind_apply, pure_apply, h]
    rw [e]
    exact answer_last env c hc _ s
  have query : ∀ (c : String) (pre mid : List Step), (∀ st ∈ mid, st.isAnswer = true) →
      (runM (runSchedule env (pre ++ [.submit b] ++ mid ++ [.answer c])) s).st.query = b := by
    intro c pre mid hm
    have hm' : ∀ st ∈ mid ++ [Step.answer c], st.isAnswer = true := by
      intro st hst
      rcases List.mem_append.1 hst with h | h
      · exact hm st h
      · simp only [List.mem_singleton] at h
        subst h
        rfl
    rw [List.append_assoc, runSchedule_append, runSchedule_answers_query env _ hm',
      runSchedule_append, submit_query]
  refine ⟨last a ha, fun pre mid hm => ⟨(last a ha (pre ++ [.submit b] ++ mid)).1,
    query a pre mid hm⟩, ⟨?_, ?_, ?_, ?_⟩, ⟨?_, ?_⟩, ?_⟩
  · exact (last a ha [.submit a, .submit b, .answer b]).1
  · exact query a [.submit a] [.answer b] (by simp [Step.isAnswer])
  · exact (last b hb [.submit a, .submit b, .answer a]).1
  · exact query b [.submit a] [.answer a] (by simp [Step.isAnswer])
  · obtain ⟨eff, evs, h⟩ := fetchWeatherAwait_summary env a
    simp only [runSchedule, runStep, handleQuickCity, bind_apply, setQuery, modifySt_apply,
      fetchWeatherStart_run env a ha, fetchWeather_split env a _ ha, fetchWeatherRest_eq_await,
      h, pure_apply]
    simp [List.append_assoc]
  · simp [runM, runSchedule, runStep, bind_apply, pure_apply, setQuery, modifySt_apply,
      fetchWeatherStart_run env a ha, fetchWeatherStart_run env b hb, List.append_assoc]
  · obtain ⟨effB, evsB, hB⟩ := handleQuickCity_run env b hb
    simp only [runM, hB]
    cases hcb : classify env b <;> simp [coreState, SubEffect.apply, cleared]

/-- C19 (amended), at a concrete input: "Alpha" then "Beta", both answered live, the
answer to "Alpha" arriving last. -/
theorem C19_last_completion_wins_witness :
    (runM (runSchedule envByCity
      [.submit "Alpha", .submit "Beta", .answer "Beta", .answer "Alpha"]) initialSys).st.weather =
      (runM (fetchWeather envByCity "Alpha") initialSys).st.weather ∧
    (runM (runSchedule envByCity
      [.submit "Alpha", .submit "Beta", .answer "Beta", .answer "Alpha"]) initialSys).st.query =
      "Beta" :=
  ⟨(C19_last_completion_wins envByCity "Alpha" "Beta" initialSys (by decide)
      (by decide)).2.2.1.1,
   (C19_last_completion_wins envByCity "Alpha" "Beta" initialSys (by decide)
      (by decide)).2.2.1.2.1⟩

/-- C19 as stated fails: search "Alpha" is submitted and its request is issued, then
search "Beta" is submitted before the answer to "Alpha" has arrived; the answer to
"Beta" arrives and Beta's conditions are published; then the answer to "Alpha" arrives
and is committed, so the session ends with the current conditions of Alpha under the
query "Beta". -/
theorem C19_counterexample :
    (runM (runSchedule envByCity [.submit "Alpha", .submit "Beta", .answer "Beta"])
      initialSys).st.weather = liveData "Beta" ∧
    (runM (runSchedule envByCity
      [.submit "Alpha", .submit "Beta", .answer "Beta", .answer "Alpha"]) initialSys).st.weather =
      liveData "Alpha" ∧
    (runM (runSchedule envByCity
      [.submit "Alpha", .submit "Beta", .answer "Beta", .answer "Alpha"]) initialSys).st.query =
      "Beta" ∧
    (runM (runSchedule envByCity [.submit "Alpha", .submit "Beta"]) initialSys).log =
      [.fetchWeatherCalled "Alpha", .setError none,
        .request .direct (currentUrl envByCity "Alpha"),
        .fetchWeatherCalled "Beta", .setError none,
        .request .direct (currentUrl envByCity "Beta")] := by
  have hcA : classify envByCity "Alpha" =
      .live (liveData "Alpha") "Sunny" (.str "1.0") (.str "2.0") := rfl
  have hcB : classify envByCity "Beta" =
      .live (liveData "Beta") "Sunny" (.str "1.0") (.str "2.0") := rfl
  obtain ⟨effA, evsA, hA⟩ := fetchWeatherAwait_summary envByCity "Alpha"
  obtain ⟨effB, evsB, hB⟩ := fetchWeatherAwait_summary envByCity "Beta"
  have sA := fetchWeatherStart_run envByCity "Alpha" (by decide)
  have sB := fetchWeatherStart_run envByCity "Beta" (by decide)
  refine ⟨?_, ?_, ?_, ?_⟩
  · simp [runM, runSchedule, runStep, bind_apply, pure_apply, setQuery, modifySt_apply, sA, sB,
      hB, hcB, restCore, SubEffect.apply]
  · simp [runM, runSchedule, runStep, bind_apply, pure_apply, setQuery, modifySt_apply, sA, sB,
      hA, hB, hcA, hcB, restCore, SubEffect.apply]
  · simp [runM, runSchedule, runStep, bind_apply, pure_apply, setQuery, modifySt_apply, sA, sB,
      hA, hB, hcA, hcB, restCore, SubEffect.apply, cleared]
  · simp [runM, runSchedule, runStep, bind_apply, pure_apply, setQuery, modifySt_apply, sA, sB,
      initialSys]

/-- C20: switching the display unit C -> F -> C shows the stored Celsius value `t`
again: `setUnit` writes the `unit` cell only, so the stored model (`weather`, the day
records, `aqi`) is never touched by a conversion, and what `convertTemp` shows depends
on the stored value and the current unit only, being `t` itself in unit 'C' (and the
rounded double-precision value of `(t * 9 / 5) + 32` in unit 'F'). -/
theorem C20_unit_toggle_round_trip (s : Sys) (t : JsNum) :
    convertTemp (runM (setUnit "C") (runM (setUnit "F") (runM (setUnit "C") s))).st.unit t = t ∧
    convertTemp (runM (setUnit "C") (runM (setUnit "F") (runM (setUnit "C") s))).st.unit t =
      convertTemp (runM (setUnit "C") s).st.unit t ∧
    convertTemp (runM (setUnit "F") (runM (setUnit "C") s)).st.unit t =
      JsNum.round (((t.mul 9).div 5).add 32) ∧
    (∀ u, (runM (setUnit u) s).st = { s.st with unit := u }) ∧
    (runM (setUnit "C") (runM (setUnit "F") s)).st.weather = s.st.weather ∧
    (runM (setUnit "C") (runM (setUnit "F") s)).st.pastWeather = s.st.pastWeather ∧
    (runM (setUnit "C") (runM (setUnit "F") s)).st.weekWeather = s.st.weekWeather ∧
    (∀ st : AppState, convertTemp { st with unit := "C" }.unit t = t) := by
  refine ⟨?_, rfl, ?_, fun u => rfl, rfl, rfl, rfl, fun st => ?_⟩ <;>
    simp [runM, setUnit, modifySt_apply, convertTemp]

theorem Math_round_two_fifths : Math_round (2 / 5) = 0 ∧
    Math_round 32 = 32 ∧ Math_round ((2 / 5 : Rat) * 9 / 5 + 32) = 33 := by
  refine ⟨?_, ?_, ?_⟩ <;> rw [Math_round_eq_floor, Int.floor_eq_iff] <;> norm_num

theorem Math_round_abs (v : Rat) (h : |v| ≤ 2 ^ 39) : |Math_round v| ≤ 2 ^ 40 := by
  rw [Math_round_eq_floor]
  have h1 := Int.floor_le (v + 1 / 2)
  have h2 := Int.lt_floor_add_one (v + 1 / 2)
  rw [abs_le] at h
  have a : (-(2 ^ 40 : Int) : Rat) ≤ ((Int.floor (v + 1 / 2) : Int) : Rat) := by
    push_cast
    norm_num at h ⊢
    linarith
  have b : ((Int.floor (v + 1 / 2) : Int) : Rat) ≤ ((2 ^ 40 : Int) : Rat) := by
    push_cast
    norm_num at h ⊢
    linarith
  rw [abs_le]
  exact ⟨by exact_mod_cast a, by exact_mod_cast b⟩

theorem stored_fahrenheit (v : Rat) (h : |v| ≤ 2 ^ 39) :
    convertTemp "F" (.fin (Math_round v)) =
      .fin (Math_round ((Math_round v : Rat) * 9 / 5 + 32)) := by
  rw [convertTemp_int _ (Math_round_abs v h), Math_round_eq_floor ((Math_round v : Rat) * 9 / 5 + 32)]

theorem shown_live (env : Env) (location key : String) (t code : JsVal) (a b c : Rat)
    (unit : String) :
    WeekCard.shown unit (liveRecord env location t (.num a) (.num b) (.num c) code key) =
      some (WeekCard.convert unit (.fin (Math_round a)),
        WeekCard.convert unit (.fin (Math_round b))) ∧
    PastCard.shown unit (liveRecord env location t (.num a) (.num b) (.num c) code key) =
      some (PastCard.convert unit (.fin (Math_round c))) := by
  constructor
  · simp [WeekCard.shown, firstDay, liveRecord, roundVal, numOf]
  · simp [PastCard.shown, firstDay, liveRecord, roundVal, numOf]

theorem zero_fahrenheit : convertTemp "F" (.fin ((0 : Int) : Rat)) = .fin 32 := by
  rw [convertTemp_int 0 (by norm_num)]
  have : Int.floor (((0 : Int) : Rat) * 9 / 5 + 32 + 1 / 2) = 32 := by
    rw [Int.floor_eq_iff]
    norm_num
  rw [this]
  rfl

/-- C21 (amended): the historical temperatures are rounded when the record is built,
and the display converts the stored, already rounded value: for a provider value `v`
the value shown is the conversion of `round(v)`, for the maximum and minimum on
`WeekCard` and for the mean on `PastCard`.  In unit 'C' this is `round(v)`; in unit
'F' it is `round(round(v) * 9 / 5 + 32)` for every `v` of magnitude at most `2 ^ 39`
(beyond, the double-precision arithmetic of the conversion is no longer exact). -/
theorem C21_rounding_of_stored_value (env : Env) (location key : String) (t code : JsVal)
    (a b c : Rat) :
    (∀ unit, WeekCard.shown unit
        (liveRecord env location t (.num a) (.num b) (.num c) code key) =
      some (WeekCard.convert unit (.fin (Math_round a)),
        WeekCard.convert unit (.fin (Math_round b)))) ∧
    (∀ unit, PastCard.shown unit
        (liveRecord env location t (.num a) (.num b) (.num c) code key) =
      some (PastCard.convert unit (.fin (Math_round c)))) ∧
    (|a| ≤ 2 ^ 39 → |b| ≤ 2 ^ 39 →
      WeekCard.shown "F" (liveRecord env location t (.num a) (.num b) (.num c) code key) =
        some (.fin (Math_round ((Math_round a : Rat) * 9 / 5 + 32)),
          .fin (Math_round ((Math_round b : Rat) * 9 / 5 + 32)))) ∧
    (|c| ≤ 2 ^ 39 →
      PastCard.shown "F" (liveRecord env location t (.num a) (.num b) (.num c) code key) =
        some (.fin (Math_round ((Math_round c : Rat) * 9 / 5 + 32)))) ∧
    WeekCard.shown "C" (liveRecord env location t (.num a) (.num b) (.num c) code key) =
      some (.fin (Math_round a), .fin (Math_round b)) ∧
    PastCard.shown "C" (liveRecord env location t (.num a) (.num b) (.num c) code key) =
      some (.fin (Math_round c)) := by
  have hW := fun unit => (shown_live env location key t code a b c unit).1
  have hP := fun unit => (shown_live env location key t code a b c unit).2
  refine ⟨hW, hP, ?_, ?_, ?_, ?_⟩
  · intro ha hb
    rw [hW]
    have e1 := stored_fahrenheit a ha
    have e2 := stored_fahrenheit b hb
    simp only [convertTemp, if_true] at e1 e2
    simp only [WeekCard.convert, if_true, e1, e2]
  · intro hc
    rw [hP]
    have e1 := stored_fahrenheit c hc
    simp only [convertTemp, if_true] at e1
    simp only [PastCard.convert, if_true, e1]
  · rw [hW]
    simp [WeekCard.convert]
  · rw [hP]
    simp [PastCard.convert]

/-- C21 (amended), at a concrete input: the provider values 21.5, 13.5 and 17 are
stored as 22, 14 and 17 and shown in Fahrenheit as `round(22 * 9 / 5 + 32)`,
`round(14 * 9 / 5 + 32)` and `round(17 * 9 / 5 + 32)`. -/
theorem C21_rounding_of_stored_value_witness :
    WeekCard.shown "F" (liveRecord offlineEnv "London" (.str "2024-01-19") (.num (43 / 2))
        (.num (27 / 2)) (.num 17) (.num 61) "2024-01-19") =
      some (.fin (Math_round ((Math_round (43 / 2) : Rat) * 9 / 5 + 32)),
        .fin (Math_round ((Math_round (27 / 2) : Rat) * 9 / 5 + 32))) ∧
    PastCard.shown "F" (liveRecord offlineEnv "London" (.str "2024-01-19") (.num (43 / 2))
        (.num (27 / 2)) (.num 17) (.num 61) "2024-01-19") =
      some (.fin (Math_round ((Math_round 17 : Rat) * 9 / 5 + 32))) :=
  ⟨(C21_rounding_of_stored_value offlineEnv "London" "2024-01-19" (.str "2024-01-19")
      (.num 61) (43 / 2) (27 / 2) 17).2.2.1 (by norm_num [abs_of_pos])
      (by norm_num [abs_of_pos]),
   (C21_rounding_of_stored_value offlineEnv "London" "2024-01-19" (.str "2024-01-19")
      (.num 61) (43 / 2) (27 / 2) 17).2.2.2.1 (by norm_num [abs_of_pos])⟩

/-- C21 as stated fails: for the provider value 0.4 the stored value is 0 and the
Fahrenheit value shown is 32, whereas `round(0.4 * 9 / 5 + 32)` is 33. -/
theorem C21_counterexample :
    WeekCard.shown "F" (liveRecord offlineEnv "London" (.str "2024-01-19") (.num (2 / 5))
      (.num (2 / 5)) (.num (2 / 5)) (.num 0) "2024-01-19") = some (.fin 32, .fin 32) ∧
    PastCard.shown "F" (liveRecord offlineEnv "London" (.str "2024-01-19") (.num (2 / 5))
      (.num (2 / 5)) (.num (2 / 5)) (.num 0) "2024-01-19") = some (.fin 32) ∧
    Math_round ((2 / 5 : Rat) * 9 / 5 + 32) = 33 := by
  obtain ⟨h1, -, h3⟩ := Math_round_two_fifths
  obtain ⟨hW, hP⟩ := shown_live offlineEnv "London" "2024-01-19" (.str "2024-01-19") (.num 0)
    (2 / 5) (2 / 5) (2 / 5) "F"
  have e : WeekCard.convert "F" (.fin ((Math_round (2 / 5) : Int) : Rat)) = .fin 32 := by
    rw [h1]
    exact zero_fahrenheit
  have e' : PastCard.convert "F" (.fin ((Math_round (2 / 5) : Int) : Rat)) = .fin 32 := e
  exact ⟨by rw [hW, e], by rw [hP, e'], h3⟩

/-- C22: every record built by `generateMockDay`, hence every record published on the
synthetic path, has `isMock` true, and no record published on the live path has the
property. -/
theorem C22_synthetic_flag (env : Env) (location : String) (lat lon : JsVal) (s : Sys) :
    (∀ n date loc, (generateMockDay env n date loc).isMock = some true) ∧
    (∀ e, (historyUrl env lat lon >>= historyResult env location) = .error e →
      (∀ r ∈ (runM (fetchHistoricalData env location lat lon) s).st.pastWeather,
        r.isMock = some true) ∧
      (∀ r ∈ (runM (fetchHistoricalData env location lat lon) s).st.weekWeather,
        r.isMock = some true)) ∧
    (∀ formatted,
      (historyUrl env lat lon >>= historyResult env location) = .ok (some formatted) →
      (∀ r ∈ (runM (fetchHistoricalData env location lat lon) s).st.pastWeather,
        r.isMock = none) ∧
      (∀ r ∈ (runM (fetchHistoricalData env location lat lon) s).st.weekWeather,
        r.isMock = none)) := by
  refine ⟨fun _ _ _ => rfl, ?_, ?_⟩
  · intro e he
    obtain ⟨evs, -, hrun⟩ := fetchHistoricalData_synthetic env location lat lon e he
    rw [runM, hrun]
    constructor
    · exact mockDays_isMock env location _ 0
    · intro r hr
      exact mockDays_isMock env location _ 0 r (List.mem_reverse.1 hr)
  · intro formatted hf
    obtain ⟨h1, h2, url, response, data, daily, xs, -, -, -, -, -, a6, -, -⟩ :=
      live_published env location lat lon s formatted hf
    obtain ⟨-, -, g3, -⟩ := formatDays_spec env location daily xs 0 formatted a6
    rw [h1, h2]
    exact ⟨fun r hr => g3 r (List.mem_reverse.1 hr), g3⟩

/-- C22, at concrete inputs: the synthetic records of a search with the network down
are flagged, the record of a live answer is not. -/
theorem C22_synthetic_flag_witness :
    (∀ r ∈ (runM (fetchHistoricalData offlineEnv "London" (.str "51.5") (.str "-0.1"))
      initialSys).st.pastWeather, r.isMock = some true) ∧
    (∀ r ∈ (runM (fetchHistoricalData (envArchive oneDayArchive) "London" (.str "51.5")
      (.str "-0.1")) initialSys).st.weekWeather, r.isMock = none) :=
  ⟨((C22_synthetic_flag offlineEnv "London" (.str "51.5") (.str "-0.1") initialSys).2.1
      (.TypeError "Failed to fetch") rfl).1,
   ((C22_synthetic_flag (envArchive oneDayArchive) "London" (.str "51.5") (.str "-0.1")
      initialSys).2.2 [oneDayRecord "London"] oneDay_result).2⟩


theorem classify_live_resolved (env : Env) (location : String) (data la lo : JsVal)
    (c : String) (h : classify env location = .live data c la lo) :
    resolved env location = .ok data := by
  unfold classify at h
  split at h
  · cases h
  next d hd =>
  have key : data = d := by
    repeat' split at h
    all_goals (cases h; try rfl)
  rw [key, hd]

theorem lookupKey_mock_other (location k : String)
    (hk : k ∉ ["request", "location", "current"]) :
    getProp (mockCurrent location) k = .ok .undefined := by
  simp only [List.mem_cons, List.mem_singleton, List.not_mem_nil, or_false, not_or] at hk
  obtain ⟨h1, h2, h3⟩ := hk
  simp [mockCurrent, getProp, lookupKey, Ne.symm h1, Ne.symm h2, Ne.symm h3]

/-- C23 (amended): whenever `fetchWeather` falls back to mock data it publishes the
fixed mock object for the location, and that object carries no synthetic flag: its
only properties are `request`, `location` and `current`, and neither it nor its
`current` part has an `isSynthetic` or `isMock` property.  Otherwise it publishes the
provider's data as received.  So the model holds no flag that tells synthetic current
conditions from live ones. -/
theorem C23_mock_current_has_no_flag (env : Env) (location : String) (s : Sys)
    (h : location ≠ "") :
    ((runM (fetchWeather env location) s).st.weather = mockCurrent location ∨
      ∃ data, resolved env location = .ok data ∧
        (runM (fetchWeather env location) s).st.weather = data) ∧
    (∀ e, resolved env location = .error e →
      (runM (fetchWeather env location) s).st.weather = mockCurrent location) ∧
    (∀ data e, resolved env location = .ok data → getProp data "error" = .ok e →
      isTruthy e = true →
      (runM (fetchWeather env location) s).st.weather = mockCurrent location) ∧
    (∀ k, k ∉ ["request", "location", "current"] →
      getProp (mockCurrent location) k = .ok .undefined) ∧
    (getProp (mockCurrent location) "current" >>= fun c => getProp c "isSynthetic") =
      .ok .undefined ∧
    (getProp (mockCurrent location) "current" >>= fun c => getProp c "isMock") =
      .ok .undefined := by
  obtain ⟨eff, evs, -, hrun⟩ := fetchWeather_summary_all env location h
  have hw : (runM (fetchWeather env location) s).st.weather =
      (coreState (classify env location) location s.st).weather := by
    rw [runM, hrun]; simp [SubEffect.apply]
  refine ⟨?_, ?_, ?_, lookupKey_mock_other location, rfl, rfl⟩
  · rw [hw]
    rcases hc : classify env location with ⟨data, c, la, lo⟩ | _ | _
    · right
      exact ⟨data, classify_live_resolved env location data la lo c hc, rfl⟩
    · left; rfl
    · left; rfl
  · intro e he
    rw [hw, classify_failure env location e he]
    rfl
  · intro data e h1 h2 h3
    rw [hw, classify_appError env location data e h1 h2 h3]
    rfl

/-- C23 (amended), at a concrete input: "Tokyo" with the network down. -/
theorem C23_mock_current_has_no_flag_witness :
    (runM (fetchWeather offlineEnv "Tokyo") initialSys).st.weather = mockCurrent "Tokyo" ∧
    getProp (mockCurrent "Tokyo") "isSynthetic" = .ok .undefined :=
  ⟨(C23_mock_current_has_no_flag offlineEnv "Tokyo" initialSys (by decide)).2.1
      (.TypeError "Failed to fetch") rfl,
   (C23_mock_current_has_no_flag offlineEnv "Tokyo" initialSys (by decide)).2.2.2.1
      "isSynthetic" (by decide)⟩

/-- C23 as stated fails: after the fallback for "Tokyo" with the network down, the
published current conditions have no `isSynthetic` property (nor `isMock`), neither
on the object nor on its `current` part, so the flag is not true. -/
theorem C23_counterexample :
    getProp (runM (fetchWeather offlineEnv "Tokyo") initialSys).st.weather "isSynthetic" =
      .ok .undefined ∧
    getProp (runM (fetchWeather offlineEnv "Tokyo") initialSys).st.weather "isMock" =
      .ok .undefined ∧
    (getProp (runM (fetchWeather offlineEnv "Tokyo") initialSys).st.weather "current" >>=
      fun c => getProp c "isSynthetic") = .ok .undefined ∧
    getProp (runM (fetchWeather offlineEnv "Tokyo") initialSys).st.weather "isSynthetic" ≠
      .ok (.bool true) := by
  obtain ⟨eff, evs, -, hrun⟩ := fetchWeather_summary_all offlineEnv "Tokyo" (by decide)
  have hc : classify offlineEnv "Tokyo" = .failure := rfl
  have hw : (runM (fetchWeather offlineEnv "Tokyo") initialSys).st.weather =
      mockCurrent "Tokyo" := by
    rw [runM, hrun, hc]; simp [coreState, SubEffect.apply]
  rw [hw]
  refine ⟨rfl, rfl, rfl, ?_⟩
  intro hcon
  have : getProp (mockCurrent "Tokyo") "isSynthetic" = .ok .undefined := rfl
  rw [this] at hcon
  cases hcon

theorem floor_mul_bounds (r : Rat) (n : Int) (h0 : 0 ≤ r) (h1 : r < 1) (hn : 0 < n) :
    0 ≤ Math_floor (r * n) ∧ Math_floor (r * n) ≤ n - 1 := by
  unfold Math_floor
  have hnq : (0 : Rat) < n := by exact_mod_cast hn
  constructor
  · exact Int.floor_nonneg.2 (mul_nonneg h0 hnq.le)
  · have : Int.floor (r * n) < n := by
      rw [Int.floor_lt]
      calc r * n < 1 * n := by exact mul_lt_mul_of_pos_right h1 hnq
        _ = n := one_mul _
    omega

/-- C24: for draws of the random source in [0, 1), `generateMockDay` returns a record
with the date and the location name it was given, flagged synthetic, whose values are
integers with `maxtemp` in [25, 34], `mintemp` in [15, 19], `avgtemp` in [20, 26] and
`wind_speed` in [10, 24]; hence `maxtemp` is greater than `mintemp`. -/
theorem C24_mock_day_bounds (env : Env) (n : Nat) (date loc : String)
    (hr : ∀ k, 0 ≤ env.random k ∧ env.random k < 1) :
    ∃ (mx mn av w : Int) (cond : JsVal),
      generateMockDay env n date loc =
        { date := .str date
          locationName := loc
          historical := [(date,
            { maxtemp := .num mx
              mintemp := .num mn
              avgtemp := .num av
              hourly := [{ weather_descriptions := [cond], wind_speed := w }] })]
          isMock := some true } ∧
      25 ≤ mx ∧ mx ≤ 34 ∧ 15 ≤ mn ∧ mn ≤ 19 ∧ 20 ≤ av ∧ av ≤ 26 ∧ 10 ≤ w ∧ w ≤ 24 ∧
      mn < mx := by
  obtain ⟨a1, a2⟩ := floor_mul_bounds (env.random (n + 1)) 10 (hr _).1 (hr _).2 (by norm_num)
  obtain ⟨b1, b2⟩ := floor_mul_bounds (env.random (n + 2)) 5 (hr _).1 (hr _).2 (by norm_num)
  obtain ⟨c1, c2⟩ := floor_mul_bounds (env.random (n + 3)) 7 (hr _).1 (hr _).2 (by norm_num)
  obtain ⟨d1, d2⟩ := floor_mul_bounds (env.random (n + 4)) 15 (hr _).1 (hr _).2 (by norm_num)
  push_cast at a1 a2 b1 b2 c1 c2 d1 d2
  refine ⟨25 + Math_floor (env.random (n + 1) * 10), 15 + Math_floor (env.random (n + 2) * 5),
    20 + Math_floor (env.random (n + 3) * 7), 10 + Math_floor (env.random (n + 4) * 15),
    stringAt ["Sunny", "Partly Cloudy", "Rain", "Cloudy", "Clear"]
      (Math_floor (env.random n * (5 : Nat))), ?_, ?_⟩
  · simp only [generateMockDay]
    push_cast
    rfl
  · refine ⟨?_, ?_, ?_, ?_, ?_, ?_, ?_, ?_, ?_⟩ <;> omega

/-- C24, at a concrete input: every draw is 0. -/
theorem C24_mock_day_bounds_witness :
    ∃ (mx mn av w : Int) (cond : JsVal),
      generateMockDay offlineEnv 0 "2024-01-19" "London" =
        { date := .str "2024-01-19"
          locationName := "London"
          historical := [("2024-01-19",
            { maxtemp := .num mx
              mintemp := .num mn
              avgtemp := .num av
              hourly := [{ weather_descriptions := [cond], wind_speed := w }] })]
          isMock := some true } ∧
      25 ≤ mx ∧ mx ≤ 34 ∧ 15 ≤ mn ∧ mn ≤ 19 ∧ 20 ≤ av ∧ av ≤ 26 ∧ 10 ≤ w ∧ w ≤ 24 ∧
      mn < mx :=
  C24_mock_day_bounds offlineEnv 0 "2024-01-19" "London"
    (fun _ => ⟨le_refl _, by norm_num [offlineEnv]⟩)


/-- C25: `fetchWeather` with a non-empty location first resets the state, which sets
`loading` to true, and only then does the rest, which makes every request: the
actions done by then hold no request.  When `fetchWeather` completes, by live data,
by the error-payload fallback or by the exception fallback, `loading` is false.  The
historical and air-quality fetches never write `loading`, so this does not depend on
how far they have come. -/
theorem C25_loading_tracks_current (env : Env) (location : String) (s : Sys)
    (h : location ≠ "") :
    fetchWeather env location s =
      fetchWeatherRest env location
        ⟨cleared s.st, s.log ++ [.fetchWeatherCalled location, .setError none]⟩ ∧
    (cleared s.st).loading = true ∧
    (∀ e ∈ [Event.fetchWeatherCalled location, Event.setError none],
      Event.isRequest e = false) ∧
    (∃ later, (runM (fetchWeather env location) s).log =
      (s.log ++ [.fetchWeatherCalled location, .setError none]) ++ later) ∧
    (runM (fetchWeather env location) s).st.loading = false ∧
    (∀ (lat lon : JsVal) (s' : Sys),
      (runM (fetchHistoricalData env location lat lon) s').st.loading = s'.st.loading ∧
      (runM (fetchAQI env lat lon) s').st.loading = s'.st.loading) := by
  obtain ⟨eff, evs, -, hrun⟩ := fetchWeather_summary_all env location h
  refine ⟨fetchWeather_split env location s h, rfl, by simp [Event.isRequest], ?_, ?_, ?_⟩
  · exact ⟨resolveEvents env location ++ noticeOf (classify env location) ++ evs, by
      rw [runM, hrun]; simp⟩
  · rw [runM, hrun]
    cases hc : classify env location <;> simp [coreState, SubEffect.apply]
  · intro lat lon s'
    obtain ⟨e1, v1, a1, r1, h1⟩ := fetchHistoricalData_run env location lat lon
    obtain ⟨e2, v2, p2, w2, r2, h2⟩ := fetchAQI_run env lat lon
    constructor
    · rw [runM, h1]; simp [SubEffect.apply]
    · rw [runM, h2]; simp [SubEffect.apply]

/-- C25, at a concrete input: a search for "Tokyo" with the network down ends with
`loading` false. -/
theorem C25_loading_tracks_current_witness :
    (runM (fetchWeather offlineEnv "Tokyo") initialSys).st.loading = false :=
  (C25_loading_tracks_current offlineEnv "Tokyo" initialSys (by decide)).2.2.2.2.1

theorem stringAt_five (i : Int) (h0 : 0 ≤ i) (h4 : i ≤ 4) :
    stringAt ["Sunny", "Partly Cloudy", "Rain", "Cloudy", "Clear"] i ∈
      [JsVal.str "Sunny", .str "Partly Cloudy", .str "Rain", .str "Cloudy", .str "Clear"] := by
  interval_cases i <;> simp [stringAt]

/-- C26: for a draw `r` with `0 ≤ r < 1` the index `floor (r * 5)` lies in 0..4, so
the description chosen by `generateMockDay` is defined and is one of 'Sunny',
'Partly Cloudy', 'Rain', 'Cloudy', 'Clear'. -/
theorem C26_mock_description_defined (env : Env) (n : Nat) (date loc : String)
    (h0 : 0 ≤ env.random n) (h1 : env.random n < 1) :
    0 ≤ Math_floor (env.random n * 5) ∧ Math_floor (env.random n * 5) ≤ 4 ∧
    ∃ cond ∈ [JsVal.str "Sunny", .str "Partly Cloudy", .str "Rain", .str "Cloudy",
        .str "Clear"],
      (firstDay (generateMockDay env n date loc)).map
        (fun d => d.hourly.map Hourly.weather_descriptions) = some [[cond]] := by
  obtain ⟨a1, a2⟩ := floor_mul_bounds (env.random n) 5 h0 h1 (by norm_num)
  push_cast at a1 a2
  refine ⟨a1, by omega, _, stringAt_five _ a1 (by omega), ?_⟩
  simp only [generateMockDay, firstDay, List.head?, Option.map, List.map, List.length]
  push_cast
  rfl

/-- C26, at a concrete input: the draw 0 picks 'Sunny'. -/
theorem C26_mock_description_defined_witness :
    0 ≤ Math_floor (offlineEnv.random 0 * 5) ∧ Math_floor (offlineEnv.random 0 * 5) ≤ 4 ∧
    ∃ cond ∈ [JsVal.str "Sunny", .str "Partly Cloudy", .str "Rain", .str "Cloudy",
        .str "Clear"],
      (firstDay (generateMockDay offlineEnv 0 "2024-01-19" "London")).map
        (fun d => d.hourly.map Hourly.weather_descriptions) = some [[cond]] :=
  C26_mock_description_defined offlineEnv 0 "2024-01-19" "London" (le_refl _)
    (by norm_num [offlineEnv])

theorem fahrenheit_step (a b : Int) (h : a < b) :
    Int.floor ((a : Rat) * 9 / 5 + 32 + 1 / 2) < Int.floor ((b : Rat) * 9 / 5 + 32 + 1 / 2) := by
  have h1 : (a : Rat) + 1 ≤ b := by exact_mod_cast h
  have h2 : (a : Rat) * 9 / 5 + 32 + 1 / 2 + 1 ≤ (b : Rat) * 9 / 5 + 32 + 1 / 2 := by linarith
  have h3 : Int.floor ((a : Rat) * 9 / 5 + 32 + 1 / 2) + 1 ≤
      Int.floor ((b : Rat) * 9 / 5 + 32 + 1 / 2) := by
    rw [← Int.floor_add_one]
    exact Int.floor_mono h2
  omega

/-- C27 (amended): on whole Celsius values of magnitude at most `2 ^ 40` the Fahrenheit
conversion is strictly increasing, hence injective: two different stored whole-degree
temperatures in that range are never shown as the same Fahrenheit value; and for an
integer the value before rounding is never half way between two integers. -/
theorem C27_fahrenheit_strictly_increasing :
    (∀ a b : Int, |a| ≤ 2 ^ 40 → |b| ≤ 2 ^ 40 → a < b →
      ∃ fa fb : Int, convertTemp "F" (.fin a) = .fin fa ∧ convertTemp "F" (.fin b) = .fin fb ∧
        fa < fb) ∧
    (∀ a b : Int, |a| ≤ 2 ^ 40 → |b| ≤ 2 ^ 40 → a < b →
      ∃ fa fb : Int, CurrentWeather.convert "F" (.fin a) = .fin fa ∧
        CurrentWeather.convert "F" (.fin b) = .fin fb ∧ fa < fb) ∧
    (∀ a b : Int, |a| ≤ 2 ^ 40 → |b| ≤ 2 ^ 40 →
      convertTemp "F" (.fin a) = convertTemp "F" (.fin b) → a = b) ∧
    (∀ a : Int, ((a : Rat) * 9 / 5 + 32) - (Int.floor ((a : Rat) * 9 / 5 + 32) : Rat) ≠ 1 / 2) := by
  have mono : ∀ a b : Int, |a| ≤ 2 ^ 40 → |b| ≤ 2 ^ 40 → a < b →
      ∃ fa fb : Int, convertTemp "F" (.fin a) = .fin fa ∧ convertTemp "F" (.fin b) = .fin fb ∧
        fa < fb := by
    intro a b ha hb h
    exact ⟨_, _, convertTemp_int a ha, convertTemp_int b hb, fahrenheit_step a b h⟩
  refine ⟨mono, mono, ?_, ?_⟩
  · intro a b ha hb hab
    rw [convertTemp_int a ha, convertTemp_int b hb] at hab
    have hab' : Int.floor ((a : Rat) * 9 / 5 + 32 + 1 / 2) =
        Int.floor ((b : Rat) * 9 / 5 + 32 + 1 / 2) := by
      injection hab with h
      exact_mod_cast h
    rcases lt_trichotomy a b with h | h | h
    · exact absurd hab' (ne_of_lt (fahrenheit_step a b h))
    · exact h
    · exact absurd hab'.symm (ne_of_lt (fahrenheit_step b a h))
  · intro a hcon
    have h1 : (18 * a + 320 - 10 * Int.floor ((a : Rat) * 9 / 5 + 32) : Rat) = 5 := by
      linarith
    have h2 : (18 * a + 320 - 10 * Int.floor ((a : Rat) * 9 / 5 + 32) : Int) = 5 := by
      exact_mod_cast h1
    omega

/-- C27 (amended), at a concrete input: 21 and 22 degrees Celsius are shown as
different Fahrenheit values, the first below the second. -/
theorem C27_fahrenheit_strictly_increasing_witness :
    ∃ fa fb : Int, convertTemp "F" (.fin ((21 : Int) : Rat)) = .fin fa ∧
      convertTemp "F" (.fin ((22 : Int) : Rat)) = .fin fb ∧ fa < fb :=
  C27_fahrenheit_strictly_increasing.1 21 22 (by norm_num) (by norm_num) (by decide)

/-- C27 as stated fails: the whole numbers 16012798675095096 and 16012798675095098 are
both doubles, and both are shown as the same Fahrenheit value, because their products
with 9 round to the same double, 2 ^ 57. -/
theorem C27_counterexample :
    (16012798675095096 : Int) < 16012798675095098 ∧
    toDouble ((16012798675095096 : Int) : Rat) = .fin ((16012798675095096 : Int) : Rat) ∧
    toDouble ((16012798675095098 : Int) : Rat) = .fin ((16012798675095098 : Int) : Rat) ∧
    convertTemp "F" (.fin ((16012798675095096 : Int) : Rat)) =
      convertTemp "F" (.fin ((16012798675095098 : Int) : Rat)) ∧
    CurrentWeather.convert "F" (.fin ((16012798675095096 : Int) : Rat)) =
      CurrentWeather.convert "F" (.fin ((16012798675095098 : Int) : Rat)) := by
  refine ⟨by decide, ?_, ?_, large_integers_value, large_integers_value⟩
  · rw [toDouble_eval _ 53 8006399337547548 (by norm_num) (by norm_num)
      (by norm_num [abs_of_pos]) (by norm_num [abs_of_pos])
      (roundHalfEven_of_near _ _ (by norm_num [abs_lt]))]
    norm_num
  · rw [toDouble_eval _ 53 8006399337547549 (by norm_num) (by norm_num)
      (by norm_num [abs_of_pos]) (by norm_num [abs_of_pos])
      (roundHalfEven_of_near _ _ (by norm_num [abs_lt]))]
    norm_num

end Weather
